import Mathlib

/-!
# FIND tracker firmware: the BLE configuration and command handlers

A shallow embedding of `iot-firmware/arduino-ide/FIND_Tracker/bluetooth_manager.cpp`
(namespace `FIND_Tracker`), of `iot-firmware/src/bluetooth_manager.cpp` (namespace
`SrcVariant`) and of `iot-firmware/src/main.cpp` (namespace `MainCpp`), with the
`DeviceConfig` record of `config.h`.

* Bytes are natural numbers; a `char[N]` field is the list of its `N` bytes.
* The global variables of the translation unit are the record `Globals`; every
  handler maps the globals before the call to the globals after it, together with
  the list of calls it made into the outside world (`Effect`), oldest first.
  `Serial` output is not recorded.
* ArduinoJson, the C library and the WiFi driver are not part of the repository.
  The JSON reader and the number-to-`float` conversion are the parameter
  `JsonLibrary`; `referenceLibrary` is one concrete instance, used to run the
  handlers on concrete payloads.
-/

/-! ## Bytes and C strings -/

/-- The bytes of an ASCII string literal. -/
def ascii (s : String) : List Nat := s.toList.map Char.toNat

/-- The C string that starts at the first byte of `s`: everything before the first NUL. -/
def c_str (s : List Nat) : List Nat := s.takeWhile (fun b => b ≠ 0)

/-- The C library `strlen`: number of bytes before the first NUL. -/
def strlen (s : List Nat) : Nat := (c_str s).length

/-- The bytes `strlcpy(dst, src, size)` writes, starting at `dst[0]`: at most `size - 1`
bytes of the C string `src`, then a NUL; nothing when `size` is 0. -/
def strlcpyBytes (src : List Nat) (size : Nat) : List Nat :=
  if size = 0 then [] else (c_str src).take (size - 1) ++ [0]

/-- The C library `strlcpy(dst, src, size)` as a function on the memory that starts at
`dst`: the written bytes replace the first bytes of that memory and the rest is left as
it was. A result longer than `dst` would mean bytes were written past the end of `dst`. -/
def strlcpy (dst src : List Nat) (size : Nat) : List Nat :=
  strlcpyBytes src size ++ dst.drop (strlcpyBytes src size).length

/-! ## `config.h` -/

/-- A C `float`, by its IEEE-754 binary32 bit pattern. -/
structure CFloat where
  bits : Nat
deriving DecidableEq, Repr

/-- `#define DEFAULT_TRANSMIT_INTERVAL 60`. -/
def DEFAULT_TRANSMIT_INTERVAL : Int := 60

/-- `#define DEFAULT_MOTION_THRESHOLD 0.5f`. -/
def DEFAULT_MOTION_THRESHOLD : CFloat := ⟨0x3F000000⟩

/-- `#define LED_PIN 2` (of `src/config.h`). -/
def LED_PIN : Nat := 2

/-- `struct DeviceConfig`. -/
structure DeviceConfig where
  /-- `char wifi_ssid[32]`. -/
  wifi_ssid : List Nat
  /-- `char wifi_password[32]`. -/
  wifi_password : List Nat
  /-- `char device_id[37]`. -/
  device_id : List Nat
  /-- `char api_endpoint[100]`. -/
  api_endpoint : List Nat
  /-- `char api_key[100]`. -/
  api_key : List Nat
  paired : Bool
  /-- `int transmit_interval`, in seconds. -/
  transmit_interval : Int
  motion_threshold : CFloat
deriving DecidableEq, Repr

/-- `sizeof(config.wifi_ssid)`. -/
def sizeof_wifi_ssid : Nat := 32
/-- `sizeof(config.wifi_password)`. -/
def sizeof_wifi_password : Nat := 32
/-- `sizeof(config.device_id)`. -/
def sizeof_device_id : Nat := 37
/-- `sizeof(config.api_endpoint)`. -/
def sizeof_api_endpoint : Nat := 100
/-- `sizeof(config.api_key)`. -/
def sizeof_api_key : Nat := 100

/-- The five `char` arrays have their declared sizes. Every `DeviceConfig` object of the
firmware satisfies this; it is what the list representation leaves out of the type. -/
def DeviceConfig.WellSized (c : DeviceConfig) : Prop :=
  c.wifi_ssid.length = sizeof_wifi_ssid ∧ c.wifi_password.length = sizeof_wifi_password ∧
  c.device_id.length = sizeof_device_id ∧ c.api_endpoint.length = sizeof_api_endpoint ∧
  c.api_key.length = sizeof_api_key

instance (c : DeviceConfig) : Decidable c.WellSized := by
  unfold DeviceConfig.WellSized; infer_instance

/-- The object left by `memset(&config, 0, sizeof(config))`: every byte of every field is 0. -/
def memset_zero : DeviceConfig where
  wifi_ssid := List.replicate sizeof_wifi_ssid 0
  wifi_password := List.replicate sizeof_wifi_password 0
  device_id := List.replicate sizeof_device_id 0
  api_endpoint := List.replicate sizeof_api_endpoint 0
  api_key := List.replicate sizeof_api_key 0
  paired := false
  transmit_interval := 0
  motion_threshold := ⟨0⟩

/-! ## The JSON document, as the handlers read it -/

/-- A value of an ArduinoJson document. A number read without fraction and exponent is
`integer`; any other number is `real mantissa exponent`, standing for
`mantissa * 10 ^ exponent`. -/
inductive JsonVariant where
  | null
  | boolean (b : Bool)
  | integer (i : Int)
  | real (mantissa exponent : Int)
  | string (s : List Nat)
  | array (elements : List JsonVariant)
  | object (members : List (List Nat × JsonVariant))

/-- What the firmware uses of ArduinoJson: `deserializeJson` into a document of the given
capacity (`none` for every `DeserializationError`), and the conversion of a decimal
number `mantissa * 10 ^ exponent` to `float` behind `as<float>()`. -/
structure JsonLibrary where
  deserializeJson : (capacity : Nat) → (input : List Nat) → Option JsonVariant
  toFloat : (mantissa exponent : Int) → CFloat

/-- `doc[key]`: the member of that name when the root is an object. -/
def JsonVariant.getMember (doc : JsonVariant) (key : List Nat) : Option JsonVariant :=
  match doc with
  | .object members => members.lookup key
  | _ => none

/-- `doc.containsKey(key)`. -/
def JsonVariant.containsKey (doc : JsonVariant) (key : List Nat) : Bool :=
  (doc.getMember key).isSome

/-- `doc[key] | defaultValue` with a `const char*` default: the string when the member is
a string, the default otherwise. -/
def JsonVariant.stringOr (doc : JsonVariant) (key : List Nat) (defaultValue : List Nat) :
    List Nat :=
  match doc.getMember key with
  | some (.string s) => s
  | _ => defaultValue

/-- `INT_MIN` of the 32-bit `int`. -/
def INT_MIN : Int := -2147483648
/-- `INT_MAX` of the 32-bit `int`. -/
def INT_MAX : Int := 2147483647

/-- `doc[key] | defaultValue` with an `int` default: the number when the member is an
integer that fits `int`, the default otherwise. -/
def JsonVariant.intOr (doc : JsonVariant) (key : List Nat) (defaultValue : Int) : Int :=
  match doc.getMember key with
  | some (.integer i) => if INT_MIN ≤ i ∧ i ≤ INT_MAX then i else defaultValue
  | _ => defaultValue

/-- `doc[key] | defaultValue` with a `float` default: the converted number when the member
is a number, the default otherwise. -/
def JsonVariant.floatOr (lib : JsonLibrary) (doc : JsonVariant) (key : List Nat)
    (defaultValue : CFloat) : CFloat :=
  match doc.getMember key with
  | some (.integer i) => lib.toFloat i 0
  | some (.real m e) => lib.toFloat m e
  | _ => defaultValue

/-! ## A reference JSON reader

One concrete `JsonLibrary`, so that the handlers can be run on concrete payloads. It reads
RFC 8259 text the way `deserializeJson` does: leading blanks are skipped, the first value
is read, whatever follows it is ignored, empty input and nesting deeper than 10 are
errors, and a repeated key keeps its last value. Document capacity is not modelled. -/

/-- Blank, tab, line feed, carriage return. -/
def isJsonSpace (c : Nat) : Bool := c = 32 || c = 9 || c = 10 || c = 13

/-- Drop leading JSON white space. -/
def skipSpaces : List Nat → List Nat
  | [] => []
  | c :: cs => if isJsonSpace c then skipSpaces cs else c :: cs

/-- Value of a hexadecimal digit. -/
def hexDigit (c : Nat) : Option Nat :=
  if 48 ≤ c ∧ c ≤ 57 then some (c - 48)
  else if 97 ≤ c ∧ c ≤ 102 then some (c - 87)
  else if 65 ≤ c ∧ c ≤ 70 then some (c - 55)
  else none

/-- UTF-8 bytes of a code point of the basic plane. -/
def utf8Encode (cp : Nat) : List Nat :=
  if cp < 128 then [cp]
  else if cp < 2048 then [192 + cp / 64, 128 + cp % 64]
  else [224 + cp / 4096, 128 + cp / 64 % 64, 128 + cp % 64]

/-- The character an escape letter stands for. -/
def unescape (c : Nat) : Option Nat :=
  if c = 34 ∨ c = 92 ∨ c = 47 then some c
  else if c = 98 then some 8
  else if c = 102 then some 12
  else if c = 110 then some 10
  else if c = 114 then some 13
  else if c = 116 then some 9
  else none

/-- Read a string after its opening quote: the bytes (reversed into `acc`) up to the
closing quote, and the input after it. -/
def readString : List Nat → List Nat → Option (List Nat × List Nat)
  | [], _ => none
  | c :: cs, acc =>
    if c = 34 then some (acc.reverse, cs)
    else if c = 92 then
      match cs with
      | [] => none
      | e :: rest =>
        if e = 117 then
          match rest with
          | a :: b :: c3 :: d :: rest4 =>
            match hexDigit a, hexDigit b, hexDigit c3, hexDigit d with
            | some x, some y, some z, some w =>
              readString rest4 ((utf8Encode (x * 4096 + y * 256 + z * 16 + w)).reverse ++ acc)
            | _, _, _, _ => none
          | _ => none
        else
          match unescape e with
          | some u => readString rest (u :: acc)
          | none => none
    else readString cs (c :: acc)

/-- Leading decimal digits of the input, as their values, and the input after them. -/
def readDigits : List Nat → List Nat × List Nat
  | [] => ([], [])
  | c :: cs =>
    if 48 ≤ c ∧ c ≤ 57 then ((c - 48) :: (readDigits cs).1, (readDigits cs).2)
    else ([], c :: cs)

/-- The number written by a list of decimal digits. -/
def digitsValue (ds : List Nat) : Nat := ds.foldl (fun n d => 10 * n + d) 0

/-- Read the optional exponent part of a number. -/
def readExponent (cs : List Nat) : Option (Option Int × List Nat) :=
  match cs with
  | [] => some (none, [])
  | c :: rest =>
    if c = 101 ∨ c = 69 then
      match rest with
      | [] => none
      | s :: rest2 =>
        let negative := s = 45
        let body := if s = 45 ∨ s = 43 then rest2 else s :: rest2
        match readDigits body with
        | ([], _) => none
        | (ds, after) =>
          some (some (if negative then -(digitsValue ds : Int) else digitsValue ds), after)
    else some (none, c :: rest)

/-- Read the optional fraction part of a number. -/
def readFraction (cs : List Nat) : Option (List Nat × List Nat) :=
  match cs with
  | [] => some ([], [])
  | c :: rest =>
    if c = 46 then
      match readDigits rest with
      | ([], _) => none
      | (ds, after) => some (ds, after)
    else some ([], c :: rest)

/-- Read a number whose sign has been read already. -/
def readNumber (negative : Bool) (cs : List Nat) : Option (JsonVariant × List Nat) :=
  match readDigits cs with
  | ([], _) => none
  | (ds, after) =>
    match readFraction after with
    | none => none
    | some (fs, after2) =>
      match readExponent after2 with
      | none => none
      | some (ex, after3) =>
        let magnitude : Int := digitsValue (ds ++ fs)
        let m : Int := if negative then -magnitude else magnitude
        if fs = [] ∧ ex = none then some (.integer m, after3)
        else some (.real m (ex.getD 0 - fs.length), after3)

/-- If `cs` starts with `word`, the input after it. -/
def readWord (word cs : List Nat) : Option (List Nat) :=
  if word.isPrefixOf cs then some (cs.drop word.length) else none

/-- Store a member; a key that is there already takes the new value. -/
def setMember (members : List (List Nat × JsonVariant)) (key : List Nat) (v : JsonVariant) :
    List (List Nat × JsonVariant) :=
  if (members.lookup key).isSome then
    members.map (fun kv => if kv.1 = key then (key, v) else kv)
  else members ++ [(key, v)]

mutual
/-- Read one value. `fuel` bounds the number of calls, `depth` the nesting still allowed. -/
def readValue : (fuel : Nat) → (depth : Nat) → List Nat → Option (JsonVariant × List Nat)
  | 0, _, _ => none
  | fuel + 1, depth, cs =>
    match skipSpaces cs with
    | [] => none
    | c :: rest =>
      if c = 123 then
        match depth with
        | 0 => none
        | depth + 1 =>
          match skipSpaces rest with
          | [] => none
          | c2 :: rest2 =>
            if c2 = 125 then some (.object [], rest2)
            else readMembers fuel depth (c2 :: rest2) []
      else if c = 91 then
        match depth with
        | 0 => none
        | depth + 1 =>
          match skipSpaces rest with
          | [] => none
          | c2 :: rest2 =>
            if c2 = 93 then some (.array [], rest2)
            else readElements fuel depth (c2 :: rest2) []
      else if c = 34 then
        match readString rest [] with
        | some (s, after) => some (.string s, after)
        | none => none
      else if c = 116 then (readWord (ascii "rue") rest).map (fun r => (.boolean true, r))
      else if c = 102 then (readWord (ascii "alse") rest).map (fun r => (.boolean false, r))
      else if c = 110 then (readWord (ascii "ull") rest).map (fun r => (.null, r))
      else if c = 45 then readNumber true rest
      else readNumber false (c :: rest)
/-- Read the members of an object, from a key up to the closing brace. -/
def readMembers : (fuel : Nat) → (depth : Nat) → List Nat → List (List Nat × JsonVariant) →
    Option (JsonVariant × List Nat)
  | 0, _, _, _ => none
  | fuel + 1, depth, cs, acc =>
    match skipSpaces cs with
    | [] => none
    | q :: rest =>
      if q = 34 then
        match readString rest [] with
        | none => none
        | some (key, after) =>
          match skipSpaces after with
          | [] => none
          | colon :: after2 =>
            if colon = 58 then
              match readValue fuel depth after2 with
              | none => none
              | some (v, after3) =>
                match skipSpaces after3 with
                | [] => none
                | sep :: after4 =>
                  if sep = 125 then some (.object (setMember acc key v), after4)
                  else if sep = 44 then readMembers fuel depth after4 (setMember acc key v)
                  else none
            else none
      else none
/-- Read the elements of an array, from a value up to the closing bracket. -/
def readElements : (fuel : Nat) → (depth : Nat) → List Nat → List JsonVariant →
    Option (JsonVariant × List Nat)
  | 0, _, _, _ => none
  | fuel + 1, depth, cs, acc =>
    match readValue fuel depth cs with
    | none => none
    | some (v, after) =>
      match skipSpaces after with
      | [] => none
      | sep :: after2 =>
        if sep = 93 then some (.array (acc ++ [v]), after2)
        else if sep = 44 then readElements fuel depth after2 (acc ++ [v])
        else none
end

/-- `ARDUINOJSON_DEFAULT_NESTING_LIMIT`. -/
def NESTING_LIMIT : Nat := 10

/-- The reference `deserializeJson`: the first value of the input. A call of `readValue`
reads at least one byte or fails, and a call of `readMembers` or `readElements` follows a
byte read by its caller, so fewer than `2 * input.length + 2` calls are made. -/
def referenceDeserializeJson (_capacity : Nat) (input : List Nat) : Option JsonVariant :=
  (readValue (2 * input.length + 2) (NESTING_LIMIT + 1) input).map Prod.fst

/-- Number of binary digits of `n`, minus one (0 for `n ≤ 1`). -/
def floorLog2 : (fuel : Nat) → Nat → Nat
  | 0, _ => 0
  | fuel + 1, n => if 2 ≤ n then floorLog2 fuel (n / 2) + 1 else 0

/-- Magnitude bits of the binary32 nearest to `num / den`, ties to even. -/
def roundBinary32 (num den : Nat) : Nat :=
  if num = 0 ∨ den = 0 then 0
  else
    let k0 : Int := (floorLog2 num num : Int) - (floorLog2 den den : Int)
    let below : Bool := if 0 ≤ k0 then num < den * 2 ^ k0.toNat else num * 2 ^ (-k0).toNat < den
    let k : Int := if below then k0 - 1 else k0
    let e : Int := max k (-126)
    let s : Int := 23 - e
    let n : Nat := if 0 ≤ s then num * 2 ^ s.toNat else num
    let d : Nat := if 0 ≤ s then den else den * 2 ^ (-s).toNat
    let q : Nat := n / d
    let r : Nat := n % d
    let m : Nat := if d < 2 * r ∨ (2 * r = d ∧ q % 2 = 1) then q + 1 else q
    let m2 : Nat := if 2 ^ 24 ≤ m then m / 2 else m
    let e2 : Int := if 2 ^ 24 ≤ m then e + 1 else e
    if 127 < e2 then 0x7F800000
    else if m2 < 2 ^ 23 then m2
    else (e2 + 127).toNat * 2 ^ 23 + (m2 - 2 ^ 23)

/-- The reference conversion to `float`: the binary32 nearest to `mantissa * 10 ^ exponent`. -/
def referenceToFloat (mantissa exponent : Int) : CFloat :=
  let sign : Nat := if mantissa < 0 then 2 ^ 31 else 0
  let magnitude : Nat :=
    if 0 ≤ exponent then roundBinary32 (mantissa.natAbs * 10 ^ exponent.toNat) 1
    else roundBinary32 mantissa.natAbs (10 ^ (-exponent).toNat)
  ⟨sign + magnitude⟩

/-- The reference instance of the library. -/
def referenceLibrary : JsonLibrary where
  deserializeJson := referenceDeserializeJson
  toFloat := referenceToFloat

/-! ## Globals and calls into the outside world -/

/-- A value stored in the status document. -/
inductive StatusValue where
  | number (f : CFloat)
  | flag (b : Bool)
  | whole (i : Int)
deriving DecidableEq, Repr

/-- A call made by a handler into the BLE stack, the WiFi driver, the board or the rest of
the firmware. -/
inductive Effect where
  /-- `saveConfig()`, with the value of `config` at the time of the call. -/
  | saveConfig (stored : DeviceConfig)
  /-- `WiFi.disconnect()`. -/
  | wifiDisconnect
  /-- `WiFi.begin(ssid, passphrase)`, with the two C strings passed. -/
  | wifiBegin (ssid passphrase : List Nat)
  /-- `delay(ms)`. -/
  | delay (ms : Nat)
  /-- `ESP.restart()`. -/
  | restart
  /-- `startAdvertising()`, on `NimBLEDevice` or on `pServer`. -/
  | startAdvertising
  /-- `digitalWrite(pin, level)`, `true` for `HIGH`. -/
  | digitalWrite (pin : Nat) (level : Bool)
  /-- `triggerBuzzer(duration)`. -/
  | triggerBuzzer (duration : Int)
  /-- `pStatusCharacteristic->setValue(...)`, with the members of the serialised document
  in the order they were assigned. -/
  | setValue (members : List (List Nat × StatusValue))
  /-- `notify()` on the status characteristic, in `main.cpp` on its one characteristic. -/
  | notify
  /-- `pCharacteristic->setValue(text)` of `main.cpp`, with the text. -/
  | setText (text : List Nat)
  /-- `esp_sleep_enable_ext0_wakeup(pin, level)`. -/
  | enableExt0Wakeup (pin : Nat) (level : Bool)
  /-- `esp_sleep_enable_timer_wakeup(microseconds)`. -/
  | enableTimerWakeup (microseconds : Nat)
  /-- `esp_deep_sleep_start()`. -/
  | deepSleepStart
deriving DecidableEq, Repr

/-- The global variables of `bluetooth_manager.cpp` that the handlers read or write. -/
structure Globals where
  config : DeviceConfig
  deviceConnected : Bool
  oldDeviceConnected : Bool
deriving DecidableEq, Repr

/-- The field updates of `ConfigCallbacks::onWrite` after a successful parse, from
"Update WiFi credentials" to "Mark as paired"; the same statements in both variants. -/
def updateConfig (lib : JsonLibrary) (doc : JsonVariant) (config : DeviceConfig) : DeviceConfig :=
  let config :=
    if doc.containsKey (ascii "wifi_ssid") && doc.containsKey (ascii "wifi_password") then
      let config := { config with
        wifi_ssid := strlcpy config.wifi_ssid (doc.stringOr (ascii "wifi_ssid") []) sizeof_wifi_ssid }
      { config with
        wifi_password :=
          strlcpy config.wifi_password (doc.stringOr (ascii "wifi_password") []) sizeof_wifi_password }
    else config
  let config :=
    if doc.containsKey (ascii "device_id") then
      { config with
        device_id := strlcpy config.device_id (doc.stringOr (ascii "device_id") []) sizeof_device_id }
    else config
  let config :=
    if doc.containsKey (ascii "api_endpoint") then
      { config with
        api_endpoint :=
          strlcpy config.api_endpoint (doc.stringOr (ascii "api_endpoint") []) sizeof_api_endpoint }
    else config
  let config :=
    if doc.containsKey (ascii "api_key") then
      { config with
        api_key := strlcpy config.api_key (doc.stringOr (ascii "api_key") []) sizeof_api_key }
    else config
  let config :=
    if doc.containsKey (ascii "transmit_interval") then
      { config with
        transmit_interval := doc.intOr (ascii "transmit_interval") DEFAULT_TRANSMIT_INTERVAL }
    else config
  let config :=
    if doc.containsKey (ascii "motion_threshold") then
      { config with
        motion_threshold := doc.floatOr lib (ascii "motion_threshold") DEFAULT_MOTION_THRESHOLD }
    else config
  { config with paired := true }

/-- The test `doc.containsKey("wifi_ssid") && doc.containsKey("wifi_password")`. -/
def hasCredentials (doc : JsonVariant) : Bool :=
  doc.containsKey (ascii "wifi_ssid") && doc.containsKey (ascii "wifi_password")

namespace FIND_Tracker

/-- `ServerCallbacks::onConnect`. -/
def ServerCallbacks.onConnect (g : Globals) : Globals × List Effect :=
  ({ g with deviceConnected := true }, [])

/-- `ServerCallbacks::onDisconnect`. -/
def ServerCallbacks.onDisconnect (g : Globals) : Globals × List Effect :=
  ({ g with deviceConnected := false }, [Effect.startAdvertising])

/-- `ConfigCallbacks::onWrite`, for the written characteristic value `value`. -/
def ConfigCallbacks.onWrite (lib : JsonLibrary) (value : List Nat) (g : Globals) :
    Globals × List Effect :=
  if value.length > 0 then
    match lib.deserializeJson 1024 (c_str value) with
    | some doc =>
      let config := updateConfig lib doc g.config
      ({ g with config := config },
        [Effect.saveConfig config] ++
        (if hasCredentials doc then
          [Effect.wifiDisconnect, Effect.delay 1000,
           Effect.wifiBegin (c_str config.wifi_ssid) (c_str config.wifi_password)]
         else []))
    | none => (g, [])
  else (g, [])

/-- `CommandCallbacks::onWrite`, for the written characteristic value `value`. -/
def CommandCallbacks.onWrite (lib : JsonLibrary) (value : List Nat) (g : Globals) :
    Globals × List Effect :=
  if value.length > 0 then
    match lib.deserializeJson 256 (c_str value) with
    | some doc =>
      let command := c_str (doc.stringOr (ascii "command") [])
      if command = ascii "reset" then
        (g, [Effect.delay 1000, Effect.restart])
      else if command = ascii "factory_reset" then
        ({ g with config := memset_zero },
          [Effect.saveConfig memset_zero, Effect.delay 1000, Effect.restart])
      else if command = ascii "locate" then (g, [])
      else (g, [])
    | none => (g, [])
  else (g, [])

/-- `updateBLEStatus`; `batteryLevel` is what `calculateBatteryLevel()` returns. -/
def updateBLEStatus (batteryLevel : Int) (lat lng accX accY accZ : CFloat) (motion : Bool)
    (g : Globals) : Globals × List Effect :=
  let sent :=
    if g.deviceConnected then
      [Effect.setValue
        [(ascii "lat", .number lat), (ascii "lng", .number lng), (ascii "acc_x", .number accX),
         (ascii "acc_y", .number accY), (ascii "acc_z", .number accZ),
         (ascii "motion", .flag motion), (ascii "battery", .whole batteryLevel)],
       Effect.notify]
    else []
  let readvertised :=
    if !g.deviceConnected && g.oldDeviceConnected then
      [Effect.delay 500, Effect.startAdvertising]
    else []
  let g :=
    if !g.deviceConnected && g.oldDeviceConnected then
      { g with oldDeviceConnected := g.deviceConnected }
    else g
  let g :=
    if g.deviceConnected && !g.oldDeviceConnected then
      { g with oldDeviceConnected := g.deviceConnected }
    else g
  (g, sent ++ readvertised)

end FIND_Tracker

namespace SrcVariant

/-- The loop `for (i < n) { digitalWrite(LED_PIN, HIGH); delay(ms); digitalWrite(LED_PIN, LOW);
delay(ms); }`. -/
def flashLed : (n : Nat) → (ms : Nat) → List Effect
  | 0, _ => []
  | n + 1, ms =>
    [Effect.digitalWrite LED_PIN true, Effect.delay ms,
     Effect.digitalWrite LED_PIN false, Effect.delay ms] ++ flashLed n ms

/-- The loop `while (WiFi.status() != WL_CONNECTED && attempts < 20)`, with `remaining`
for `20 - attempts`. `wifiStatus k` tells whether the call number `k` of `WiFi.status()`
in this handler returns `WL_CONNECTED`; `led` is the level `digitalRead(LED_PIN)` returns,
the one written last. The result is the calls made and the number of `WiFi.status()`
calls so far. -/
def waitForWiFi (wifiStatus : Nat → Bool) : (remaining : Nat) → (polls : Nat) → (led : Bool) →
    List Effect × Nat
  | 0, polls, _ => ([], polls + 1)
  | remaining + 1, polls, led =>
    if wifiStatus polls then ([], polls + 1)
    else
      ([Effect.delay 500, Effect.digitalWrite LED_PIN (!led)] ++
          (waitForWiFi wifiStatus remaining (polls + 1) (!led)).1,
        (waitForWiFi wifiStatus remaining (polls + 1) (!led)).2)

/-- `ServerCallbacks::onConnect`. -/
def ServerCallbacks.onConnect (g : Globals) : Globals × List Effect :=
  ({ g with deviceConnected := true }, [Effect.digitalWrite LED_PIN true])

/-- `ServerCallbacks::onDisconnect`. -/
def ServerCallbacks.onDisconnect (g : Globals) : Globals × List Effect :=
  ({ g with deviceConnected := false },
    [Effect.digitalWrite LED_PIN false, Effect.startAdvertising])

/-- `ConfigCallbacks::onWrite`, for the written characteristic value `value`. -/
def ConfigCallbacks.onWrite (lib : JsonLibrary) (wifiStatus : Nat → Bool) (value : List Nat)
    (g : Globals) : Globals × List Effect :=
  if value.length > 0 then
    match lib.deserializeJson 1024 (c_str value) with
    | some doc =>
      let config := updateConfig lib doc g.config
      ({ g with config := config },
        [Effect.saveConfig config] ++ flashLed 5 100 ++
        (if hasCredentials doc then
          [Effect.wifiDisconnect, Effect.delay 1000,
           Effect.wifiBegin (c_str config.wifi_ssid) (c_str config.wifi_password)] ++
          (waitForWiFi wifiStatus 20 0 false).1 ++
          (if wifiStatus (waitForWiFi wifiStatus 20 0 false).2 then flashLed 3 50
           else [Effect.digitalWrite LED_PIN false])
         else []))
    | none => (g, [])
  else (g, [])

/-- `CommandCallbacks::onWrite`, for the written characteristic value `value`. -/
def CommandCallbacks.onWrite (lib : JsonLibrary) (value : List Nat) (g : Globals) :
    Globals × List Effect :=
  if value.length > 0 then
    match lib.deserializeJson 256 (c_str value) with
    | some doc =>
      let command := c_str (doc.stringOr (ascii "command") [])
      if command = ascii "buzzer" then
        (g, [Effect.triggerBuzzer (doc.intOr (ascii "duration") 1000)])
      else if command = ascii "reset" then
        (g, [Effect.delay 1000, Effect.restart])
      else if command = ascii "factory_reset" then
        ({ g with config := memset_zero },
          [Effect.saveConfig memset_zero, Effect.delay 1000, Effect.restart])
      else if command = ascii "locate" then (g, [])
      else (g, [])
    | none => (g, [])
  else (g, [])

/-- `updateBLEStatus`; `batteryLevel` is what `calculateBatteryLevel()` returns. -/
def updateBLEStatus (batteryLevel : Int) (lat lng accX accY accZ : CFloat) (motion : Bool)
    (g : Globals) : Globals × List Effect :=
  let sent :=
    if g.deviceConnected then
      [Effect.setValue
        [(ascii "lat", .number lat), (ascii "lng", .number lng), (ascii "acc_x", .number accX),
         (ascii "acc_y", .number accY), (ascii "acc_z", .number accZ),
         (ascii "motion", .flag motion), (ascii "battery", .whole batteryLevel)],
       Effect.notify]
    else []
  let readvertised :=
    if !g.deviceConnected && g.oldDeviceConnected then
      [Effect.delay 500, Effect.startAdvertising]
    else []
  let g :=
    if !g.deviceConnected && g.oldDeviceConnected then
      { g with oldDeviceConnected := g.deviceConnected }
    else g
  let g :=
    if g.deviceConnected && !g.oldDeviceConnected then
      { g with oldDeviceConnected := g.deviceConnected }
    else g
  (g, sent ++ readvertised)

end SrcVariant

/-! ## Observations on the calls made, and sample data -/

/-- Is the call a `saveConfig()`? -/
def Effect.isSaveConfig : Effect → Bool
  | .saveConfig _ => true
  | _ => false

/-- Is the call a `WiFi.begin(...)`? -/
def Effect.isWifiBegin : Effect → Bool
  | .wifiBegin _ _ => true
  | _ => false

/-- Is the call an `ESP.restart()`? -/
def Effect.isRestart : Effect → Bool
  | .restart => true
  | _ => false

/-- A `char[size]` array that holds the C string `s`, the rest filled with `fill`. -/
def charArray (s : String) (size : Nat) (fill : Nat) : List Nat :=
  ascii s ++ [0] ++ List.replicate (size - (ascii s).length - 1) fill

/-- A configuration of an unpaired device. -/
def sampleConfig : DeviceConfig where
  wifi_ssid := charArray "home" sizeof_wifi_ssid 0
  wifi_password := charArray "secret" sizeof_wifi_password 0
  device_id := charArray "tracker-1" sizeof_device_id 0
  api_endpoint := charArray "http://find.local/api" sizeof_api_endpoint 0
  api_key := charArray "k3y" sizeof_api_key 0
  paired := false
  transmit_interval := 60
  motion_threshold := DEFAULT_MOTION_THRESHOLD

/-- The same configuration after pairing. -/
def pairedConfig : DeviceConfig := { sampleConfig with paired := true }

/-- Globals of a device with a connected client. -/
def sampleGlobals : Globals where
  config := sampleConfig
  deviceConnected := true
  oldDeviceConnected := true

/-- Globals of a paired device with a connected client. -/
def pairedGlobals : Globals := { sampleGlobals with config := pairedConfig }

/-- A `WiFi.status()` that reports `WL_CONNECTED` from its fourth call on. -/
def sampleWifiStatus (k : Nat) : Bool := decide (3 ≤ k)

/-- The payload `{not json`. -/
def malformedPayload : List Nat := ascii "\x7bnot json"

/-- The payload `{"transmit_interval":120}`. -/
def intervalPayload : List Nat := ascii "\x7b\"transmit_interval\":120\x7d"

/-- The payload `{"transmit_interval":0}`. -/
def zeroIntervalPayload : List Nat := ascii "\x7b\"transmit_interval\":0\x7d"

/-- The payload `{"transmit_interval":-5,"device_id":"tracker-2"}`. -/
def negativeIntervalPayload : List Nat :=
  ascii "\x7b\"transmit_interval\":-5,\"device_id\":\"tracker-2\"\x7d"

/-- A `wifi_ssid` of 40 ASCII characters. -/
def longSsid : List Nat := List.replicate 40 65

/-- The payload `{"wifi_ssid":"AAAA...A"}` with 40 letters and no `wifi_password`. -/
def longSsidPayload : List Nat :=
  ascii "\x7b\"wifi_ssid\":\"" ++ longSsid ++ ascii "\"\x7d"

/-- The payload `{"wifi_ssid":"AAAA...A","wifi_password":"hunter2"}` with 40 letters. -/
def credentialsPayload : List Nat :=
  ascii "\x7b\"wifi_ssid\":\"" ++ longSsid ++ ascii "\",\"wifi_password\":\"hunter2\"\x7d"

/-- The payload `{"wifi_ssid":"office"}`. -/
def ssidOnlyPayload : List Nat := ascii "\x7b\"wifi_ssid\":\"office\"\x7d"

/-- The payload `{"command":"factory_reset"}`. -/
def factoryResetPayload : List Nat := ascii "\x7b\"command\":\"factory_reset\"\x7d"

/-- The payload `{"command":"unknown_cmd"}`. -/
def unknownCommandPayload : List Nat := ascii "\x7b\"command\":\"unknown_cmd\"\x7d"

/-- The payload `{"command":"reset"}`. -/
def resetPayload : List Nat := ascii "\x7b\"command\":\"reset\"\x7d"

/-! ## The operations on the globals -/

/-- What can happen to the globals of `bluetooth_manager.cpp`: a link event, a write to
the config or to the command characteristic, or a call of `updateBLEStatus`. -/
inductive Operation where
  | connect
  | disconnect
  | configWrite (value : List Nat)
  | commandWrite (value : List Nat)
  | statusUpdate (batteryLevel : Int) (lat lng accX accY accZ : CFloat) (motion : Bool)

/-- The operation is a command write that parses and whose `command` is `factory_reset`. -/
def Operation.IsFactoryReset (lib : JsonLibrary) : Operation → Prop
  | .commandWrite value =>
    value.length > 0 ∧ ∃ doc, lib.deserializeJson 256 (c_str value) = some doc ∧
      c_str (doc.stringOr (ascii "command") []) = ascii "factory_reset"
  | _ => False

/-- The handler that an operation runs, in the Arduino IDE variant. -/
def FIND_Tracker.perform (lib : JsonLibrary) : Operation → Globals → Globals × List Effect
  | .connect => FIND_Tracker.ServerCallbacks.onConnect
  | .disconnect => FIND_Tracker.ServerCallbacks.onDisconnect
  | .configWrite value => FIND_Tracker.ConfigCallbacks.onWrite lib value
  | .commandWrite value => FIND_Tracker.CommandCallbacks.onWrite lib value
  | .statusUpdate batteryLevel lat lng accX accY accZ motion =>
    FIND_Tracker.updateBLEStatus batteryLevel lat lng accX accY accZ motion

/-- The handler that an operation runs, in the variant of `src/`. -/
def SrcVariant.perform (lib : JsonLibrary) (wifiStatus : Nat → Bool) :
    Operation → Globals → Globals × List Effect
  | .connect => SrcVariant.ServerCallbacks.onConnect
  | .disconnect => SrcVariant.ServerCallbacks.onDisconnect
  | .configWrite value => SrcVariant.ConfigCallbacks.onWrite lib wifiStatus value
  | .commandWrite value => SrcVariant.CommandCallbacks.onWrite lib value
  | .statusUpdate batteryLevel lat lng accX accY accZ motion =>
    SrcVariant.updateBLEStatus batteryLevel lat lng accX accY accZ motion


/-! ## `main.cpp`: the stand-alone tracker program

`main.cpp` has its own globals, its own `ServerCallbacks` and a `loop()` that polls them.
One call of `loop()` is a function of the globals and of what the board returns to the
calls that the iteration makes (`LoopInputs`); the BLE callbacks and the motion interrupt
are taken to run between iterations. `unsigned long` is 32 bits wide on the ESP32. The
rounding of `double` and `float` arithmetic is the parameter `FloatArithmetic`. -/

/-- Number of values of a 32-bit `unsigned long`. -/
def UINT32_RANGE : Nat := 2 ^ 32

/-- The difference `a - b` of two `unsigned long`, which wraps around. -/
def usub32 (a b : Nat) : Nat :=
  (a % UINT32_RANGE + UINT32_RANGE - b % UINT32_RANGE) % UINT32_RANGE

/-- The floating-point arithmetic of the target: the `double` and the `float` that an
exact result is rounded to. -/
structure FloatArithmetic where
  toDouble : ℚ → ℚ
  toFloat : ℚ → ℚ

/-- What is used of IEEE-754 rounding to `float`: a larger exact result never rounds to a
smaller `float`, and the integers up to `2 ^ 24` are `float` values. -/
def FloatArithmetic.IsRounding (R : FloatArithmetic) : Prop :=
  Monotone R.toFloat ∧ ∀ n : ℤ, |n| ≤ 2 ^ 24 → R.toFloat n = n

/-- Arithmetic without rounding error. -/
def exactArithmetic : FloatArithmetic where
  toDouble := id
  toFloat := id

/-- The conversion of a floating-point value to `long`, which truncates. -/
def toLong (q : ℚ) : Int := Int.tdiv q.num q.den

/-- The Arduino `map(x, in_min, in_max, out_min, out_max)` on `long`, with the division of
C, which truncates. -/
def map (x in_min in_max out_min out_max : Int) : Int :=
  Int.tdiv ((x - in_min) * (out_max - out_min)) (in_max - in_min) + out_min

/-- The Arduino macro `constrain(amt, low, high)`. -/
def constrain (amt low high : Int) : Int :=
  if amt < low then low else if amt > high then high else amt

namespace MainCpp

/-- `const int BUTTON_PIN = 0`. -/
def BUTTON_PIN : Nat := 0
/-- `const int MPU_INT_PIN = 15`. -/
def MPU_INT_PIN : Nat := 15

/-- The global variables of `main.cpp` that `loop()` and the callbacks read or write,
with the two `static` locals of `loop()`. -/
structure Globals where
  deviceConnected : Bool
  oldDeviceConnected : Bool
  motionDetected : Bool
  lastWakeupTime : Nat
  deepSleepDelay : Nat
  batteryVoltage : ℚ
  batteryPercentage : Int
  /-- `static unsigned long lastUpdateTime`. -/
  lastUpdateTime : Nat
  /-- `static unsigned long lastBatteryCheck`. -/
  lastBatteryCheck : Nat
deriving DecidableEq

/-- The globals with their initialisers. -/
def initialGlobals : Globals where
  deviceConnected := false
  oldDeviceConnected := false
  motionDetected := false
  lastWakeupTime := 0
  deepSleepDelay := 30000
  batteryVoltage := 0
  batteryPercentage := 100
  lastUpdateTime := 0
  lastBatteryCheck := 0

/-- What the board returns during one call of `loop()`, one field for each call site; a
field is read only if the iteration reaches its call. -/
structure LoopInputs where
  /-- `unsigned long currentTime = millis();`. -/
  millisAtUpdate : Nat
  /-- `lastWakeupTime = millis();` in the connected branch. -/
  millisAtConnected : Nat
  /-- The first `digitalRead(BUTTON_PIN) == LOW`. -/
  buttonLow : Bool
  /-- The second `digitalRead(BUTTON_PIN) == LOW`, after the debounce delay. -/
  buttonStillLow : Bool
  /-- `lastWakeupTime = millis();` after a button press. -/
  millisAtButton : Nat
  /-- `millis()` in the deep-sleep test. -/
  millisAtSleepCheck : Nat
  /-- `millis()` in the battery test. -/
  millisAtBatteryCheck : Nat
  /-- `analogRead(BATTERY_PIN)`. -/
  rawValue : Nat
  /-- `lastBatteryCheck = millis();`. -/
  millisAfterBattery : Nat

/-- `ServerCallbacks::onConnect`. -/
def ServerCallbacks.onConnect (g : Globals) : Globals × List Effect :=
  ({ g with deviceConnected := true }, [])

/-- `ServerCallbacks::onDisconnect`. -/
def ServerCallbacks.onDisconnect (g : Globals) : Globals × List Effect :=
  ({ g with deviceConnected := false }, [])

/-- `motionISR`. -/
def motionISR (g : Globals) : Globals := { g with motionDetected := true }

/-- `toggleLED`. -/
def toggleLED (state : Bool) : List Effect := [Effect.digitalWrite LED_PIN state]

/-- `enterDeepSleep`: the calls it makes; the last one does not return. -/
def enterDeepSleep : List Effect :=
  [Effect.enableExt0Wakeup MPU_INT_PIN true, Effect.enableExt0Wakeup BUTTON_PIN false,
   Effect.enableTimerWakeup (10 * 60 * 1000000), Effect.deepSleepStart]

/-- The constant `3.3 / 4095.0`. -/
def voltsPerCount (R : FloatArithmetic) : ℚ := R.toDouble (R.toDouble (33 / 10) / 4095)

/-- `rawValue * (3.3 / 4095.0) * 2`, computed in `double` and stored in the `float`
`batteryVoltage`. -/
def batteryVoltageOf (R : FloatArithmetic) (rawValue : Nat) : ℚ :=
  R.toFloat (R.toDouble (R.toDouble ((rawValue : ℚ) * voltsPerCount R) * 2))

/-- `constrain(map(batteryVoltage * 100, 320, 420, 0, 100), 0, 100)`: the product is a
`float`, which `map` receives as a `long`. -/
def batteryPercentageOf (R : FloatArithmetic) (batteryVoltage : ℚ) : Int :=
  constrain (map (toLong (R.toFloat (batteryVoltage * 100))) 320 420 0 100) 0 100

/-- `checkBattery`, for the value `rawValue` of `analogRead(BATTERY_PIN)`. -/
def checkBattery (R : FloatArithmetic) (rawValue : Nat) (g : Globals) : Globals × List Effect :=
  let g := { g with batteryVoltage := batteryVoltageOf R rawValue }
  let g := { g with batteryPercentage := batteryPercentageOf R g.batteryVoltage }
  (g, if g.batteryPercentage < 20 then SrcVariant.flashLed 5 100 else [])

/-- The text `String(i)` of an integer. -/
def decimal (i : Int) : List Nat :=
  if i < 0 then ascii "-" ++ ascii (Nat.repr i.natAbs) else ascii (Nat.repr i.natAbs)

/-- The string `jsonData` that `loop()` builds. -/
def jsonData (g : Globals) (currentTime : Nat) : List Nat :=
  ascii "\x7b" ++ ascii "\"battery\":" ++ decimal g.batteryPercentage ++ ascii "," ++
  ascii "\"motion\":" ++ decimal (if g.motionDetected then 1 else 0) ++ ascii "," ++
  ascii "\"uptime\":" ++ decimal ((currentTime / 1000 : Nat) : Int) ++ ascii "\x7d"

/-- The block `if (deviceConnected) { ... }` of `loop()`: the regular update and the reset
of the sleep timer. -/
def loopReport (inp : LoopInputs) (g : Globals) : Globals × List Effect :=
  if g.deviceConnected then
    if usub32 inp.millisAtUpdate g.lastUpdateTime > 1000 then
      ({ g with lastUpdateTime := inp.millisAtUpdate, motionDetected := false,
                lastWakeupTime := inp.millisAtConnected },
        [Effect.setText (jsonData g inp.millisAtUpdate), Effect.notify])
    else ({ g with lastWakeupTime := inp.millisAtConnected }, [])
  else (g, [])

/-- The blocks "Handle reconnecting" and "Handle new connection" of `loop()`. -/
def loopReconnect (g : Globals) : Globals × List Effect :=
  let advertised :=
    if !g.deviceConnected && g.oldDeviceConnected then
      [Effect.delay 500, Effect.startAdvertising]
    else []
  let g :=
    if !g.deviceConnected && g.oldDeviceConnected then
      { g with oldDeviceConnected := g.deviceConnected }
    else g
  let g :=
    if g.deviceConnected && !g.oldDeviceConnected then
      { g with oldDeviceConnected := g.deviceConnected }
    else g
  (g, advertised)

/-- The block "Check if button is pressed" of `loop()`. -/
def loopButton (inp : LoopInputs) (g : Globals) : Globals × List Effect :=
  if inp.buttonLow then
    if inp.buttonStillLow then
      ({ g with lastWakeupTime := inp.millisAtButton },
        [Effect.delay 50] ++ toggleLED true ++ [Effect.delay 500] ++ toggleLED false)
    else (g, [Effect.delay 50])
  else (g, [])

/-- The test `!deviceConnected && (millis() - lastWakeupTime > deepSleepDelay)`. -/
def sleepCheck (inp : LoopInputs) (g : Globals) : Bool :=
  !g.deviceConnected && decide (usub32 inp.millisAtSleepCheck g.lastWakeupTime > g.deepSleepDelay)

/-- The block "Check battery periodically" of `loop()`. -/
def loopBattery (R : FloatArithmetic) (inp : LoopInputs) (g : Globals) : Globals × List Effect :=
  if usub32 inp.millisAtBatteryCheck g.lastBatteryCheck > 60000 then
    ({ (checkBattery R inp.rawValue g).1 with lastBatteryCheck := inp.millisAfterBattery },
      (checkBattery R inp.rawValue g).2)
  else (g, [])

/-- The globals when `loop()` reaches the deep-sleep test. -/
def atSleepCheck (inp : LoopInputs) (g : Globals) : Globals :=
  (loopButton inp (loopReconnect (loopReport inp g).1).1).1

/-- The calls `loop()` makes before the deep-sleep test. -/
def beforeSleepCheck (inp : LoopInputs) (g : Globals) : List Effect :=
  (loopReport inp g).2 ++ (loopReconnect (loopReport inp g).1).2 ++
    (loopButton inp (loopReconnect (loopReport inp g).1).1).2

/-- One call of `loop()`. When the deep-sleep test succeeds the iteration ends inside
`enterDeepSleep`, which does not return. -/
def loop (R : FloatArithmetic) (inp : LoopInputs) (g : Globals) : Globals × List Effect :=
  if sleepCheck inp (atSleepCheck inp g) then
    (atSleepCheck inp g, beforeSleepCheck inp g ++ enterDeepSleep)
  else
    ((loopBattery R inp (atSleepCheck inp g)).1,
      beforeSleepCheck inp g ++ (loopBattery R inp (atSleepCheck inp g)).2)

end MainCpp

/-! ## Link events between two polls, and sample data for `main.cpp` -/

/-- A link event: a client connects or disconnects. -/
inductive LinkEvent where
  | connect
  | disconnect
deriving DecidableEq, Repr

/-- The globals after the server callbacks have run for a sequence of link events, in the
Arduino IDE variant. -/
def FIND_Tracker.deliver : List LinkEvent → Globals → Globals
  | [], g => g
  | .connect :: events, g => FIND_Tracker.deliver events (FIND_Tracker.ServerCallbacks.onConnect g).1
  | .disconnect :: events, g =>
    FIND_Tracker.deliver events (FIND_Tracker.ServerCallbacks.onDisconnect g).1

/-- The globals after the server callbacks have run for a sequence of link events, in the
variant of `src/bluetooth_manager.cpp`. -/
def SrcVariant.deliver : List LinkEvent → Globals → Globals
  | [], g => g
  | .connect :: events, g => SrcVariant.deliver events (SrcVariant.ServerCallbacks.onConnect g).1
  | .disconnect :: events, g =>
    SrcVariant.deliver events (SrcVariant.ServerCallbacks.onDisconnect g).1

/-- The globals after the server callbacks have run for a sequence of link events, in
`main.cpp`. -/
def MainCpp.deliver : List LinkEvent → MainCpp.Globals → MainCpp.Globals
  | [], g => g
  | .connect :: events, g => MainCpp.deliver events (MainCpp.ServerCallbacks.onConnect g).1
  | .disconnect :: events, g => MainCpp.deliver events (MainCpp.ServerCallbacks.onDisconnect g).1

/-- The test `!deviceConnected && oldDeviceConnected` of `updateBLEStatus`: the poll takes
the branch for a transition to Disconnected. -/
def seesDisconnect (g : Globals) : Bool := !g.deviceConnected && g.oldDeviceConnected

/-- The test `deviceConnected && !oldDeviceConnected` of `updateBLEStatus`: the poll takes
the branch for a transition to Connected. -/
def seesConnect (g : Globals) : Bool := g.deviceConnected && !g.oldDeviceConnected

/-- The test `!deviceConnected && oldDeviceConnected` of `loop()`. -/
def MainCpp.seesDisconnect (g : MainCpp.Globals) : Bool :=
  !g.deviceConnected && g.oldDeviceConnected

/-- The test `deviceConnected && !oldDeviceConnected` of `loop()`. -/
def MainCpp.seesConnect (g : MainCpp.Globals) : Bool :=
  g.deviceConnected && !g.oldDeviceConnected

/-- The globals of `main.cpp` with a client connected and the poll flag in sync. -/
def MainCpp.connectedGlobals : MainCpp.Globals :=
  { MainCpp.initialGlobals with deviceConnected := true, oldDeviceConnected := true }

/-- A call of `loop()` in which every `millis()` returns `now`, the button is not pressed
and the ADC reads 2296. -/
def MainCpp.quietInputs (now : Nat) : MainCpp.LoopInputs where
  millisAtUpdate := now
  millisAtConnected := now
  buttonLow := false
  buttonStillLow := false
  millisAtButton := now
  millisAtSleepCheck := now
  millisAtBatteryCheck := now
  rawValue := 2296
  millisAfterBattery := now

/-- A call of `loop()` in which every `millis()` returns `now` and the button is held. -/
def MainCpp.buttonInputs (now : Nat) : MainCpp.LoopInputs :=
  { MainCpp.quietInputs now with buttonLow := true, buttonStillLow := true }

/-- Is the call a `setValue` of either program? -/
def Effect.isSetValue : Effect → Bool
  | .setValue _ => true
  | .setText _ => true
  | _ => false

/-- Is the call a `notify()`? -/
def Effect.isNotify : Effect → Bool
  | .notify => true
  | _ => false

/-- Is the call a `startAdvertising()`? -/
def Effect.isStartAdvertising : Effect → Bool
  | .startAdvertising => true
  | _ => false

/-! ## More sample payloads, and runs of `main.cpp` -/

/-- The payload `{"device_id":7}`. -/
def numericDeviceIdPayload : List Nat := ascii "\x7b\"device_id\":7\x7d"

/-- The payload `{"transmit_interval":1.5}`. -/
def fractionalIntervalPayload : List Nat := ascii "\x7b\"transmit_interval\":1.5\x7d"

/-- The payload `{"transmit_interval":2147483648}`, one more than `INT_MAX`. -/
def oversizedIntervalPayload : List Nat :=
  ascii "\x7b\"transmit_interval\":2147483648\x7d"

/-- One step of a run of `main.cpp`: the motion interrupt fires, a link event is
delivered, or `loop()` is called. -/
inductive MainCpp.Step where
  | motion
  | link (event : LinkEvent)
  | iteration (inp : MainCpp.LoopInputs)

/-- Is the step a motion interrupt? -/
def MainCpp.Step.isMotion : MainCpp.Step → Bool
  | .motion => true
  | _ => false

/-- A run of `main.cpp` from the globals `g`: the steps are taken in order, up to the
first iteration that enters deep sleep, where the program stops. The result is the
globals at the end and, for every iteration made, whether it entered deep sleep. -/
def MainCpp.run (R : FloatArithmetic) : List MainCpp.Step → MainCpp.Globals →
    MainCpp.Globals × List Bool
  | [], g => (g, [])
  | .motion :: steps, g => MainCpp.run R steps (MainCpp.motionISR g)
  | .link .connect :: steps, g => MainCpp.run R steps (MainCpp.ServerCallbacks.onConnect g).1
  | .link .disconnect :: steps, g =>
    MainCpp.run R steps (MainCpp.ServerCallbacks.onDisconnect g).1
  | .iteration inp :: steps, g =>
    if Effect.deepSleepStart ∈ (MainCpp.loop R inp g).2 then ((MainCpp.loop R inp g).1, [true])
    else
      ((MainCpp.run R steps (MainCpp.loop R inp g).1).1,
        false :: (MainCpp.run R steps (MainCpp.loop R inp g).1).2)

/-- The globals with the motion flag put aside: two globals with the same image differ in
`motionDetected` at most. -/
def MainCpp.Globals.withoutMotion (g : MainCpp.Globals) : MainCpp.Globals :=
  { g with motionDetected := false }

/-! ## Facts about `strlcpy` -/

theorem strlcpy_idem (dst src : List Nat) (size : Nat) :
    strlcpy (strlcpy dst src size) src size = strlcpy dst src size := by
  simp [strlcpy]

theorem c_str_take_all_ne (s : List Nat) (k : Nat) : ∀ b ∈ (c_str s).take k, b ≠ 0 := by
  intro b hb
  have h1 : b ∈ c_str s := List.mem_of_mem_take hb
  have := List.mem_takeWhile_imp h1
  simpa using this

theorem c_str_append_nul (l rest : List Nat) (h : ∀ b ∈ l, b ≠ 0) :
    c_str (l ++ 0 :: rest) = l := by
  induction l with
  | nil => simp [c_str]
  | cons a t ih =>
    have ha : a ≠ 0 := h a (by simp)
    have ht : ∀ b ∈ t, b ≠ 0 := fun b hb => h b (by simp [hb])
    have := ih ht
    simp only [c_str] at this ⊢
    rw [List.cons_append, List.takeWhile_cons, this]
    simp [ha]

theorem c_str_strlcpy (dst src : List Nat) (size : Nat) (h : 0 < size) :
    c_str (strlcpy dst src size) = (c_str src).take (size - 1) := by
  have hs : size ≠ 0 := Nat.pos_iff_ne_zero.mp h
  simp only [strlcpy, strlcpyBytes, hs, if_false, List.append_assoc, List.singleton_append]
  exact c_str_append_nul _ _ (c_str_take_all_ne src (size - 1))

theorem strlcpyBytes_length_le (src : List Nat) (size : Nat) :
    (strlcpyBytes src size).length ≤ size := by
  unfold strlcpyBytes
  split
  · simp
  · simp only [List.length_append, List.length_take, List.length_singleton]
    omega

theorem strlcpy_length (dst src : List Nat) (size : Nat) (h : size ≤ dst.length) :
    (strlcpy dst src size).length = dst.length := by
  have := strlcpyBytes_length_le src size
  simp only [strlcpy, List.length_append, List.length_drop]
  omega

theorem strlcpy_truncates (dst src : List Nat) (size : Nat) (h0 : 0 < size)
    (hd : dst.length = size) (hlong : size ≤ strlen src) :
    strlcpy dst src size = (c_str src).take (size - 1) ++ [0] := by
  have hs : size ≠ 0 := Nat.pos_iff_ne_zero.mp h0
  unfold strlen at hlong
  have hlen : ((c_str src).take (size - 1) ++ [0]).length = size := by
    simp only [List.length_append, List.length_take, List.length_singleton]
    omega
  simp only [strlcpy, strlcpyBytes, hs, if_false]
  rw [hlen, List.drop_of_length_le (by omega)]
  simp

/-! ## The fields of `updateConfig` -/

theorem DeviceConfig.eq_of_fields (a b : DeviceConfig)
    (h1 : a.wifi_ssid = b.wifi_ssid) (h2 : a.wifi_password = b.wifi_password)
    (h3 : a.device_id = b.device_id) (h4 : a.api_endpoint = b.api_endpoint)
    (h5 : a.api_key = b.api_key) (h6 : a.paired = b.paired)
    (h7 : a.transmit_interval = b.transmit_interval)
    (h8 : a.motion_threshold = b.motion_threshold) : a = b := by
  cases a; cases b; simp_all

theorem updateConfig_eq (lib : JsonLibrary) (doc : JsonVariant) (c : DeviceConfig) :
    updateConfig lib doc c =
      { wifi_ssid :=
          if hasCredentials doc then
            strlcpy c.wifi_ssid (doc.stringOr (ascii "wifi_ssid") []) sizeof_wifi_ssid
          else c.wifi_ssid
        wifi_password :=
          if hasCredentials doc then
            strlcpy c.wifi_password (doc.stringOr (ascii "wifi_password") []) sizeof_wifi_password
          else c.wifi_password
        device_id :=
          if doc.containsKey (ascii "device_id") then
            strlcpy c.device_id (doc.stringOr (ascii "device_id") []) sizeof_device_id
          else c.device_id
        api_endpoint :=
          if doc.containsKey (ascii "api_endpoint") then
            strlcpy c.api_endpoint (doc.stringOr (ascii "api_endpoint") []) sizeof_api_endpoint
          else c.api_endpoint
        api_key :=
          if doc.containsKey (ascii "api_key") then
            strlcpy c.api_key (doc.stringOr (ascii "api_key") []) sizeof_api_key
          else c.api_key
        paired := true
        transmit_interval :=
          if doc.containsKey (ascii "transmit_interval") then
            doc.intOr (ascii "transmit_interval") DEFAULT_TRANSMIT_INTERVAL
          else c.transmit_interval
        motion_threshold :=
          if doc.containsKey (ascii "motion_threshold") then
            doc.floatOr lib (ascii "motion_threshold") DEFAULT_MOTION_THRESHOLD
          else c.motion_threshold } := by
  unfold updateConfig hasCredentials
  generalize doc.containsKey (ascii "wifi_ssid") = b1
  generalize doc.containsKey (ascii "wifi_password") = b2
  generalize doc.containsKey (ascii "device_id") = b3
  generalize doc.containsKey (ascii "api_endpoint") = b4
  generalize doc.containsKey (ascii "api_key") = b5
  generalize doc.containsKey (ascii "transmit_interval") = b6
  generalize doc.containsKey (ascii "motion_threshold") = b7
  cases b1 <;> cases b2 <;> cases b3 <;> cases b4 <;> cases b5 <;> cases b6 <;> cases b7 <;> rfl

theorem updateConfig_wifi_ssid (lib : JsonLibrary) (doc : JsonVariant) (c : DeviceConfig) :
    (updateConfig lib doc c).wifi_ssid =
      if hasCredentials doc then
        strlcpy c.wifi_ssid (doc.stringOr (ascii "wifi_ssid") []) sizeof_wifi_ssid
      else c.wifi_ssid := by
  rw [updateConfig_eq]

theorem updateConfig_wifi_password (lib : JsonLibrary) (doc : JsonVariant) (c : DeviceConfig) :
    (updateConfig lib doc c).wifi_password =
      if hasCredentials doc then
        strlcpy c.wifi_password (doc.stringOr (ascii "wifi_password") []) sizeof_wifi_password
      else c.wifi_password := by
  rw [updateConfig_eq]

theorem updateConfig_device_id (lib : JsonLibrary) (doc : JsonVariant) (c : DeviceConfig) :
    (updateConfig lib doc c).device_id =
      if doc.containsKey (ascii "device_id") then
        strlcpy c.device_id (doc.stringOr (ascii "device_id") []) sizeof_device_id
      else c.device_id := by
  rw [updateConfig_eq]

theorem updateConfig_api_endpoint (lib : JsonLibrary) (doc : JsonVariant) (c : DeviceConfig) :
    (updateConfig lib doc c).api_endpoint =
      if doc.containsKey (ascii "api_endpoint") then
        strlcpy c.api_endpoint (doc.stringOr (ascii "api_endpoint") []) sizeof_api_endpoint
      else c.api_endpoint := by
  rw [updateConfig_eq]

theorem updateConfig_api_key (lib : JsonLibrary) (doc : JsonVariant) (c : DeviceConfig) :
    (updateConfig lib doc c).api_key =
      if doc.containsKey (ascii "api_key") then
        strlcpy c.api_key (doc.stringOr (ascii "api_key") []) sizeof_api_key
      else c.api_key := by
  rw [updateConfig_eq]

theorem updateConfig_transmit_interval (lib : JsonLibrary) (doc : JsonVariant) (c : DeviceConfig) :
    (updateConfig lib doc c).transmit_interval =
      if doc.containsKey (ascii "transmit_interval") then
        doc.intOr (ascii "transmit_interval") DEFAULT_TRANSMIT_INTERVAL
      else c.transmit_interval := by
  rw [updateConfig_eq]

theorem updateConfig_motion_threshold (lib : JsonLibrary) (doc : JsonVariant) (c : DeviceConfig) :
    (updateConfig lib doc c).motion_threshold =
      if doc.containsKey (ascii "motion_threshold") then
        doc.floatOr lib (ascii "motion_threshold") DEFAULT_MOTION_THRESHOLD
      else c.motion_threshold := by
  rw [updateConfig_eq]

theorem updateConfig_paired (lib : JsonLibrary) (doc : JsonVariant) (c : DeviceConfig) :
    (updateConfig lib doc c).paired = true := by
  rw [updateConfig_eq]

theorem updateConfig_idem (lib : JsonLibrary) (doc : JsonVariant) (c : DeviceConfig) :
    updateConfig lib doc (updateConfig lib doc c) = updateConfig lib doc c := by
  apply DeviceConfig.eq_of_fields
  · simp only [updateConfig_wifi_ssid]; split_ifs <;> simp [strlcpy_idem]
  · simp only [updateConfig_wifi_password]; split_ifs <;> simp [strlcpy_idem]
  · simp only [updateConfig_device_id]; split_ifs <;> simp [strlcpy_idem]
  · simp only [updateConfig_api_endpoint]; split_ifs <;> simp [strlcpy_idem]
  · simp only [updateConfig_api_key]; split_ifs <;> simp [strlcpy_idem]
  · simp only [updateConfig_paired]
  · simp only [updateConfig_transmit_interval]; split_ifs <;> rfl
  · simp only [updateConfig_motion_threshold]; split_ifs <;> rfl

/-! ## The handlers, case by case -/

theorem find_config_onWrite_parsed (lib : JsonLibrary) (value : List Nat) (g : Globals)
    (doc : JsonVariant) (hne : value ≠ [])
    (hdoc : lib.deserializeJson 1024 (c_str value) = some doc) :
    FIND_Tracker.ConfigCallbacks.onWrite lib value g =
      ({ g with config := updateConfig lib doc g.config },
        [Effect.saveConfig (updateConfig lib doc g.config)] ++
        (if hasCredentials doc then
          [Effect.wifiDisconnect, Effect.delay 1000,
           Effect.wifiBegin (c_str (updateConfig lib doc g.config).wifi_ssid)
             (c_str (updateConfig lib doc g.config).wifi_password)]
         else [])) := by
  have hlen : value.length > 0 := List.length_pos.mpr hne
  simp only [FIND_Tracker.ConfigCallbacks.onWrite, hlen, if_true, hdoc]

theorem find_config_onWrite_rejected (lib : JsonLibrary) (value : List Nat)
    (g : Globals) (h : value = [] ∨ lib.deserializeJson 1024 (c_str value) = none) :
    FIND_Tracker.ConfigCallbacks.onWrite lib value g = (g, []) := by
  unfold FIND_Tracker.ConfigCallbacks.onWrite
  rcases h with h | h
  · simp [h]
  · simp only [h]; split_ifs <;> rfl

theorem src_config_onWrite_parsed (lib : JsonLibrary) (wifiStatus : Nat → Bool)
    (value : List Nat) (g : Globals)
    (doc : JsonVariant) (hne : value ≠ [])
    (hdoc : lib.deserializeJson 1024 (c_str value) = some doc) :
    SrcVariant.ConfigCallbacks.onWrite lib wifiStatus value g =
      ({ g with config := updateConfig lib doc g.config },
        [Effect.saveConfig (updateConfig lib doc g.config)] ++ SrcVariant.flashLed 5 100 ++
        (if hasCredentials doc then
          [Effect.wifiDisconnect, Effect.delay 1000,
           Effect.wifiBegin (c_str (updateConfig lib doc g.config).wifi_ssid)
             (c_str (updateConfig lib doc g.config).wifi_password)] ++
          (SrcVariant.waitForWiFi wifiStatus 20 0 false).1 ++
          (if wifiStatus (SrcVariant.waitForWiFi wifiStatus 20 0 false).2 then
            SrcVariant.flashLed 3 50
           else [Effect.digitalWrite LED_PIN false])
         else [])) := by
  have hlen : value.length > 0 := List.length_pos.mpr hne
  simp only [SrcVariant.ConfigCallbacks.onWrite, hlen, if_true, hdoc]

theorem src_config_onWrite_rejected (lib : JsonLibrary) (wifiStatus : Nat → Bool)
    (value : List Nat)
    (g : Globals) (h : value = [] ∨ lib.deserializeJson 1024 (c_str value) = none) :
    SrcVariant.ConfigCallbacks.onWrite lib wifiStatus value g = (g, []) := by
  unfold SrcVariant.ConfigCallbacks.onWrite
  rcases h with h | h
  · simp [h]
  · simp only [h]; split_ifs <;> rfl

theorem flashLed_filter (p : Effect → Bool)
    (h1 : ∀ l, p (Effect.digitalWrite LED_PIN l) = false) (h2 : ∀ ms, p (Effect.delay ms) = false)
    (n ms : Nat) : (SrcVariant.flashLed n ms).filter p = [] := by
  induction n with
  | zero => rfl
  | succ n ih => simp [SrcVariant.flashLed, h1, h2, ih]

theorem waitForWiFi_filter (p : Effect → Bool)
    (h1 : ∀ l, p (Effect.digitalWrite LED_PIN l) = false) (h2 : ∀ ms, p (Effect.delay ms) = false)
    (wifiStatus : Nat → Bool) (remaining polls : Nat) (led : Bool) :
    (SrcVariant.waitForWiFi wifiStatus remaining polls led).1.filter p = [] := by
  induction remaining generalizing polls led with
  | zero => rfl
  | succ n ih =>
    unfold SrcVariant.waitForWiFi
    split_ifs
    · rfl
    · simp [h1, h2, ih]

/-! ## The claims -/

/-- C1: a non-empty write to the config characteristic whose payload fails JSON parsing
leaves every field of `DeviceConfig`, `paired` included, as it was, and `saveConfig` is
called zero times; so in both variants of `ConfigCallbacks::onWrite`. -/
theorem malformed_config_write_is_ignored (lib : JsonLibrary) (wifiStatus : Nat → Bool)
    (value : List Nat) (g : Globals) (_hne : value.length > 0)
    (herr : lib.deserializeJson 1024 (c_str value) = none) :
    (FIND_Tracker.ConfigCallbacks.onWrite lib value g).1.config = g.config ∧
    (FIND_Tracker.ConfigCallbacks.onWrite lib value g).2.countP Effect.isSaveConfig = 0 ∧
    (SrcVariant.ConfigCallbacks.onWrite lib wifiStatus value g).1.config = g.config ∧
    (SrcVariant.ConfigCallbacks.onWrite lib wifiStatus value g).2.countP Effect.isSaveConfig = 0 := by
  rw [find_config_onWrite_rejected lib value g (Or.inr herr),
    src_config_onWrite_rejected lib wifiStatus value g (Or.inr herr)]
  simp

/-- The payload `{not json` is not empty, the reference reader rejects it, and the
handlers leave the sample configuration alone and save nothing. -/
theorem malformed_config_write_is_ignored_witness :
    malformedPayload.length > 0 ∧
    referenceLibrary.deserializeJson 1024 (c_str malformedPayload) = none ∧
    (FIND_Tracker.ConfigCallbacks.onWrite referenceLibrary malformedPayload sampleGlobals).1.config
      = sampleConfig ∧
    (FIND_Tracker.ConfigCallbacks.onWrite referenceLibrary malformedPayload
      sampleGlobals).2.countP Effect.isSaveConfig = 0 ∧
    (SrcVariant.ConfigCallbacks.onWrite referenceLibrary sampleWifiStatus malformedPayload
      sampleGlobals).1.config = sampleConfig ∧
    (SrcVariant.ConfigCallbacks.onWrite referenceLibrary sampleWifiStatus malformedPayload
      sampleGlobals).2.countP Effect.isSaveConfig = 0 :=
  ⟨by decide, Option.isNone_iff_eq_none.mp (by decide),
    malformed_config_write_is_ignored referenceLibrary sampleWifiStatus malformedPayload
      sampleGlobals (by decide) (Option.isNone_iff_eq_none.mp (by decide))⟩

/-- C2, as stated, fails: on the unpaired sample configuration the write
`{"transmit_interval":120}` leaves `paired` true in both variants. -/
theorem interval_write_sets_paired :
    sampleGlobals.config.paired = false ∧
    (FIND_Tracker.ConfigCallbacks.onWrite referenceLibrary intervalPayload
      sampleGlobals).1.config.paired = true ∧
    (SrcVariant.ConfigCallbacks.onWrite referenceLibrary sampleWifiStatus intervalPayload
      sampleGlobals).1.config.paired = true := by
  decide

/-- C2, amended: when the payload `{"transmit_interval":120}` is read as the object with
that one integer member, the write sets `transmit_interval` to 120 and `paired` to true and
leaves every other field of `DeviceConfig` as it was; so in both variants. -/
theorem interval_write_result (lib : JsonLibrary) (wifiStatus : Nat → Bool) (g : Globals)
    (hdoc : lib.deserializeJson 1024 (c_str intervalPayload) =
      some (.object [(ascii "transmit_interval", .integer 120)])) :
    (FIND_Tracker.ConfigCallbacks.onWrite lib intervalPayload g).1.config =
      { g.config with transmit_interval := 120, paired := true } ∧
    (SrcVariant.ConfigCallbacks.onWrite lib wifiStatus intervalPayload g).1.config =
      { g.config with transmit_interval := 120, paired := true } := by
  have hne : intervalPayload ≠ [] := by decide
  rw [find_config_onWrite_parsed lib intervalPayload g _ hne hdoc,
    src_config_onWrite_parsed lib wifiStatus intervalPayload g _ hne hdoc]
  constructor <;> rfl

/-- The reference reader reads `{"transmit_interval":120}` as that object, and the write
changes the sample configuration in `transmit_interval` and `paired` only. -/
theorem interval_write_result_witness :
    referenceLibrary.deserializeJson 1024 (c_str intervalPayload) =
      some (.object [(ascii "transmit_interval", .integer 120)]) ∧
    (FIND_Tracker.ConfigCallbacks.onWrite referenceLibrary intervalPayload sampleGlobals).1.config =
      { sampleConfig with transmit_interval := 120, paired := true } ∧
    (SrcVariant.ConfigCallbacks.onWrite referenceLibrary sampleWifiStatus intervalPayload
      sampleGlobals).1.config = { sampleConfig with transmit_interval := 120, paired := true } :=
  ⟨by rfl, interval_write_result referenceLibrary sampleWifiStatus sampleGlobals (by rfl)⟩

/-- C3: a config write that parses and contains both `wifi_ssid` and `wifi_password`
leaves `paired` true and calls `WiFi.begin` exactly once, with the C strings of the
`wifi_ssid` and `wifi_password` fields it has just stored (the payload values, cut to the
field size); a config write that parses and lacks one of the two keys never calls
`WiFi.begin`. So in both variants. -/
theorem credentials_write_reconnects_once (lib : JsonLibrary) (wifiStatus : Nat → Bool)
    (value : List Nat) (g : Globals) (doc : JsonVariant) (hne : value.length > 0)
    (hdoc : lib.deserializeJson 1024 (c_str value) = some doc) :
    (doc.containsKey (ascii "wifi_ssid") = true ∧ doc.containsKey (ascii "wifi_password") = true →
      (FIND_Tracker.ConfigCallbacks.onWrite lib value g).1.config.paired = true ∧
      (FIND_Tracker.ConfigCallbacks.onWrite lib value g).1.config.wifi_ssid =
        strlcpy g.config.wifi_ssid (doc.stringOr (ascii "wifi_ssid") []) sizeof_wifi_ssid ∧
      (FIND_Tracker.ConfigCallbacks.onWrite lib value g).1.config.wifi_password =
        strlcpy g.config.wifi_password (doc.stringOr (ascii "wifi_password") [])
          sizeof_wifi_password ∧
      (FIND_Tracker.ConfigCallbacks.onWrite lib value g).2.filter Effect.isWifiBegin =
        [Effect.wifiBegin
          (c_str (FIND_Tracker.ConfigCallbacks.onWrite lib value g).1.config.wifi_ssid)
          (c_str (FIND_Tracker.ConfigCallbacks.onWrite lib value g).1.config.wifi_password)] ∧
      (SrcVariant.ConfigCallbacks.onWrite lib wifiStatus value g).1.config =
        (FIND_Tracker.ConfigCallbacks.onWrite lib value g).1.config ∧
      (SrcVariant.ConfigCallbacks.onWrite lib wifiStatus value g).2.filter Effect.isWifiBegin =
        [Effect.wifiBegin
          (c_str (SrcVariant.ConfigCallbacks.onWrite lib wifiStatus value g).1.config.wifi_ssid)
          (c_str
            (SrcVariant.ConfigCallbacks.onWrite lib wifiStatus value g).1.config.wifi_password)]) ∧
    (doc.containsKey (ascii "wifi_ssid") = false ∨ doc.containsKey (ascii "wifi_password") = false →
      (FIND_Tracker.ConfigCallbacks.onWrite lib value g).2.countP Effect.isWifiBegin = 0 ∧
      (SrcVariant.ConfigCallbacks.onWrite lib wifiStatus value g).2.countP Effect.isWifiBegin = 0) := by
  have hne2 : value ≠ [] := List.length_pos.mp hne
  have hf5 := flashLed_filter Effect.isWifiBegin (fun _ => rfl) (fun _ => rfl) 5 100
  have hf3 := flashLed_filter Effect.isWifiBegin (fun _ => rfl) (fun _ => rfl) 3 50
  have hw := waitForWiFi_filter Effect.isWifiBegin (fun _ => rfl) (fun _ => rfl) wifiStatus 20 0 false
  rw [find_config_onWrite_parsed lib value g doc hne2 hdoc,
    src_config_onWrite_parsed lib wifiStatus value g doc hne2 hdoc]
  constructor
  · rintro ⟨h1, h2⟩
    have hc : hasCredentials doc = true := by simp [hasCredentials, h1, h2]
    refine ⟨?_, ?_, ?_, ?_, rfl, ?_⟩
    · exact updateConfig_paired lib doc g.config
    · simp only [updateConfig_wifi_ssid, hc, if_true]
    · simp only [updateConfig_wifi_password, hc, if_true]
    · simp [hc, Effect.isWifiBegin]
    · simp only [hc, if_true, List.filter_append, hf5, hw]
      split_ifs <;> simp [Effect.isWifiBegin, hf3]
  · intro h
    have hc : hasCredentials doc = false := by
      rcases h with h | h <;> simp [hasCredentials, h]
    simp only [List.countP_eq_length_filter, hc, List.filter_append, hf5]
    simp [Effect.isWifiBegin]

/-- The reference reader reads the payload with a 40-letter `wifi_ssid` and a
`wifi_password`; the write pairs the sample device and makes one `WiFi.begin` call. -/
theorem credentials_write_reconnects_once_witness :
    credentialsPayload.length > 0 ∧
    referenceLibrary.deserializeJson 1024 (c_str credentialsPayload) =
      some (.object [(ascii "wifi_ssid", .string longSsid),
        (ascii "wifi_password", .string (ascii "hunter2"))]) ∧
    (FIND_Tracker.ConfigCallbacks.onWrite referenceLibrary credentialsPayload
      sampleGlobals).1.config.paired = true ∧
    (FIND_Tracker.ConfigCallbacks.onWrite referenceLibrary credentialsPayload
      sampleGlobals).2.filter Effect.isWifiBegin =
        [Effect.wifiBegin (List.replicate 31 65) (ascii "hunter2")] ∧
    (SrcVariant.ConfigCallbacks.onWrite referenceLibrary sampleWifiStatus credentialsPayload
      sampleGlobals).2.filter Effect.isWifiBegin =
        [Effect.wifiBegin (List.replicate 31 65) (ascii "hunter2")] :=
  have h := (credentials_write_reconnects_once referenceLibrary sampleWifiStatus
    credentialsPayload sampleGlobals _ (by decide) (by rfl)).1 ⟨by decide, by decide⟩
  ⟨by decide, by rfl, h.1, by decide, by decide⟩

/-! ### Reading members -/

theorem containsKey_of_getMember (doc : JsonVariant) (key : List Nat) (v : JsonVariant)
    (h : doc.getMember key = some v) : doc.containsKey key = true := by
  simp [JsonVariant.containsKey, h]

theorem containsKey_of_getMember_none (doc : JsonVariant) (key : List Nat)
    (h : doc.getMember key = none) : doc.containsKey key = false := by
  simp [JsonVariant.containsKey, h]

theorem stringOr_of_string (doc : JsonVariant) (key s d : List Nat)
    (h : doc.getMember key = some (.string s)) : doc.stringOr key d = s := by
  simp [JsonVariant.stringOr, h]

theorem intOr_of_integer (doc : JsonVariant) (key : List Nat) (i d : Int)
    (h : doc.getMember key = some (.integer i)) (hlo : INT_MIN ≤ i) (hhi : i ≤ INT_MAX) :
    doc.intOr key d = i := by
  simp [JsonVariant.intOr, h, hlo, hhi]

theorem hasCredentials_eq_false (doc : JsonVariant)
    (h : doc.getMember (ascii "wifi_ssid") = none ∨ doc.getMember (ascii "wifi_password") = none) :
    hasCredentials doc = false := by
  rcases h with h | h <;>
    simp [hasCredentials, containsKey_of_getMember_none doc _ h]

theorem updateConfig_wellSized (lib : JsonLibrary) (doc : JsonVariant) (c : DeviceConfig)
    (h : c.WellSized) : (updateConfig lib doc c).WellSized := by
  obtain ⟨h1, h2, h3, h4, h5⟩ := h
  refine ⟨?_, ?_, ?_, ?_, ?_⟩
  · rw [updateConfig_wifi_ssid]; split_ifs
    · rw [strlcpy_length _ _ _ (le_of_eq h1.symm), h1]
    · exact h1
  · rw [updateConfig_wifi_password]; split_ifs
    · rw [strlcpy_length _ _ _ (le_of_eq h2.symm), h2]
    · exact h2
  · rw [updateConfig_device_id]; split_ifs
    · rw [strlcpy_length _ _ _ (le_of_eq h3.symm), h3]
    · exact h3
  · rw [updateConfig_api_endpoint]; split_ifs
    · rw [strlcpy_length _ _ _ (le_of_eq h4.symm), h4]
    · exact h4
  · rw [updateConfig_api_key]; split_ifs
    · rw [strlcpy_length _ _ _ (le_of_eq h5.symm), h5]
    · exact h5

theorem find_config_onWrite_config (lib : JsonLibrary) (value : List Nat) (g : Globals)
    (doc : JsonVariant) (hne : value.length > 0)
    (hdoc : lib.deserializeJson 1024 (c_str value) = some doc) :
    (FIND_Tracker.ConfigCallbacks.onWrite lib value g).1.config = updateConfig lib doc g.config := by
  rw [find_config_onWrite_parsed lib value g doc (List.length_pos.mp hne) hdoc]

theorem src_config_onWrite_config (lib : JsonLibrary) (wifiStatus : Nat → Bool)
    (value : List Nat) (g : Globals)
    (doc : JsonVariant) (hne : value.length > 0)
    (hdoc : lib.deserializeJson 1024 (c_str value) = some doc) :
    (SrcVariant.ConfigCallbacks.onWrite lib wifiStatus value g).1.config =
      updateConfig lib doc g.config := by
  rw [src_config_onWrite_parsed lib wifiStatus value g doc (List.length_pos.mp hne) hdoc]

theorem c_str_stringOr_of_other (doc : JsonVariant) (key : List Nat) (v : JsonVariant)
    (h : doc.getMember key = some v) (hv : ∀ s, v ≠ .string s) :
    c_str (doc.stringOr key []) = [] := by
  unfold JsonVariant.stringOr
  rw [h]
  cases v with
  | string s => exact absurd rfl (hv s)
  | _ => rfl

theorem intOr_of_other (doc : JsonVariant) (key : List Nat) (v : JsonVariant) (d : Int)
    (h : doc.getMember key = some v)
    (hv : ∀ i, v = .integer i → ¬ (INT_MIN ≤ i ∧ i ≤ INT_MAX)) : doc.intOr key d = d := by
  unfold JsonVariant.intOr
  rw [h]
  cases v with
  | integer i => simp only [hv i rfl, if_false]
  | _ => rfl

theorem floatOr_of_other (lib : JsonLibrary) (doc : JsonVariant) (key : List Nat)
    (v : JsonVariant) (d : CFloat) (h : doc.getMember key = some v)
    (hi : ∀ i, v ≠ .integer i) (hr : ∀ m e, v ≠ .real m e) : doc.floatOr lib key d = d := by
  unfold JsonVariant.floatOr
  rw [h]
  cases v with
  | integer i => exact absurd rfl (hi i)
  | real m e => exact absurd rfl (hr m e)
  | _ => rfl

/-- C4, as stated, fails: the write `{"wifi_ssid":"office"}`, with no `wifi_password`,
leaves the `wifi_ssid` field of the sample configuration as it was, `home`, in both
variants. A value of another type than the field is not stored either: the write
`{"device_id":7}` empties `device_id`, and after `{"transmit_interval":1.5}` and after
`{"transmit_interval":2147483648}` the `transmit_interval` is 60. -/
theorem ssid_without_password_is_not_stored :
    referenceLibrary.deserializeJson 1024 (c_str ssidOnlyPayload) =
      some (.object [(ascii "wifi_ssid", .string (ascii "office"))]) ∧
    c_str sampleGlobals.config.wifi_ssid = ascii "home" ∧
    (FIND_Tracker.ConfigCallbacks.onWrite referenceLibrary ssidOnlyPayload
      sampleGlobals).1.config.wifi_ssid = sampleGlobals.config.wifi_ssid ∧
    (SrcVariant.ConfigCallbacks.onWrite referenceLibrary sampleWifiStatus ssidOnlyPayload
      sampleGlobals).1.config.wifi_ssid = sampleGlobals.config.wifi_ssid ∧
    c_str (FIND_Tracker.ConfigCallbacks.onWrite referenceLibrary ssidOnlyPayload
      sampleGlobals).1.config.wifi_ssid ≠ ascii "office" ∧
    referenceLibrary.deserializeJson 1024 (c_str numericDeviceIdPayload) =
      some (.object [(ascii "device_id", .integer 7)]) ∧
    c_str (FIND_Tracker.ConfigCallbacks.onWrite referenceLibrary numericDeviceIdPayload
      sampleGlobals).1.config.device_id = [] ∧
    referenceLibrary.deserializeJson 1024 (c_str fractionalIntervalPayload) =
      some (.object [(ascii "transmit_interval", .real 15 (-1))]) ∧
    (FIND_Tracker.ConfigCallbacks.onWrite referenceLibrary fractionalIntervalPayload
      sampleGlobals).1.config.transmit_interval = 60 ∧
    referenceLibrary.deserializeJson 1024 (c_str oversizedIntervalPayload) =
      some (.object [(ascii "transmit_interval", .integer 2147483648)]) ∧
    (FIND_Tracker.ConfigCallbacks.onWrite referenceLibrary oversizedIntervalPayload
      sampleGlobals).1.config.transmit_interval = 60 :=
  ⟨by rfl, by decide, by decide, by decide, by decide, by rfl, by decide, by rfl, by decide,
    by rfl, by decide⟩

/-- C4, amended: after a config write that parses, in both variants and whichever other
keys are present,
* `device_id`, `api_endpoint` and `api_key` hold, as C strings, the string of their key cut
  to the field size minus one; they are empty when the value of their key is not a string,
  and unchanged when their key is absent;
* `transmit_interval` is the integer of its key when that is an integer that fits `int`,
  the default 60 when the value is anything else, and unchanged when the key is absent;
* `motion_threshold` is the converted number of its key, the default 0.5 when the value is
  not a number, and unchanged when the key is absent;
* `wifi_ssid` and `wifi_password` are written in the same way as the other text fields
  when both keys are present, and both are unchanged when either key is absent. -/
theorem config_write_fields (lib : JsonLibrary) (wifiStatus : Nat → Bool)
    (value : List Nat) (g : Globals) (doc : JsonVariant) (hne : value.length > 0)
    (hdoc : lib.deserializeJson 1024 (c_str value) = some doc) :
    (SrcVariant.ConfigCallbacks.onWrite lib wifiStatus value g).1.config =
      (FIND_Tracker.ConfigCallbacks.onWrite lib value g).1.config ∧
    (∀ s, doc.getMember (ascii "device_id") = some (.string s) →
      c_str (FIND_Tracker.ConfigCallbacks.onWrite lib value g).1.config.device_id =
        (c_str s).take 36) ∧
    (doc.getMember (ascii "device_id") = none →
      (FIND_Tracker.ConfigCallbacks.onWrite lib value g).1.config.device_id =
        g.config.device_id) ∧
    (∀ s, doc.getMember (ascii "api_endpoint") = some (.string s) →
      c_str (FIND_Tracker.ConfigCallbacks.onWrite lib value g).1.config.api_endpoint =
        (c_str s).take 99) ∧
    (doc.getMember (ascii "api_endpoint") = none →
      (FIND_Tracker.ConfigCallbacks.onWrite lib value g).1.config.api_endpoint =
        g.config.api_endpoint) ∧
    (∀ s, doc.getMember (ascii "api_key") = some (.string s) →
      c_str (FIND_Tracker.ConfigCallbacks.onWrite lib value g).1.config.api_key =
        (c_str s).take 99) ∧
    (doc.getMember (ascii "api_key") = none →
      (FIND_Tracker.ConfigCallbacks.onWrite lib value g).1.config.api_key = g.config.api_key) ∧
    (∀ i, doc.getMember (ascii "transmit_interval") = some (.integer i) →
      INT_MIN ≤ i → i ≤ INT_MAX →
      (FIND_Tracker.ConfigCallbacks.onWrite lib value g).1.config.transmit_interval = i) ∧
    (doc.getMember (ascii "transmit_interval") = none →
      (FIND_Tracker.ConfigCallbacks.onWrite lib value g).1.config.transmit_interval =
        g.config.transmit_interval) ∧
    (∀ i, doc.getMember (ascii "motion_threshold") = some (.integer i) →
      (FIND_Tracker.ConfigCallbacks.onWrite lib value g).1.config.motion_threshold =
        lib.toFloat i 0) ∧
    (∀ m e, doc.getMember (ascii "motion_threshold") = some (.real m e) →
      (FIND_Tracker.ConfigCallbacks.onWrite lib value g).1.config.motion_threshold =
        lib.toFloat m e) ∧
    (doc.getMember (ascii "motion_threshold") = none →
      (FIND_Tracker.ConfigCallbacks.onWrite lib value g).1.config.motion_threshold =
        g.config.motion_threshold) ∧
    (∀ s p, doc.getMember (ascii "wifi_ssid") = some (.string s) →
      doc.getMember (ascii "wifi_password") = some (.string p) →
      c_str (FIND_Tracker.ConfigCallbacks.onWrite lib value g).1.config.wifi_ssid =
        (c_str s).take 31 ∧
      c_str (FIND_Tracker.ConfigCallbacks.onWrite lib value g).1.config.wifi_password =
        (c_str p).take 31) ∧
    (doc.getMember (ascii "wifi_ssid") = none ∨ doc.getMember (ascii "wifi_password") = none →
      (FIND_Tracker.ConfigCallbacks.onWrite lib value g).1.config.wifi_ssid =
        g.config.wifi_ssid ∧
      (FIND_Tracker.ConfigCallbacks.onWrite lib value g).1.config.wifi_password =
        g.config.wifi_password) ∧
    (∀ v, doc.getMember (ascii "device_id") = some v → (∀ s, v ≠ .string s) →
      c_str (FIND_Tracker.ConfigCallbacks.onWrite lib value g).1.config.device_id = []) ∧
    (∀ v, doc.getMember (ascii "api_endpoint") = some v → (∀ s, v ≠ .string s) →
      c_str (FIND_Tracker.ConfigCallbacks.onWrite lib value g).1.config.api_endpoint = []) ∧
    (∀ v, doc.getMember (ascii "api_key") = some v → (∀ s, v ≠ .string s) →
      c_str (FIND_Tracker.ConfigCallbacks.onWrite lib value g).1.config.api_key = []) ∧
    (∀ v, doc.getMember (ascii "transmit_interval") = some v →
      (∀ i, v = .integer i → ¬ (INT_MIN ≤ i ∧ i ≤ INT_MAX)) →
      (FIND_Tracker.ConfigCallbacks.onWrite lib value g).1.config.transmit_interval = 60) ∧
    (∀ v, doc.getMember (ascii "motion_threshold") = some v →
      (∀ i, v ≠ .integer i) → (∀ m e, v ≠ .real m e) →
      (FIND_Tracker.ConfigCallbacks.onWrite lib value g).1.config.motion_threshold =
        DEFAULT_MOTION_THRESHOLD) ∧
    (∀ v w, doc.getMember (ascii "wifi_ssid") = some v →
      doc.getMember (ascii "wifi_password") = some w →
      ((∀ s, v = .string s →
          c_str (FIND_Tracker.ConfigCallbacks.onWrite lib value g).1.config.wifi_ssid =
            (c_str s).take 31) ∧
        ((∀ s, v ≠ .string s) →
          c_str (FIND_Tracker.ConfigCallbacks.onWrite lib value g).1.config.wifi_ssid = []) ∧
        (∀ p, w = .string p →
          c_str (FIND_Tracker.ConfigCallbacks.onWrite lib value g).1.config.wifi_password =
            (c_str p).take 31) ∧
        ((∀ p, w ≠ .string p) →
          c_str (FIND_Tracker.ConfigCallbacks.onWrite lib value g).1.config.wifi_password =
            []))) := by
  rw [src_config_onWrite_config lib wifiStatus value g doc hne hdoc,
    find_config_onWrite_config lib value g doc hne hdoc]
  refine ⟨rfl, ?_, ?_, ?_, ?_, ?_, ?_, ?_, ?_, ?_, ?_, ?_, ?_, ?_, ?_, ?_, ?_, ?_, ?_, ?_⟩
  · intro s hs
    rw [updateConfig_device_id, if_pos (containsKey_of_getMember _ _ _ hs),
      stringOr_of_string _ _ _ _ hs, c_str_strlcpy _ _ _ (by decide)]
    rfl
  · intro h
    rw [updateConfig_device_id, if_neg (by simp [containsKey_of_getMember_none _ _ h])]
  · intro s hs
    rw [updateConfig_api_endpoint, if_pos (containsKey_of_getMember _ _ _ hs),
      stringOr_of_string _ _ _ _ hs, c_str_strlcpy _ _ _ (by decide)]
    rfl
  · intro h
    rw [updateConfig_api_endpoint, if_neg (by simp [containsKey_of_getMember_none _ _ h])]
  · intro s hs
    rw [updateConfig_api_key, if_pos (containsKey_of_getMember _ _ _ hs),
      stringOr_of_string _ _ _ _ hs, c_str_strlcpy _ _ _ (by decide)]
    rfl
  · intro h
    rw [updateConfig_api_key, if_neg (by simp [containsKey_of_getMember_none _ _ h])]
  · intro i hi hlo hhi
    rw [updateConfig_transmit_interval, if_pos (containsKey_of_getMember _ _ _ hi),
      intOr_of_integer _ _ _ _ hi hlo hhi]
  · intro h
    rw [updateConfig_transmit_interval,
      if_neg (by simp [containsKey_of_getMember_none _ _ h])]
  · intro i hi
    rw [updateConfig_motion_threshold, if_pos (containsKey_of_getMember _ _ _ hi)]
    simp [JsonVariant.floatOr, hi]
  · intro m e hm
    rw [updateConfig_motion_threshold, if_pos (containsKey_of_getMember _ _ _ hm)]
    simp [JsonVariant.floatOr, hm]
  · intro h
    rw [updateConfig_motion_threshold,
      if_neg (by simp [containsKey_of_getMember_none _ _ h])]
  · intro s p hs hp
    have hc : hasCredentials doc = true := by
      simp [hasCredentials, containsKey_of_getMember _ _ _ hs, containsKey_of_getMember _ _ _ hp]
    rw [updateConfig_wifi_ssid, updateConfig_wifi_password, if_pos hc, if_pos hc,
      stringOr_of_string _ _ _ _ hs, stringOr_of_string _ _ _ _ hp,
      c_str_strlcpy _ _ _ (by decide), c_str_strlcpy _ _ _ (by decide)]
    exact ⟨rfl, rfl⟩
  · intro h
    have hc := hasCredentials_eq_false doc h
    rw [updateConfig_wifi_ssid, updateConfig_wifi_password, hc]
    exact ⟨rfl, rfl⟩
  · intro v hv hns
    rw [updateConfig_device_id, if_pos (containsKey_of_getMember _ _ _ hv),
      c_str_strlcpy _ _ _ (by decide), c_str_stringOr_of_other _ _ _ hv hns]
    rfl
  · intro v hv hns
    rw [updateConfig_api_endpoint, if_pos (containsKey_of_getMember _ _ _ hv),
      c_str_strlcpy _ _ _ (by decide), c_str_stringOr_of_other _ _ _ hv hns]
    rfl
  · intro v hv hns
    rw [updateConfig_api_key, if_pos (containsKey_of_getMember _ _ _ hv),
      c_str_strlcpy _ _ _ (by decide), c_str_stringOr_of_other _ _ _ hv hns]
    rfl
  · intro v hv hni
    rw [updateConfig_transmit_interval, if_pos (containsKey_of_getMember _ _ _ hv),
      intOr_of_other _ _ _ _ hv hni]
    rfl
  · intro v hv hi hr
    rw [updateConfig_motion_threshold, if_pos (containsKey_of_getMember _ _ _ hv),
      floatOr_of_other _ _ _ _ _ hv hi hr]
  · intro v w hv hw
    have hc : hasCredentials doc = true := by
      simp [hasCredentials, containsKey_of_getMember _ _ _ hv, containsKey_of_getMember _ _ _ hw]
    rw [updateConfig_wifi_ssid, updateConfig_wifi_password, if_pos hc, if_pos hc,
      c_str_strlcpy _ _ _ (by decide), c_str_strlcpy _ _ _ (by decide)]
    refine ⟨?_, ?_, ?_, ?_⟩
    · intro s hs
      rw [stringOr_of_string _ _ s _ (by rw [hv, hs])]
      rfl
    · intro hns
      rw [c_str_stringOr_of_other _ _ _ hv hns]
      rfl
    · intro p hp
      rw [stringOr_of_string _ _ p _ (by rw [hw, hp])]
      rfl
    · intro hns
      rw [c_str_stringOr_of_other _ _ _ hw hns]
      rfl

/-- The write `{"transmit_interval":-5,"device_id":"tracker-2"}` parses; it stores the
`device_id` and the interval and leaves the WiFi credentials of the sample configuration. -/
theorem config_write_fields_witness :
    negativeIntervalPayload.length > 0 ∧
    referenceLibrary.deserializeJson 1024 (c_str negativeIntervalPayload) =
      some (.object [(ascii "transmit_interval", .integer (-5)),
        (ascii "device_id", .string (ascii "tracker-2"))]) ∧
    c_str (FIND_Tracker.ConfigCallbacks.onWrite referenceLibrary negativeIntervalPayload
      sampleGlobals).1.config.device_id = ascii "tracker-2" ∧
    (FIND_Tracker.ConfigCallbacks.onWrite referenceLibrary negativeIntervalPayload
      sampleGlobals).1.config.transmit_interval = -5 ∧
    (FIND_Tracker.ConfigCallbacks.onWrite referenceLibrary negativeIntervalPayload
      sampleGlobals).1.config.wifi_ssid = sampleConfig.wifi_ssid :=
  have h := config_write_fields referenceLibrary sampleWifiStatus negativeIntervalPayload
    sampleGlobals _ (by decide) (by rfl)
  ⟨by decide, by rfl, h.2.1 (ascii "tracker-2") (by rfl),
    h.2.2.2.2.2.2.2.1 (-5) (by rfl) (by decide) (by decide),
    (h.2.2.2.2.2.2.2.2.2.2.2.2.2.1 (Or.inl (by rfl))).1⟩

/-- C5, as stated, fails: the write that carries a `wifi_ssid` of 40 letters and no
`wifi_password` leaves the `wifi_ssid` field as it was, not the first 31 letters and a
NUL; so in both variants. -/
theorem long_ssid_without_password_is_not_stored :
    strlen longSsid = 40 ∧
    (referenceLibrary.deserializeJson 1024 (c_str longSsidPayload)).isSome = true ∧
    (FIND_Tracker.ConfigCallbacks.onWrite referenceLibrary longSsidPayload
      sampleGlobals).1.config.wifi_ssid = sampleConfig.wifi_ssid ∧
    (SrcVariant.ConfigCallbacks.onWrite referenceLibrary sampleWifiStatus longSsidPayload
      sampleGlobals).1.config.wifi_ssid = sampleConfig.wifi_ssid ∧
    sampleConfig.wifi_ssid ≠ longSsid.take 31 ++ [0] := by
  decide

/-- C5, amended: on a configuration whose arrays have their declared sizes, after a
config write that parses, in both variants,
* a text field whose value is copied (its key is present, and for `wifi_ssid` and
  `wifi_password` the other key of the two as well) and whose value is at least as long
  as the field holds exactly the first 31 (`wifi_ssid`, `wifi_password`), 36 (`device_id`)
  or 99 (`api_endpoint`, `api_key`) bytes of the value and then a NUL;
* every array still has its declared size: no copy writes past its field;
* a field whose key is absent, or for the two WiFi fields one of whose keys is absent, has
  every byte as before. -/
theorem oversized_text_is_truncated (lib : JsonLibrary) (wifiStatus : Nat → Bool)
    (value : List Nat) (g : Globals) (doc : JsonVariant) (hne : value.length > 0)
    (hdoc : lib.deserializeJson 1024 (c_str value) = some doc)
    (hsized : g.config.WellSized) :
    (SrcVariant.ConfigCallbacks.onWrite lib wifiStatus value g).1.config =
      (FIND_Tracker.ConfigCallbacks.onWrite lib value g).1.config ∧
    (FIND_Tracker.ConfigCallbacks.onWrite lib value g).1.config.WellSized ∧
    (∀ s, doc.getMember (ascii "wifi_ssid") = some (.string s) →
      doc.containsKey (ascii "wifi_password") = true → 32 ≤ strlen s →
      (FIND_Tracker.ConfigCallbacks.onWrite lib value g).1.config.wifi_ssid =
        (c_str s).take 31 ++ [0]) ∧
    (∀ s, doc.getMember (ascii "wifi_password") = some (.string s) →
      doc.containsKey (ascii "wifi_ssid") = true → 32 ≤ strlen s →
      (FIND_Tracker.ConfigCallbacks.onWrite lib value g).1.config.wifi_password =
        (c_str s).take 31 ++ [0]) ∧
    (∀ s, doc.getMember (ascii "device_id") = some (.string s) → 37 ≤ strlen s →
      (FIND_Tracker.ConfigCallbacks.onWrite lib value g).1.config.device_id =
        (c_str s).take 36 ++ [0]) ∧
    (∀ s, doc.getMember (ascii "api_endpoint") = some (.string s) → 100 ≤ strlen s →
      (FIND_Tracker.ConfigCallbacks.onWrite lib value g).1.config.api_endpoint =
        (c_str s).take 99 ++ [0]) ∧
    (∀ s, doc.getMember (ascii "api_key") = some (.string s) → 100 ≤ strlen s →
      (FIND_Tracker.ConfigCallbacks.onWrite lib value g).1.config.api_key =
        (c_str s).take 99 ++ [0]) ∧
    (doc.getMember (ascii "wifi_ssid") = none ∨ doc.getMember (ascii "wifi_password") = none →
      (FIND_Tracker.ConfigCallbacks.onWrite lib value g).1.config.wifi_ssid =
        g.config.wifi_ssid ∧
      (FIND_Tracker.ConfigCallbacks.onWrite lib value g).1.config.wifi_password =
        g.config.wifi_password) ∧
    (doc.getMember (ascii "device_id") = none →
      (FIND_Tracker.ConfigCallbacks.onWrite lib value g).1.config.device_id =
        g.config.device_id) ∧
    (doc.getMember (ascii "api_endpoint") = none →
      (FIND_Tracker.ConfigCallbacks.onWrite lib value g).1.config.api_endpoint =
        g.config.api_endpoint) ∧
    (doc.getMember (ascii "api_key") = none →
      (FIND_Tracker.ConfigCallbacks.onWrite lib value g).1.config.api_key = g.config.api_key) ∧
    (doc.getMember (ascii "transmit_interval") = none →
      (FIND_Tracker.ConfigCallbacks.onWrite lib value g).1.config.transmit_interval =
        g.config.transmit_interval) ∧
    (doc.getMember (ascii "motion_threshold") = none →
      (FIND_Tracker.ConfigCallbacks.onWrite lib value g).1.config.motion_threshold =
        g.config.motion_threshold) := by
  rw [src_config_onWrite_config lib wifiStatus value g doc hne hdoc,
    find_config_onWrite_config lib value g doc hne hdoc]
  obtain ⟨h1, h2, h3, h4, h5⟩ := hsized
  refine ⟨rfl, updateConfig_wellSized lib doc g.config ⟨h1, h2, h3, h4, h5⟩,
    ?_, ?_, ?_, ?_, ?_, ?_, ?_, ?_, ?_, ?_, ?_⟩
  · intro s hs hp hlong
    have hc : hasCredentials doc = true := by
      simp [hasCredentials, containsKey_of_getMember _ _ _ hs, hp]
    rw [updateConfig_wifi_ssid, if_pos hc, stringOr_of_string _ _ _ _ hs,
      strlcpy_truncates _ _ _ (by decide) h1 hlong]
    rfl
  · intro s hs hp hlong
    have hc : hasCredentials doc = true := by
      simp [hasCredentials, containsKey_of_getMember _ _ _ hs, hp]
    rw [updateConfig_wifi_password, if_pos hc, stringOr_of_string _ _ _ _ hs,
      strlcpy_truncates _ _ _ (by decide) h2 hlong]
    rfl
  · intro s hs hlong
    rw [updateConfig_device_id, if_pos (containsKey_of_getMember _ _ _ hs),
      stringOr_of_string _ _ _ _ hs, strlcpy_truncates _ _ _ (by decide) h3 hlong]
    rfl
  · intro s hs hlong
    rw [updateConfig_api_endpoint, if_pos (containsKey_of_getMember _ _ _ hs),
      stringOr_of_string _ _ _ _ hs, strlcpy_truncates _ _ _ (by decide) h4 hlong]
    rfl
  · intro s hs hlong
    rw [updateConfig_api_key, if_pos (containsKey_of_getMember _ _ _ hs),
      stringOr_of_string _ _ _ _ hs, strlcpy_truncates _ _ _ (by decide) h5 hlong]
    rfl
  · intro h
    have hc := hasCredentials_eq_false doc h
    rw [updateConfig_wifi_ssid, updateConfig_wifi_password, hc]
    exact ⟨rfl, rfl⟩
  · intro h
    rw [updateConfig_device_id, if_neg (by simp [containsKey_of_getMember_none _ _ h])]
  · intro h
    rw [updateConfig_api_endpoint, if_neg (by simp [containsKey_of_getMember_none _ _ h])]
  · intro h
    rw [updateConfig_api_key, if_neg (by simp [containsKey_of_getMember_none _ _ h])]
  · intro h
    rw [updateConfig_transmit_interval,
      if_neg (by simp [containsKey_of_getMember_none _ _ h])]
  · intro h
    rw [updateConfig_motion_threshold,
      if_neg (by simp [containsKey_of_getMember_none _ _ h])]

/-- The write with a `wifi_ssid` of 40 letters and a `wifi_password` parses; on the sample
configuration it stores 31 letters and a NUL in `wifi_ssid` and leaves `device_id`. -/
theorem oversized_text_is_truncated_witness :
    credentialsPayload.length > 0 ∧
    referenceLibrary.deserializeJson 1024 (c_str credentialsPayload) =
      some (.object [(ascii "wifi_ssid", .string longSsid),
        (ascii "wifi_password", .string (ascii "hunter2"))]) ∧
    sampleGlobals.config.WellSized ∧
    (FIND_Tracker.ConfigCallbacks.onWrite referenceLibrary credentialsPayload
      sampleGlobals).1.config.wifi_ssid = List.replicate 31 65 ++ [0] ∧
    (FIND_Tracker.ConfigCallbacks.onWrite referenceLibrary credentialsPayload
      sampleGlobals).1.config.device_id = sampleConfig.device_id :=
  have h := oversized_text_is_truncated referenceLibrary sampleWifiStatus credentialsPayload
    sampleGlobals _ (by decide) (by rfl) (by decide)
  ⟨by decide, by rfl, by decide, h.2.2.1 longSsid (by rfl) (by decide) (by decide),
    h.2.2.2.2.2.2.2.2.1 (by rfl)⟩

/-- C6: applying a config write twice in a row gives the same `DeviceConfig` as applying it
once, for every payload, parsed or not, in both variants. -/
theorem config_write_idempotent (lib : JsonLibrary) (wifiStatus wifiStatus2 : Nat → Bool)
    (value : List Nat) (g : Globals) :
    (FIND_Tracker.ConfigCallbacks.onWrite lib value
      (FIND_Tracker.ConfigCallbacks.onWrite lib value g).1).1.config =
      (FIND_Tracker.ConfigCallbacks.onWrite lib value g).1.config ∧
    (SrcVariant.ConfigCallbacks.onWrite lib wifiStatus2 value
      (SrcVariant.ConfigCallbacks.onWrite lib wifiStatus value g).1).1.config =
      (SrcVariant.ConfigCallbacks.onWrite lib wifiStatus value g).1.config := by
  by_cases hne : value.length > 0
  · cases hdoc : lib.deserializeJson 1024 (c_str value) with
    | none =>
      simp only [find_config_onWrite_rejected lib value _ (Or.inr hdoc),
        src_config_onWrite_rejected lib _ value _ (Or.inr hdoc), and_self]
    | some doc =>
      simp only [find_config_onWrite_config lib value _ doc hne hdoc,
        src_config_onWrite_config lib _ value _ doc hne hdoc]
      exact ⟨updateConfig_idem lib doc g.config, updateConfig_idem lib doc g.config⟩
  · have he : value = [] := by
      cases value with
      | nil => rfl
      | cons a t => exact absurd (by simp) hne
    simp only [find_config_onWrite_rejected lib value _ (Or.inl he),
      src_config_onWrite_rejected lib _ value _ (Or.inl he), and_self]

theorem find_command_onWrite_parsed (lib : JsonLibrary) (value : List Nat) (g : Globals)
    (doc : JsonVariant) (hne : value.length > 0)
    (hdoc : lib.deserializeJson 256 (c_str value) = some doc) :
    FIND_Tracker.CommandCallbacks.onWrite lib value g =
      if c_str (doc.stringOr (ascii "command") []) = ascii "reset" then
        (g, [Effect.delay 1000, Effect.restart])
      else if c_str (doc.stringOr (ascii "command") []) = ascii "factory_reset" then
        ({ g with config := memset_zero },
          [Effect.saveConfig memset_zero, Effect.delay 1000, Effect.restart])
      else (g, []) := by
  simp only [FIND_Tracker.CommandCallbacks.onWrite, hne, if_true, hdoc, ite_self]

theorem src_command_onWrite_parsed (lib : JsonLibrary) (value : List Nat) (g : Globals)
    (doc : JsonVariant) (hne : value.length > 0)
    (hdoc : lib.deserializeJson 256 (c_str value) = some doc) :
    SrcVariant.CommandCallbacks.onWrite lib value g =
      if c_str (doc.stringOr (ascii "command") []) = ascii "buzzer" then
        (g, [Effect.triggerBuzzer (doc.intOr (ascii "duration") 1000)])
      else if c_str (doc.stringOr (ascii "command") []) = ascii "reset" then
        (g, [Effect.delay 1000, Effect.restart])
      else if c_str (doc.stringOr (ascii "command") []) = ascii "factory_reset" then
        ({ g with config := memset_zero },
          [Effect.saveConfig memset_zero, Effect.delay 1000, Effect.restart])
      else (g, []) := by
  simp only [SrcVariant.CommandCallbacks.onWrite, hne, if_true, hdoc, ite_self]

theorem find_command_onWrite_rejected (lib : JsonLibrary) (value : List Nat)
    (g : Globals) (h : ¬ value.length > 0 ∨ lib.deserializeJson 256 (c_str value) = none) :
    FIND_Tracker.CommandCallbacks.onWrite lib value g = (g, []) := by
  unfold FIND_Tracker.CommandCallbacks.onWrite
  rcases h with h | h
  · simp only [h, if_false]
  · simp only [h]; split_ifs <;> rfl

theorem src_command_onWrite_rejected (lib : JsonLibrary) (value : List Nat)
    (g : Globals) (h : ¬ value.length > 0 ∨ lib.deserializeJson 256 (c_str value) = none) :
    SrcVariant.CommandCallbacks.onWrite lib value g = (g, []) := by
  unfold SrcVariant.CommandCallbacks.onWrite
  rcases h with h | h
  · simp only [h, if_false]
  · simp only [h]; split_ifs <;> rfl

theorem ascii_reset_ne_factory : ascii "reset" ≠ ascii "factory_reset" := by decide
theorem ascii_buzzer_ne_factory : ascii "buzzer" ≠ ascii "factory_reset" := by decide
theorem ascii_buzzer_ne_reset : ascii "buzzer" ≠ ascii "reset" := by decide

/-- C7: a command write that parses and whose `command` is `factory_reset` sets every
field of `DeviceConfig` to zero (every byte of every text field 0, so every text empty,
`paired` false, `transmit_interval` 0, `motion_threshold` 0), then calls `saveConfig` once
with that zeroed configuration, then `delay(1000)`, then `ESP.restart()` once, and makes
no other call; so in both variants, whatever the configuration was. -/
theorem factory_reset_zeroes_saves_restarts (lib : JsonLibrary) (value : List Nat)
    (g : Globals) (doc : JsonVariant) (hne : value.length > 0)
    (hdoc : lib.deserializeJson 256 (c_str value) = some doc)
    (hcmd : c_str (doc.stringOr (ascii "command") []) = ascii "factory_reset") :
    (FIND_Tracker.CommandCallbacks.onWrite lib value g).1.config =
      { wifi_ssid := List.replicate 32 0, wifi_password := List.replicate 32 0,
        device_id := List.replicate 37 0, api_endpoint := List.replicate 100 0,
        api_key := List.replicate 100 0, paired := false, transmit_interval := 0,
        motion_threshold := ⟨0⟩ } ∧
    c_str (FIND_Tracker.CommandCallbacks.onWrite lib value g).1.config.wifi_ssid = [] ∧
    c_str (FIND_Tracker.CommandCallbacks.onWrite lib value g).1.config.wifi_password = [] ∧
    c_str (FIND_Tracker.CommandCallbacks.onWrite lib value g).1.config.device_id = [] ∧
    c_str (FIND_Tracker.CommandCallbacks.onWrite lib value g).1.config.api_endpoint = [] ∧
    c_str (FIND_Tracker.CommandCallbacks.onWrite lib value g).1.config.api_key = [] ∧
    (FIND_Tracker.CommandCallbacks.onWrite lib value g).2 =
      [Effect.saveConfig (FIND_Tracker.CommandCallbacks.onWrite lib value g).1.config,
       Effect.delay 1000, Effect.restart] ∧
    SrcVariant.CommandCallbacks.onWrite lib value g =
      FIND_Tracker.CommandCallbacks.onWrite lib value g := by
  simp only [find_command_onWrite_parsed lib value g doc hne hdoc,
    src_command_onWrite_parsed lib value g doc hne hdoc, hcmd,
    ascii_reset_ne_factory.symm, ascii_buzzer_ne_factory.symm, if_false, if_true]
  repeat' constructor

/-- The reference reader reads `{"command":"factory_reset"}`; on the sample globals the
write leaves the zeroed configuration and the calls save, delay, restart. -/
theorem factory_reset_zeroes_saves_restarts_witness :
    factoryResetPayload.length > 0 ∧
    referenceLibrary.deserializeJson 256 (c_str factoryResetPayload) =
      some (.object [(ascii "command", .string (ascii "factory_reset"))]) ∧
    (FIND_Tracker.CommandCallbacks.onWrite referenceLibrary factoryResetPayload
      sampleGlobals).1.config = memset_zero ∧
    (FIND_Tracker.CommandCallbacks.onWrite referenceLibrary factoryResetPayload sampleGlobals).2 =
      [Effect.saveConfig memset_zero, Effect.delay 1000, Effect.restart] ∧
    (SrcVariant.CommandCallbacks.onWrite referenceLibrary factoryResetPayload sampleGlobals).2 =
      [Effect.saveConfig memset_zero, Effect.delay 1000, Effect.restart] :=
  have h := factory_reset_zeroes_saves_restarts referenceLibrary factoryResetPayload
    sampleGlobals _ (by decide) (by rfl) (by decide)
  ⟨by decide, by rfl, h.1, by decide, by decide⟩

theorem find_config_onWrite_no_restart (lib : JsonLibrary) (value : List Nat) (g : Globals) :
    (FIND_Tracker.ConfigCallbacks.onWrite lib value g).2.filter Effect.isRestart = [] := by
  by_cases hne : value.length > 0
  · cases hdoc : lib.deserializeJson 1024 (c_str value) with
    | none => rw [find_config_onWrite_rejected lib value g (Or.inr hdoc)]; rfl
    | some doc =>
      rw [find_config_onWrite_parsed lib value g doc (List.length_pos.mp hne) hdoc]
      split_ifs <;> simp [Effect.isRestart]
  · have he : value = [] := List.length_eq_zero.mp (Nat.eq_zero_of_not_pos hne)
    rw [find_config_onWrite_rejected lib value g (Or.inl he)]; rfl

theorem src_config_onWrite_no_restart (lib : JsonLibrary) (wifiStatus : Nat → Bool)
    (value : List Nat) (g : Globals) :
    (SrcVariant.ConfigCallbacks.onWrite lib wifiStatus value g).2.filter Effect.isRestart = [] := by
  have hf5 := flashLed_filter Effect.isRestart (fun _ => rfl) (fun _ => rfl) 5 100
  have hf3 := flashLed_filter Effect.isRestart (fun _ => rfl) (fun _ => rfl) 3 50
  have hw := waitForWiFi_filter Effect.isRestart (fun _ => rfl) (fun _ => rfl) wifiStatus 20 0 false
  by_cases hne : value.length > 0
  · cases hdoc : lib.deserializeJson 1024 (c_str value) with
    | none => rw [src_config_onWrite_rejected lib wifiStatus value g (Or.inr hdoc)]; rfl
    | some doc =>
      rw [src_config_onWrite_parsed lib wifiStatus value g doc (List.length_pos.mp hne) hdoc]
      split_ifs <;> simp only [List.filter_append, hf5, hf3, hw] <;> rfl
  · have he : value = [] := List.length_eq_zero.mp (Nat.eq_zero_of_not_pos hne)
    rw [src_config_onWrite_rejected lib wifiStatus value g (Or.inl he)]; rfl

theorem restart_not_mem_of_filter (l : List Effect) (h : l.filter Effect.isRestart = []) :
    Effect.restart ∉ l := by
  intro hm
  have := List.filter_eq_nil_iff.mp h Effect.restart hm
  exact this rfl

theorem c_str_stringOr_of_not_string (doc : JsonVariant) (key : List Nat)
    (h : ∀ s, doc.getMember key ≠ some (.string s)) : c_str (doc.stringOr key []) = [] := by
  unfold JsonVariant.stringOr
  split
  · next s hs => exact absurd hs (h s)
  · rfl

theorem command_onWrite_unrecognised (lib : JsonLibrary) (value : List Nat) (g : Globals)
    (doc : JsonVariant) (hdoc : lib.deserializeJson 256 (c_str value) = some doc)
    (h1 : c_str (doc.stringOr (ascii "command") []) ≠ ascii "reset")
    (h2 : c_str (doc.stringOr (ascii "command") []) ≠ ascii "factory_reset") :
    FIND_Tracker.CommandCallbacks.onWrite lib value g = (g, []) ∧
    (c_str (doc.stringOr (ascii "command") []) ≠ ascii "buzzer" →
      SrcVariant.CommandCallbacks.onWrite lib value g = (g, [])) := by
  by_cases hne : value.length > 0
  · rw [find_command_onWrite_parsed lib value g doc hne hdoc,
      src_command_onWrite_parsed lib value g doc hne hdoc]
    simp only [h1, h2, if_false, true_and]
    intro h3
    simp only [h3, if_false]
  · exact ⟨find_command_onWrite_rejected lib value g (Or.inl hne),
      fun _ => src_command_onWrite_rejected lib value g (Or.inl hne)⟩

theorem find_command_restart_iff (lib : JsonLibrary) (value : List Nat) (g : Globals) :
    Effect.restart ∈ (FIND_Tracker.CommandCallbacks.onWrite lib value g).2 ↔
      value.length > 0 ∧ ∃ doc, lib.deserializeJson 256 (c_str value) = some doc ∧
        (c_str (doc.stringOr (ascii "command") []) = ascii "reset" ∨
         c_str (doc.stringOr (ascii "command") []) = ascii "factory_reset") := by
  constructor
  · intro hmem
    by_cases hne : value.length > 0
    · cases hdoc : lib.deserializeJson 256 (c_str value) with
      | none =>
        rw [find_command_onWrite_rejected lib value g (Or.inr hdoc)] at hmem
        simp at hmem
      | some doc =>
        refine ⟨hne, doc, rfl, ?_⟩
        by_contra hcon
        push_neg at hcon
        rw [(command_onWrite_unrecognised lib value g doc hdoc hcon.1 hcon.2).1] at hmem
        simp at hmem
    · rw [find_command_onWrite_rejected lib value g (Or.inl hne)] at hmem
      simp at hmem
  · rintro ⟨hne, doc, hdoc, hcmd⟩
    rw [find_command_onWrite_parsed lib value g doc hne hdoc]
    rcases hcmd with h | h
    · simp [h]
    · simp [h, ascii_reset_ne_factory.symm]

theorem src_command_restart_iff (lib : JsonLibrary) (value : List Nat) (g : Globals) :
    Effect.restart ∈ (SrcVariant.CommandCallbacks.onWrite lib value g).2 ↔
      value.length > 0 ∧ ∃ doc, lib.deserializeJson 256 (c_str value) = some doc ∧
        (c_str (doc.stringOr (ascii "command") []) = ascii "reset" ∨
         c_str (doc.stringOr (ascii "command") []) = ascii "factory_reset") := by
  constructor
  · intro hmem
    by_cases hne : value.length > 0
    · cases hdoc : lib.deserializeJson 256 (c_str value) with
      | none =>
        rw [src_command_onWrite_rejected lib value g (Or.inr hdoc)] at hmem
        simp at hmem
      | some doc =>
        refine ⟨hne, doc, rfl, ?_⟩
        by_contra hcon
        push_neg at hcon
        rw [src_command_onWrite_parsed lib value g doc hne hdoc] at hmem
        simp only [hcon.1, hcon.2, if_false] at hmem
        split_ifs at hmem <;> simp at hmem
    · rw [src_command_onWrite_rejected lib value g (Or.inl hne)] at hmem
      simp at hmem
  · rintro ⟨hne, doc, hdoc, hcmd⟩
    rw [src_command_onWrite_parsed lib value g doc hne hdoc]
    rcases hcmd with h | h
    · simp [h, ascii_buzzer_ne_reset.symm]
    · simp [h, ascii_reset_ne_factory.symm, ascii_buzzer_ne_factory.symm]

theorem parses_imp_nonempty (lib : JsonLibrary) (value : List Nat)
    (hempty : lib.deserializeJson 256 [] = none)
    (h : ∃ doc, lib.deserializeJson 256 (c_str value) = some doc) : value.length > 0 := by
  by_contra hne
  have he : value = [] := List.length_eq_zero.mp (Nat.eq_zero_of_not_pos hne)
  obtain ⟨doc, hdoc⟩ := h
  rw [he] at hdoc
  have : c_str [] = [] := rfl
  rw [this, hempty] at hdoc
  exact Option.noConfusion hdoc

/-- C8: a write to the config or to the command characteristic calls `ESP.restart()` if and
only if it is a non-empty command write whose JSON parses and whose `command` is exactly
`reset` or `factory_reset` (with a reader that rejects empty input, as `deserializeJson`
does: if and only if it is a command write whose JSON parses and whose `command` is one of
the two). A command write with malformed JSON, with a command that is neither `reset` nor
`factory_reset` (nor, in the variant with a buzzer, `buzzer`), or with a missing or
non-string `command`, leaves all globals (`DeviceConfig` and the connection flags) as they
were and makes no call at all: no save, no restart, no alert. -/
theorem restart_only_on_reset_commands (lib : JsonLibrary) (wifiStatus : Nat → Bool)
    (value : List Nat) (g : Globals) :
    Effect.restart ∉ (FIND_Tracker.ConfigCallbacks.onWrite lib value g).2 ∧
    Effect.restart ∉ (SrcVariant.ConfigCallbacks.onWrite lib wifiStatus value g).2 ∧
    (Effect.restart ∈ (FIND_Tracker.CommandCallbacks.onWrite lib value g).2 ↔
      value.length > 0 ∧ ∃ doc, lib.deserializeJson 256 (c_str value) = some doc ∧
        (c_str (doc.stringOr (ascii "command") []) = ascii "reset" ∨
         c_str (doc.stringOr (ascii "command") []) = ascii "factory_reset")) ∧
    (Effect.restart ∈ (SrcVariant.CommandCallbacks.onWrite lib value g).2 ↔
      value.length > 0 ∧ ∃ doc, lib.deserializeJson 256 (c_str value) = some doc ∧
        (c_str (doc.stringOr (ascii "command") []) = ascii "reset" ∨
         c_str (doc.stringOr (ascii "command") []) = ascii "factory_reset")) ∧
    (lib.deserializeJson 256 [] = none →
      (Effect.restart ∈ (FIND_Tracker.CommandCallbacks.onWrite lib value g).2 ↔
        ∃ doc, lib.deserializeJson 256 (c_str value) = some doc ∧
          (c_str (doc.stringOr (ascii "command") []) = ascii "reset" ∨
           c_str (doc.stringOr (ascii "command") []) = ascii "factory_reset")) ∧
      (Effect.restart ∈ (SrcVariant.CommandCallbacks.onWrite lib value g).2 ↔
        ∃ doc, lib.deserializeJson 256 (c_str value) = some doc ∧
          (c_str (doc.stringOr (ascii "command") []) = ascii "reset" ∨
           c_str (doc.stringOr (ascii "command") []) = ascii "factory_reset"))) ∧
    (lib.deserializeJson 256 (c_str value) = none →
      FIND_Tracker.CommandCallbacks.onWrite lib value g = (g, []) ∧
      SrcVariant.CommandCallbacks.onWrite lib value g = (g, [])) ∧
    (∀ doc, lib.deserializeJson 256 (c_str value) = some doc →
      c_str (doc.stringOr (ascii "command") []) ≠ ascii "reset" →
      c_str (doc.stringOr (ascii "command") []) ≠ ascii "factory_reset" →
      FIND_Tracker.CommandCallbacks.onWrite lib value g = (g, []) ∧
      (c_str (doc.stringOr (ascii "command") []) ≠ ascii "buzzer" →
        SrcVariant.CommandCallbacks.onWrite lib value g = (g, []))) ∧
    (∀ doc, lib.deserializeJson 256 (c_str value) = some doc →
      (∀ s, doc.getMember (ascii "command") ≠ some (.string s)) →
      FIND_Tracker.CommandCallbacks.onWrite lib value g = (g, []) ∧
      SrcVariant.CommandCallbacks.onWrite lib value g = (g, [])) := by
  refine ⟨restart_not_mem_of_filter _ (find_config_onWrite_no_restart lib value g),
    restart_not_mem_of_filter _ (src_config_onWrite_no_restart lib wifiStatus value g),
    find_command_restart_iff lib value g, src_command_restart_iff lib value g,
    ?_, ?_, command_onWrite_unrecognised lib value g, ?_⟩
  · intro hempty
    constructor
    · rw [find_command_restart_iff lib value g]
      exact ⟨fun h => h.2, fun h =>
        ⟨parses_imp_nonempty lib value hempty (h.imp fun _ hd => hd.1), h⟩⟩
    · rw [src_command_restart_iff lib value g]
      exact ⟨fun h => h.2, fun h =>
        ⟨parses_imp_nonempty lib value hempty (h.imp fun _ hd => hd.1), h⟩⟩
  · intro herr
    exact ⟨find_command_onWrite_rejected lib value g (Or.inr herr),
      src_command_onWrite_rejected lib value g (Or.inr herr)⟩
  · intro doc hdoc hns
    have hc := c_str_stringOr_of_not_string doc (ascii "command") hns
    have h := command_onWrite_unrecognised lib value g doc hdoc
      (by rw [hc]; decide) (by rw [hc]; decide)
    exact ⟨h.1, h.2 (by rw [hc]; decide)⟩

/-- The reference reader reads `{"command":"unknown_cmd"}`, and the command handlers leave
the sample globals alone and make no call; the payload `{not json` likewise; and
`{"command":"reset"}` does restart. -/
theorem restart_only_on_reset_commands_witness :
    referenceLibrary.deserializeJson 256 (c_str unknownCommandPayload) =
      some (.object [(ascii "command", .string (ascii "unknown_cmd"))]) ∧
    FIND_Tracker.CommandCallbacks.onWrite referenceLibrary unknownCommandPayload sampleGlobals =
      (sampleGlobals, []) ∧
    SrcVariant.CommandCallbacks.onWrite referenceLibrary unknownCommandPayload sampleGlobals =
      (sampleGlobals, []) ∧
    FIND_Tracker.CommandCallbacks.onWrite referenceLibrary malformedPayload sampleGlobals =
      (sampleGlobals, []) ∧
    Effect.restart ∈
      (FIND_Tracker.CommandCallbacks.onWrite referenceLibrary resetPayload sampleGlobals).2 :=
  have h := restart_only_on_reset_commands referenceLibrary sampleWifiStatus
    unknownCommandPayload sampleGlobals
  have h2 := h.2.2.2.2.2.2.1 _ (by rfl) (by decide) (by decide)
  have h3 := restart_only_on_reset_commands referenceLibrary sampleWifiStatus
    malformedPayload sampleGlobals
  ⟨by rfl, h2.1, h2.2 (by decide), (h3.2.2.2.2.2.1 (Option.isNone_iff_eq_none.mp (by decide))).1,
    by decide⟩

/-- C9, as stated, fails: the sample configuration has `transmit_interval` 60, and the
write `{"transmit_interval":0}` leaves it 0, the write
`{"transmit_interval":-5,"device_id":"tracker-2"}` leaves it -5; so in both variants. -/
theorem nonpositive_interval_is_stored :
    0 < sampleGlobals.config.transmit_interval ∧
    (referenceLibrary.deserializeJson 1024 (c_str zeroIntervalPayload)).isSome = true ∧
    (FIND_Tracker.ConfigCallbacks.onWrite referenceLibrary zeroIntervalPayload
      sampleGlobals).1.config.transmit_interval = 0 ∧
    (SrcVariant.ConfigCallbacks.onWrite referenceLibrary sampleWifiStatus zeroIntervalPayload
      sampleGlobals).1.config.transmit_interval = 0 ∧
    (FIND_Tracker.ConfigCallbacks.onWrite referenceLibrary negativeIntervalPayload
      sampleGlobals).1.config.transmit_interval = -5 ∧
    (SrcVariant.ConfigCallbacks.onWrite referenceLibrary sampleWifiStatus
      negativeIntervalPayload sampleGlobals).1.config.transmit_interval = -5 := by
  decide

/-- C9, amended: on a configuration with `transmit_interval > 0`, after a config write that
parses, in both variants,
* a `transmit_interval` member that is not an integer fitting `int` makes the field the
  default 60; an integer member that fits is stored as it is, zero and negative included;
  without the member the field is unchanged;
* so the field is `> 0` afterwards exactly when the member is not an integer `≤ 0`
  that fits `int`;
* every other field is written from its own key as for any other payload, whatever the
  `transmit_interval` member is. -/
theorem transmit_interval_after_write (lib : JsonLibrary) (wifiStatus : Nat → Bool)
    (value : List Nat) (g : Globals) (doc : JsonVariant) (hne : value.length > 0)
    (hdoc : lib.deserializeJson 1024 (c_str value) = some doc)
    (hpos : 0 < g.config.transmit_interval) :
    (SrcVariant.ConfigCallbacks.onWrite lib wifiStatus value g).1.config =
      (FIND_Tracker.ConfigCallbacks.onWrite lib value g).1.config ∧
    (∀ v, doc.getMember (ascii "transmit_interval") = some v →
      (∀ i, v = .integer i → ¬ (INT_MIN ≤ i ∧ i ≤ INT_MAX)) →
      (FIND_Tracker.ConfigCallbacks.onWrite lib value g).1.config.transmit_interval = 60) ∧
    (∀ i, doc.getMember (ascii "transmit_interval") = some (.integer i) →
      INT_MIN ≤ i → i ≤ INT_MAX →
      (FIND_Tracker.ConfigCallbacks.onWrite lib value g).1.config.transmit_interval = i) ∧
    (doc.getMember (ascii "transmit_interval") = none →
      (FIND_Tracker.ConfigCallbacks.onWrite lib value g).1.config.transmit_interval =
        g.config.transmit_interval) ∧
    (0 < (FIND_Tracker.ConfigCallbacks.onWrite lib value g).1.config.transmit_interval ↔
      ¬ ∃ i, doc.getMember (ascii "transmit_interval") = some (.integer i) ∧
        INT_MIN ≤ i ∧ i ≤ 0) ∧
    (FIND_Tracker.ConfigCallbacks.onWrite lib value g).1.config.wifi_ssid =
      (if hasCredentials doc then
        strlcpy g.config.wifi_ssid (doc.stringOr (ascii "wifi_ssid") []) sizeof_wifi_ssid
      else g.config.wifi_ssid) ∧
    (FIND_Tracker.ConfigCallbacks.onWrite lib value g).1.config.wifi_password =
      (if hasCredentials doc then
        strlcpy g.config.wifi_password (doc.stringOr (ascii "wifi_password") [])
          sizeof_wifi_password
      else g.config.wifi_password) ∧
    (FIND_Tracker.ConfigCallbacks.onWrite lib value g).1.config.device_id =
      (if doc.containsKey (ascii "device_id") then
        strlcpy g.config.device_id (doc.stringOr (ascii "device_id") []) sizeof_device_id
      else g.config.device_id) ∧
    (FIND_Tracker.ConfigCallbacks.onWrite lib value g).1.config.api_endpoint =
      (if doc.containsKey (ascii "api_endpoint") then
        strlcpy g.config.api_endpoint (doc.stringOr (ascii "api_endpoint") [])
          sizeof_api_endpoint
      else g.config.api_endpoint) ∧
    (FIND_Tracker.ConfigCallbacks.onWrite lib value g).1.config.api_key =
      (if doc.containsKey (ascii "api_key") then
        strlcpy g.config.api_key (doc.stringOr (ascii "api_key") []) sizeof_api_key
      else g.config.api_key) ∧
    (FIND_Tracker.ConfigCallbacks.onWrite lib value g).1.config.motion_threshold =
      (if doc.containsKey (ascii "motion_threshold") then
        doc.floatOr lib (ascii "motion_threshold") DEFAULT_MOTION_THRESHOLD
      else g.config.motion_threshold) ∧
    (FIND_Tracker.ConfigCallbacks.onWrite lib value g).1.config.paired = true := by
  rw [src_config_onWrite_config lib wifiStatus value g doc hne hdoc,
    find_config_onWrite_config lib value g doc hne hdoc]
  have hbad : ∀ v, doc.getMember (ascii "transmit_interval") = some v →
      (∀ i, v = .integer i → ¬ (INT_MIN ≤ i ∧ i ≤ INT_MAX)) →
      (updateConfig lib doc g.config).transmit_interval = 60 := by
    intro v hv hnot
    rw [updateConfig_transmit_interval, if_pos (containsKey_of_getMember _ _ _ hv)]
    unfold JsonVariant.intOr
    rw [hv]
    cases v with
    | integer i => simp only [hnot i rfl, if_false]; rfl
    | _ => rfl
  have hgood : ∀ i, doc.getMember (ascii "transmit_interval") = some (.integer i) →
      INT_MIN ≤ i → i ≤ INT_MAX → (updateConfig lib doc g.config).transmit_interval = i := by
    intro i hi hlo hhi
    rw [updateConfig_transmit_interval, if_pos (containsKey_of_getMember _ _ _ hi),
      intOr_of_integer _ _ _ _ hi hlo hhi]
  have habsent : doc.getMember (ascii "transmit_interval") = none →
      (updateConfig lib doc g.config).transmit_interval = g.config.transmit_interval := by
    intro h
    rw [updateConfig_transmit_interval,
      if_neg (by simp [containsKey_of_getMember_none _ _ h])]
  refine ⟨rfl, hbad, hgood, habsent, ?_, updateConfig_wifi_ssid lib doc g.config,
    updateConfig_wifi_password lib doc g.config, updateConfig_device_id lib doc g.config,
    updateConfig_api_endpoint lib doc g.config, updateConfig_api_key lib doc g.config,
    updateConfig_motion_threshold lib doc g.config, updateConfig_paired lib doc g.config⟩
  cases hm : doc.getMember (ascii "transmit_interval") with
  | none =>
    rw [habsent hm]
    simp [hpos]
  | some v =>
    by_cases hint : ∃ i, v = .integer i ∧ INT_MIN ≤ i ∧ i ≤ INT_MAX
    · obtain ⟨i, rfl, hlo, hhi⟩ := hint
      rw [hgood i hm hlo hhi]
      constructor
      · rintro hi ⟨j, hj, _, hj0⟩
        have : i = j := by simpa using hj
        omega
      · intro h
        by_contra hle
        exact h ⟨i, rfl, hlo, by omega⟩
    · rw [hbad v hm (fun i hi hr => hint ⟨i, hi, hr.1, hr.2⟩)]
      constructor
      · rintro _ ⟨j, hj, hlo, hj0⟩
        have hv : v = .integer j := by simpa using hj
        exact hint ⟨j, hv, hlo, by unfold INT_MAX; omega⟩
      · intro _; decide

/-- The write `{"transmit_interval":-5,"device_id":"tracker-2"}` parses; on the sample
configuration, whose interval is 60, it stores -5 and still writes `device_id`. -/
theorem transmit_interval_after_write_witness :
    negativeIntervalPayload.length > 0 ∧
    referenceLibrary.deserializeJson 1024 (c_str negativeIntervalPayload) =
      some (.object [(ascii "transmit_interval", .integer (-5)),
        (ascii "device_id", .string (ascii "tracker-2"))]) ∧
    0 < sampleGlobals.config.transmit_interval ∧
    (FIND_Tracker.ConfigCallbacks.onWrite referenceLibrary negativeIntervalPayload
      sampleGlobals).1.config.transmit_interval = -5 ∧
    (FIND_Tracker.ConfigCallbacks.onWrite referenceLibrary negativeIntervalPayload
      sampleGlobals).1.config.device_id = charArray "tracker-2" sizeof_device_id 0 :=
  have h := transmit_interval_after_write referenceLibrary sampleWifiStatus
    negativeIntervalPayload sampleGlobals _ (by decide) (by rfl) (by decide)
  ⟨by decide, by rfl, by decide, h.2.2.1 (-5) (by rfl) (by decide) (by decide), by decide⟩

theorem find_updateBLEStatus_config (batteryLevel : Int) (lat lng accX accY accZ : CFloat)
    (motion : Bool) (g : Globals) :
    (FIND_Tracker.updateBLEStatus batteryLevel lat lng accX accY accZ motion g).1.config =
      g.config := by
  unfold FIND_Tracker.updateBLEStatus
  dsimp only
  split_ifs <;> rfl

theorem src_updateBLEStatus_config (batteryLevel : Int) (lat lng accX accY accZ : CFloat)
    (motion : Bool) (g : Globals) :
    (SrcVariant.updateBLEStatus batteryLevel lat lng accX accY accZ motion g).1.config =
      g.config := by
  unfold SrcVariant.updateBLEStatus
  dsimp only
  split_ifs <;> rfl

theorem find_config_onWrite_paired (lib : JsonLibrary) (value : List Nat) (g : Globals)
    (hp : g.config.paired = true) :
    (FIND_Tracker.ConfigCallbacks.onWrite lib value g).1.config.paired = true := by
  by_cases hne : value.length > 0
  · cases hdoc : lib.deserializeJson 1024 (c_str value) with
    | none => rw [find_config_onWrite_rejected lib value g (Or.inr hdoc)]; exact hp
    | some doc =>
      rw [find_config_onWrite_config lib value g doc hne hdoc]
      exact updateConfig_paired lib doc g.config
  · have he : value = [] := List.length_eq_zero.mp (Nat.eq_zero_of_not_pos hne)
    rw [find_config_onWrite_rejected lib value g (Or.inl he)]; exact hp

theorem src_config_onWrite_paired (lib : JsonLibrary) (wifiStatus : Nat → Bool)
    (value : List Nat) (g : Globals) (hp : g.config.paired = true) :
    (SrcVariant.ConfigCallbacks.onWrite lib wifiStatus value g).1.config.paired = true := by
  by_cases hne : value.length > 0
  · cases hdoc : lib.deserializeJson 1024 (c_str value) with
    | none => rw [src_config_onWrite_rejected lib wifiStatus value g (Or.inr hdoc)]; exact hp
    | some doc =>
      rw [src_config_onWrite_config lib wifiStatus value g doc hne hdoc]
      exact updateConfig_paired lib doc g.config
  · have he : value = [] := List.length_eq_zero.mp (Nat.eq_zero_of_not_pos hne)
    rw [src_config_onWrite_rejected lib wifiStatus value g (Or.inl he)]; exact hp

theorem command_onWrite_paired (lib : JsonLibrary) (value : List Nat) (g : Globals)
    (hp : g.config.paired = true) :
    ((Operation.commandWrite value).IsFactoryReset lib →
      (FIND_Tracker.CommandCallbacks.onWrite lib value g).1.config.paired = false ∧
      (SrcVariant.CommandCallbacks.onWrite lib value g).1.config.paired = false) ∧
    (¬ (Operation.commandWrite value).IsFactoryReset lib →
      (FIND_Tracker.CommandCallbacks.onWrite lib value g).1.config.paired = true ∧
      (SrcVariant.CommandCallbacks.onWrite lib value g).1.config.paired = true) := by
  constructor
  · rintro ⟨hne, doc, hdoc, hcmd⟩
    rw [find_command_onWrite_parsed lib value g doc hne hdoc,
      src_command_onWrite_parsed lib value g doc hne hdoc]
    simp only [hcmd, ascii_reset_ne_factory.symm, ascii_buzzer_ne_factory.symm, if_false,
      if_true]
    exact ⟨rfl, rfl⟩
  · intro hnot
    by_cases hne : value.length > 0
    · cases hdoc : lib.deserializeJson 256 (c_str value) with
      | none =>
        rw [find_command_onWrite_rejected lib value g (Or.inr hdoc),
          src_command_onWrite_rejected lib value g (Or.inr hdoc)]
        exact ⟨hp, hp⟩
      | some doc =>
        have hcmd : c_str (doc.stringOr (ascii "command") []) ≠ ascii "factory_reset" :=
          fun h => hnot ⟨hne, doc, hdoc, h⟩
        rw [find_command_onWrite_parsed lib value g doc hne hdoc,
          src_command_onWrite_parsed lib value g doc hne hdoc]
        simp only [hcmd, if_false]
        constructor <;> split_ifs <;> exact hp
    · rw [find_command_onWrite_rejected lib value g (Or.inl hne),
        src_command_onWrite_rejected lib value g (Or.inl hne)]
      exact ⟨hp, hp⟩

/-- C10: on a configuration with `paired` true, every operation other than a
`factory_reset` command (a config write, parsed or malformed, a call of `updateBLEStatus`,
a connect or disconnect event, any other command write) leaves `paired` true, and the
`factory_reset` command leaves it false: it is the only operation that clears `paired`.
So in both variants. -/
theorem paired_cleared_only_by_factory_reset (lib : JsonLibrary) (wifiStatus : Nat → Bool)
    (op : Operation) (g : Globals) (hp : g.config.paired = true) :
    (¬ op.IsFactoryReset lib →
      (FIND_Tracker.perform lib op g).1.config.paired = true ∧
      (SrcVariant.perform lib wifiStatus op g).1.config.paired = true) ∧
    (op.IsFactoryReset lib →
      (FIND_Tracker.perform lib op g).1.config.paired = false ∧
      (SrcVariant.perform lib wifiStatus op g).1.config.paired = false) ∧
    ((FIND_Tracker.perform lib op g).1.config.paired = false ↔ op.IsFactoryReset lib) ∧
    ((SrcVariant.perform lib wifiStatus op g).1.config.paired = false ↔
      op.IsFactoryReset lib) := by
  have main : (¬ op.IsFactoryReset lib →
      (FIND_Tracker.perform lib op g).1.config.paired = true ∧
      (SrcVariant.perform lib wifiStatus op g).1.config.paired = true) ∧
    (op.IsFactoryReset lib →
      (FIND_Tracker.perform lib op g).1.config.paired = false ∧
      (SrcVariant.perform lib wifiStatus op g).1.config.paired = false) := by
    cases op with
    | connect => exact ⟨fun _ => ⟨hp, hp⟩, fun h => h.elim⟩
    | disconnect => exact ⟨fun _ => ⟨hp, hp⟩, fun h => h.elim⟩
    | configWrite value =>
      exact ⟨fun _ => ⟨find_config_onWrite_paired lib value g hp,
        src_config_onWrite_paired lib wifiStatus value g hp⟩, fun h => h.elim⟩
    | commandWrite value =>
      exact ⟨(command_onWrite_paired lib value g hp).2, (command_onWrite_paired lib value g hp).1⟩
    | statusUpdate b lat lng ax ay az m =>
      refine ⟨fun _ => ⟨?_, ?_⟩, fun h => h.elim⟩
      · show (FIND_Tracker.updateBLEStatus b lat lng ax ay az m g).1.config.paired = true
        rw [find_updateBLEStatus_config]; exact hp
      · show (SrcVariant.updateBLEStatus b lat lng ax ay az m g).1.config.paired = true
        rw [src_updateBLEStatus_config]; exact hp
  refine ⟨main.1, main.2, ?_, ?_⟩
  · constructor
    · intro hf
      by_contra hnot
      rw [(main.1 hnot).1] at hf
      exact Bool.noConfusion hf
    · exact fun h => (main.2 h).1
  · constructor
    · intro hf
      by_contra hnot
      rw [(main.1 hnot).2] at hf
      exact Bool.noConfusion hf
    · exact fun h => (main.2 h).2

/-- On the paired sample globals, the malformed config write `{not json` is not a factory
reset and leaves `paired` true, and the command write `{"command":"factory_reset"}` is one
and leaves it false. -/
theorem paired_cleared_only_by_factory_reset_witness :
    pairedGlobals.config.paired = true ∧
    (FIND_Tracker.perform referenceLibrary (.configWrite malformedPayload)
      pairedGlobals).1.config.paired = true ∧
    (SrcVariant.perform referenceLibrary sampleWifiStatus (.configWrite malformedPayload)
      pairedGlobals).1.config.paired = true ∧
    (FIND_Tracker.perform referenceLibrary (.commandWrite factoryResetPayload)
      pairedGlobals).1.config.paired = false ∧
    (SrcVariant.perform referenceLibrary sampleWifiStatus (.commandWrite factoryResetPayload)
      pairedGlobals).1.config.paired = false :=
  have h1 := (paired_cleared_only_by_factory_reset referenceLibrary sampleWifiStatus
    (.configWrite malformedPayload) pairedGlobals (by decide)).1 (fun h => h)
  have h2 := (paired_cleared_only_by_factory_reset referenceLibrary sampleWifiStatus
    (.commandWrite factoryResetPayload) pairedGlobals (by decide)).2.1
      ⟨by decide, _, by rfl, by decide⟩
  ⟨by decide, h1.1, h1.2, h2.1, h2.2⟩


/-! ## `main.cpp`: the phases of `loop()` -/

theorem not_mem_flashLed (e : Effect) (h1 : ∀ l, e ≠ Effect.digitalWrite LED_PIN l)
    (h2 : ∀ ms, e ≠ Effect.delay ms) (n ms : Nat) : e ∉ SrcVariant.flashLed n ms := by
  induction n with
  | zero => simp [SrcVariant.flashLed]
  | succ n ih =>
    simp only [SrcVariant.flashLed, List.mem_append, List.mem_cons, List.mem_singleton,
      List.not_mem_nil, or_false, not_or]
    exact ⟨⟨h1 true, h2 ms, h1 false, h2 ms⟩, ih⟩

theorem main_loopReconnect_flags (g : MainCpp.Globals) :
    (MainCpp.loopReconnect g).1 = { g with oldDeviceConnected := g.deviceConnected } := by
  cases g with
  | mk dc old m lw dsd bv bp lu lb =>
    cases dc <;> cases old <;> rfl

theorem main_loopReconnect_effects (g : MainCpp.Globals) :
    (MainCpp.loopReconnect g).2 =
      if MainCpp.seesDisconnect g then [Effect.delay 500, Effect.startAdvertising] else [] := by
  rfl

theorem main_atSleepCheck_deviceConnected (inp : MainCpp.LoopInputs) (g : MainCpp.Globals) :
    (MainCpp.atSleepCheck inp g).deviceConnected = g.deviceConnected := by
  unfold MainCpp.atSleepCheck MainCpp.loopButton MainCpp.loopReport
  rw [main_loopReconnect_flags]
  split_ifs <;> rfl

theorem main_atSleepCheck_deepSleepDelay (inp : MainCpp.LoopInputs) (g : MainCpp.Globals) :
    (MainCpp.atSleepCheck inp g).deepSleepDelay = g.deepSleepDelay := by
  unfold MainCpp.atSleepCheck MainCpp.loopButton MainCpp.loopReport
  rw [main_loopReconnect_flags]
  split_ifs <;> rfl

theorem main_atSleepCheck_lastWakeupTime (inp : MainCpp.LoopInputs) (g : MainCpp.Globals) :
    (MainCpp.atSleepCheck inp g).lastWakeupTime =
      if inp.buttonLow = true ∧ inp.buttonStillLow = true then inp.millisAtButton
      else if g.deviceConnected = true then inp.millisAtConnected
      else g.lastWakeupTime := by
  unfold MainCpp.atSleepCheck MainCpp.loopButton MainCpp.loopReport
  rw [main_loopReconnect_flags]
  split_ifs <;> simp_all

theorem main_atSleepCheck_oldDeviceConnected (inp : MainCpp.LoopInputs) (g : MainCpp.Globals) :
    (MainCpp.atSleepCheck inp g).oldDeviceConnected = g.deviceConnected := by
  unfold MainCpp.atSleepCheck MainCpp.loopButton MainCpp.loopReport
  rw [main_loopReconnect_flags]
  split_ifs <;> rfl

theorem main_deepSleepStart_not_before (inp : MainCpp.LoopInputs) (g : MainCpp.Globals) :
    Effect.deepSleepStart ∉ MainCpp.beforeSleepCheck inp g := by
  unfold MainCpp.beforeSleepCheck MainCpp.loopButton MainCpp.loopReport MainCpp.toggleLED
  rw [main_loopReconnect_effects]
  split_ifs <;> simp

theorem main_checkBattery_effects (R : FloatArithmetic) (rawValue : Nat) (g : MainCpp.Globals) :
    (MainCpp.checkBattery R rawValue g).2 =
      if MainCpp.batteryPercentageOf R (MainCpp.batteryVoltageOf R rawValue) < 20 then
        SrcVariant.flashLed 5 100
      else [] := by
  rfl

theorem main_deepSleepStart_not_battery (R : FloatArithmetic) (inp : MainCpp.LoopInputs)
    (g : MainCpp.Globals) : Effect.deepSleepStart ∉ (MainCpp.loopBattery R inp g).2 := by
  unfold MainCpp.loopBattery
  split_ifs
  · rw [main_checkBattery_effects]
    split_ifs
    · exact not_mem_flashLed Effect.deepSleepStart (fun _ h => by cases h)
        (fun _ h => by cases h) 5 100
    · simp
  · simp

theorem main_loop_sleeps (R : FloatArithmetic) (inp : MainCpp.LoopInputs)
    (g : MainCpp.Globals) (h : MainCpp.sleepCheck inp (MainCpp.atSleepCheck inp g) = true) :
    MainCpp.loop R inp g =
      (MainCpp.atSleepCheck inp g, MainCpp.beforeSleepCheck inp g ++ MainCpp.enterDeepSleep) := by
  simp only [MainCpp.loop, h, if_true]

theorem main_loop_awake (R : FloatArithmetic) (inp : MainCpp.LoopInputs)
    (g : MainCpp.Globals) (h : MainCpp.sleepCheck inp (MainCpp.atSleepCheck inp g) = false) :
    MainCpp.loop R inp g =
      ((MainCpp.loopBattery R inp (MainCpp.atSleepCheck inp g)).1,
        MainCpp.beforeSleepCheck inp g ++
          (MainCpp.loopBattery R inp (MainCpp.atSleepCheck inp g)).2) := by
  simp [MainCpp.loop, h]

theorem main_deepSleepStart_iff (R : FloatArithmetic) (inp : MainCpp.LoopInputs)
    (g : MainCpp.Globals) :
    Effect.deepSleepStart ∈ (MainCpp.loop R inp g).2 ↔
      MainCpp.sleepCheck inp (MainCpp.atSleepCheck inp g) = true := by
  cases h : MainCpp.sleepCheck inp (MainCpp.atSleepCheck inp g)
  · rw [main_loop_awake R inp g h]
    simp [main_deepSleepStart_not_before, main_deepSleepStart_not_battery]
  · rw [main_loop_sleeps R inp g h]
    simp [MainCpp.enterDeepSleep]

theorem main_sleepCheck_iff (inp : MainCpp.LoopInputs) (g : MainCpp.Globals) :
    MainCpp.sleepCheck inp g = true ↔
      g.deviceConnected = false ∧
      usub32 inp.millisAtSleepCheck g.lastWakeupTime > g.deepSleepDelay := by
  simp [MainCpp.sleepCheck]

theorem usub32_of_lt (a b : Nat) (ha : a < 2 ^ 32) (hb : b < 2 ^ 32) :
    usub32 a b = if b ≤ a then a - b else a + 2 ^ 32 - b := by
  unfold usub32 UINT32_RANGE
  rw [Nat.mod_eq_of_lt ha, Nat.mod_eq_of_lt hb]
  split_ifs with h
  · have h1 : a + 2 ^ 32 - b = (a - b) + 2 ^ 32 := by omega
    rw [h1, Nat.add_mod_right, Nat.mod_eq_of_lt (by omega)]
  · rw [Nat.mod_eq_of_lt (by omega)]

/-- C11: in every iteration of `loop()`, `esp_deep_sleep_start()` is called if and only
if, at the deep-sleep test, `deviceConnected` is false and `millis() - lastWakeupTime`,
taken in 32-bit unsigned arithmetic, is strictly greater than `deepSleepDelay`. So it is
not called in an iteration with `deviceConnected` true, nor when that difference is at most
`deepSleepDelay`; and it is called once at most. -/
theorem deep_sleep_iff_idle_past_timeout (R : FloatArithmetic) (inp : MainCpp.LoopInputs)
    (g : MainCpp.Globals) :
    (Effect.deepSleepStart ∈ (MainCpp.loop R inp g).2 ↔
      (MainCpp.atSleepCheck inp g).deviceConnected = false ∧
      usub32 inp.millisAtSleepCheck (MainCpp.atSleepCheck inp g).lastWakeupTime >
        (MainCpp.atSleepCheck inp g).deepSleepDelay) ∧
    (MainCpp.atSleepCheck inp g).deviceConnected = g.deviceConnected ∧
    (MainCpp.atSleepCheck inp g).deepSleepDelay = g.deepSleepDelay ∧
    (g.deviceConnected = true → Effect.deepSleepStart ∉ (MainCpp.loop R inp g).2) ∧
    (usub32 inp.millisAtSleepCheck (MainCpp.atSleepCheck inp g).lastWakeupTime ≤
        g.deepSleepDelay → Effect.deepSleepStart ∉ (MainCpp.loop R inp g).2) ∧
    (MainCpp.loop R inp g).2.count Effect.deepSleepStart ≤ 1 ∧
    (inp.millisAtSleepCheck < 2 ^ 32 → (MainCpp.atSleepCheck inp g).lastWakeupTime < 2 ^ 32 →
      usub32 inp.millisAtSleepCheck (MainCpp.atSleepCheck inp g).lastWakeupTime =
        if (MainCpp.atSleepCheck inp g).lastWakeupTime ≤ inp.millisAtSleepCheck then
          inp.millisAtSleepCheck - (MainCpp.atSleepCheck inp g).lastWakeupTime
        else inp.millisAtSleepCheck + 2 ^ 32 - (MainCpp.atSleepCheck inp g).lastWakeupTime) := by
  have hiff := (main_deepSleepStart_iff R inp g).trans
    (main_sleepCheck_iff inp (MainCpp.atSleepCheck inp g))
  refine ⟨hiff, main_atSleepCheck_deviceConnected inp g, main_atSleepCheck_deepSleepDelay inp g,
    ?_, ?_, ?_, fun ha hb => usub32_of_lt _ _ ha hb⟩
  · intro hc hmem
    have := (hiff.mp hmem).1
    rw [main_atSleepCheck_deviceConnected, hc] at this
    exact Bool.noConfusion this
  · intro hle hmem
    have := (hiff.mp hmem).2
    rw [main_atSleepCheck_deepSleepDelay] at this
    omega
  · cases h : MainCpp.sleepCheck inp (MainCpp.atSleepCheck inp g)
    · rw [main_loop_awake R inp g h, List.count_append,
        List.count_eq_zero_of_not_mem (main_deepSleepStart_not_before inp g),
        List.count_eq_zero_of_not_mem (main_deepSleepStart_not_battery R inp _)]
      omega
    · rw [main_loop_sleeps R inp g h, List.count_append,
        List.count_eq_zero_of_not_mem (main_deepSleepStart_not_before inp g)]
      decide


theorem main_loopBattery_fields (R : FloatArithmetic) (inp : MainCpp.LoopInputs)
    (g : MainCpp.Globals) :
    (MainCpp.loopBattery R inp g).1.deviceConnected = g.deviceConnected ∧
    (MainCpp.loopBattery R inp g).1.oldDeviceConnected = g.oldDeviceConnected ∧
    (MainCpp.loopBattery R inp g).1.motionDetected = g.motionDetected ∧
    (MainCpp.loopBattery R inp g).1.lastWakeupTime = g.lastWakeupTime ∧
    (MainCpp.loopBattery R inp g).1.deepSleepDelay = g.deepSleepDelay ∧
    (MainCpp.loopBattery R inp g).1.lastUpdateTime = g.lastUpdateTime := by
  unfold MainCpp.loopBattery MainCpp.checkBattery
  split_ifs <;> exact ⟨rfl, rfl, rfl, rfl, rfl, rfl⟩

theorem main_loop_fields (R : FloatArithmetic) (inp : MainCpp.LoopInputs)
    (g : MainCpp.Globals) :
    (MainCpp.loop R inp g).1.deviceConnected = (MainCpp.atSleepCheck inp g).deviceConnected ∧
    (MainCpp.loop R inp g).1.oldDeviceConnected =
      (MainCpp.atSleepCheck inp g).oldDeviceConnected ∧
    (MainCpp.loop R inp g).1.motionDetected = (MainCpp.atSleepCheck inp g).motionDetected ∧
    (MainCpp.loop R inp g).1.lastWakeupTime = (MainCpp.atSleepCheck inp g).lastWakeupTime ∧
    (MainCpp.loop R inp g).1.deepSleepDelay = (MainCpp.atSleepCheck inp g).deepSleepDelay ∧
    (MainCpp.loop R inp g).1.lastUpdateTime = (MainCpp.atSleepCheck inp g).lastUpdateTime := by
  cases h : MainCpp.sleepCheck inp (MainCpp.atSleepCheck inp g)
  · rw [main_loop_awake R inp g h]
    exact main_loopBattery_fields R inp _
  · rw [main_loop_sleeps R inp g h]
    exact ⟨rfl, rfl, rfl, rfl, rfl, rfl⟩

theorem main_atSleepCheck_report_fields (inp : MainCpp.LoopInputs) (g : MainCpp.Globals) :
    (MainCpp.atSleepCheck inp g).lastUpdateTime = (MainCpp.loopReport inp g).1.lastUpdateTime ∧
    (MainCpp.atSleepCheck inp g).motionDetected = (MainCpp.loopReport inp g).1.motionDetected := by
  unfold MainCpp.atSleepCheck MainCpp.loopButton
  rw [main_loopReconnect_flags]
  split_ifs <;> exact ⟨rfl, rfl⟩

theorem main_loop_deviceConnected (R : FloatArithmetic) (inp : MainCpp.LoopInputs)
    (g : MainCpp.Globals) : (MainCpp.loop R inp g).1.deviceConnected = g.deviceConnected := by
  rw [(main_loop_fields R inp g).1, main_atSleepCheck_deviceConnected]

theorem main_loop_deepSleepDelay (R : FloatArithmetic) (inp : MainCpp.LoopInputs)
    (g : MainCpp.Globals) : (MainCpp.loop R inp g).1.deepSleepDelay = g.deepSleepDelay := by
  rw [(main_loop_fields R inp g).2.2.2.2.1, main_atSleepCheck_deepSleepDelay]

theorem main_loop_lastWakeupTime (R : FloatArithmetic) (inp : MainCpp.LoopInputs)
    (g : MainCpp.Globals) :
    (MainCpp.loop R inp g).1.lastWakeupTime =
      if inp.buttonLow = true ∧ inp.buttonStillLow = true then inp.millisAtButton
      else if g.deviceConnected = true then inp.millisAtConnected
      else g.lastWakeupTime := by
  rw [(main_loop_fields R inp g).2.2.2.1, main_atSleepCheck_lastWakeupTime]

theorem main_loop_sleep_iff (R : FloatArithmetic) (inp : MainCpp.LoopInputs)
    (g : MainCpp.Globals) :
    Effect.deepSleepStart ∈ (MainCpp.loop R inp g).2 ↔
      g.deviceConnected = false ∧
      usub32 inp.millisAtSleepCheck (MainCpp.loop R inp g).1.lastWakeupTime >
        g.deepSleepDelay := by
  rw [main_deepSleepStart_iff, main_sleepCheck_iff, main_atSleepCheck_deviceConnected,
    main_atSleepCheck_deepSleepDelay, (main_loop_fields R inp g).2.2.2.1]

theorem main_atSleepCheck_withoutMotion (inp : MainCpp.LoopInputs) (g : MainCpp.Globals) :
    (MainCpp.atSleepCheck inp g).withoutMotion =
      (MainCpp.atSleepCheck inp g.withoutMotion).withoutMotion := by
  unfold MainCpp.atSleepCheck MainCpp.loopButton MainCpp.loopReport
  rw [main_loopReconnect_flags, main_loopReconnect_flags]
  unfold MainCpp.Globals.withoutMotion
  dsimp only
  split_ifs <;> rfl

theorem main_loopBattery_withoutMotion (R : FloatArithmetic) (inp : MainCpp.LoopInputs)
    (g : MainCpp.Globals) :
    (MainCpp.loopBattery R inp g).1.withoutMotion =
      (MainCpp.loopBattery R inp g.withoutMotion).1.withoutMotion := by
  unfold MainCpp.loopBattery MainCpp.checkBattery MainCpp.Globals.withoutMotion
  dsimp only
  split_ifs <;> rfl

theorem main_sleepCheck_withoutMotion (inp : MainCpp.LoopInputs) (g : MainCpp.Globals) :
    MainCpp.sleepCheck inp g.withoutMotion = MainCpp.sleepCheck inp g := rfl

theorem main_loop_withoutMotion (R : FloatArithmetic) (inp : MainCpp.LoopInputs)
    (g : MainCpp.Globals) :
    (MainCpp.loop R inp g).1.withoutMotion =
      (MainCpp.loop R inp g.withoutMotion).1.withoutMotion ∧
    (Effect.deepSleepStart ∈ (MainCpp.loop R inp g).2 ↔
      Effect.deepSleepStart ∈ (MainCpp.loop R inp g.withoutMotion).2) := by
  have hs : MainCpp.sleepCheck inp (MainCpp.atSleepCheck inp g.withoutMotion) =
      MainCpp.sleepCheck inp (MainCpp.atSleepCheck inp g) := by
    rw [← main_sleepCheck_withoutMotion inp (MainCpp.atSleepCheck inp g.withoutMotion),
      ← main_atSleepCheck_withoutMotion, main_sleepCheck_withoutMotion]
  refine ⟨?_, by rw [main_deepSleepStart_iff, main_deepSleepStart_iff, hs]⟩
  cases h : MainCpp.sleepCheck inp (MainCpp.atSleepCheck inp g)
  · rw [main_loop_awake R inp g h, main_loop_awake R inp _ (hs.trans h)]
    show (MainCpp.loopBattery R inp (MainCpp.atSleepCheck inp g)).1.withoutMotion =
      (MainCpp.loopBattery R inp (MainCpp.atSleepCheck inp g.withoutMotion)).1.withoutMotion
    rw [main_loopBattery_withoutMotion, main_atSleepCheck_withoutMotion,
      ← main_loopBattery_withoutMotion]
  · rw [main_loop_sleeps R inp g h, main_loop_sleeps R inp _ (hs.trans h)]
    exact main_atSleepCheck_withoutMotion inp g

theorem main_loop_congr_motion (R : FloatArithmetic) (inp : MainCpp.LoopInputs)
    (a b : MainCpp.Globals) (h : a.withoutMotion = b.withoutMotion) :
    (MainCpp.loop R inp a).1.withoutMotion = (MainCpp.loop R inp b).1.withoutMotion ∧
    (Effect.deepSleepStart ∈ (MainCpp.loop R inp a).2 ↔
      Effect.deepSleepStart ∈ (MainCpp.loop R inp b).2) := by
  rw [(main_loop_withoutMotion R inp a).1, (main_loop_withoutMotion R inp a).2,
    (main_loop_withoutMotion R inp b).1, (main_loop_withoutMotion R inp b).2, h]
  exact ⟨rfl, Iff.rfl⟩

theorem main_run_iteration (R : FloatArithmetic) (inp : MainCpp.LoopInputs)
    (steps : List MainCpp.Step) (g : MainCpp.Globals) :
    MainCpp.run R (.iteration inp :: steps) g =
      if Effect.deepSleepStart ∈ (MainCpp.loop R inp g).2 then ((MainCpp.loop R inp g).1, [true])
      else
        ((MainCpp.run R steps (MainCpp.loop R inp g).1).1,
          false :: (MainCpp.run R steps (MainCpp.loop R inp g).1).2) := by
  rw [MainCpp.run]

theorem main_run_congr_motion (R : FloatArithmetic) (steps : List MainCpp.Step) :
    ∀ a b : MainCpp.Globals, a.withoutMotion = b.withoutMotion →
      (MainCpp.run R (steps.filter (fun s => !s.isMotion)) a).2 = (MainCpp.run R steps b).2 ∧
      (MainCpp.run R (steps.filter (fun s => !s.isMotion)) a).1.withoutMotion =
        (MainCpp.run R steps b).1.withoutMotion := by
  induction steps with
  | nil => intro a b h; exact ⟨rfl, h⟩
  | cons s steps ih =>
    intro a b h
    cases s with
    | motion => exact ih a (MainCpp.motionISR b) h
    | link e =>
      cases e with
      | connect =>
        exact ih _ _ (show (MainCpp.ServerCallbacks.onConnect a).1.withoutMotion =
          (MainCpp.ServerCallbacks.onConnect b).1.withoutMotion from
            congrArg (fun x : MainCpp.Globals => { x with deviceConnected := true }) h)
      | disconnect =>
        exact ih _ _ (show (MainCpp.ServerCallbacks.onDisconnect a).1.withoutMotion =
          (MainCpp.ServerCallbacks.onDisconnect b).1.withoutMotion from
            congrArg (fun x : MainCpp.Globals => { x with deviceConnected := false }) h)
    | iteration inp =>
      have hc := main_loop_congr_motion R inp a b h
      have hf : (MainCpp.Step.iteration inp :: steps).filter (fun s => !s.isMotion) =
          MainCpp.Step.iteration inp :: steps.filter (fun s => !s.isMotion) := rfl
      rw [hf, main_run_iteration, main_run_iteration]
      by_cases hs : Effect.deepSleepStart ∈ (MainCpp.loop R inp b).2
      · rw [if_pos hs, if_pos (hc.2.mpr hs)]
        exact ⟨rfl, hc.1⟩
      · rw [if_neg hs, if_neg (fun h' => hs (hc.2.mp h'))]
        have := ih _ _ hc.1
        exact ⟨by rw [this.1], this.2⟩

theorem main_run_append (R : FloatArithmetic) (pre post : List MainCpp.Step) :
    ∀ g : MainCpp.Globals, true ∉ (MainCpp.run R pre g).2 →
      MainCpp.run R (pre ++ post) g =
        ((MainCpp.run R post (MainCpp.run R pre g).1).1,
          (MainCpp.run R pre g).2 ++ (MainCpp.run R post (MainCpp.run R pre g).1).2) := by
  induction pre with
  | nil => intro g _; rfl
  | cons s pre ih =>
    intro g h
    cases s with
    | motion => exact ih _ h
    | link e => cases e <;> exact ih _ h
    | iteration inp =>
      rw [main_run_iteration] at h
      rw [List.cons_append, main_run_iteration, main_run_iteration]
      by_cases hs : Effect.deepSleepStart ∈ (MainCpp.loop R inp g).2
      · rw [if_pos hs] at h
        exact absurd (List.mem_singleton.mpr rfl) h
      · simp only [if_neg hs] at h ⊢
        rw [ih _ (fun h' => h (List.mem_cons_of_mem _ h'))]
        rfl

theorem main_run_deepSleepDelay (R : FloatArithmetic) (steps : List MainCpp.Step) :
    ∀ g : MainCpp.Globals, (MainCpp.run R steps g).1.deepSleepDelay = g.deepSleepDelay := by
  induction steps with
  | nil => intro g; rfl
  | cons s steps ih =>
    intro g
    cases s with
    | motion => exact ih _
    | link e => cases e <;> exact ih _
    | iteration inp =>
      rw [main_run_iteration]
      split_ifs
      · exact main_loop_deepSleepDelay R inp g
      · exact (ih _).trans (main_loop_deepSleepDelay R inp g)

theorem main_run_idle (R : FloatArithmetic) (steps : List MainCpp.Step) :
    ∀ g : MainCpp.Globals, g.deviceConnected = false →
      (∀ s ∈ steps, s = MainCpp.Step.motion ∨ ∃ i, s = MainCpp.Step.iteration i ∧
        (i.buttonLow = false ∨ i.buttonStillLow = false) ∧
        usub32 i.millisAtSleepCheck g.lastWakeupTime ≤ g.deepSleepDelay) →
      (MainCpp.run R steps g).2 =
        List.replicate (steps.countP (fun s => !s.isMotion)) false ∧
      (MainCpp.run R steps g).1.deviceConnected = false ∧
      (MainCpp.run R steps g).1.lastWakeupTime = g.lastWakeupTime := by
  induction steps with
  | nil => intro g hc _; exact ⟨rfl, hc, rfl⟩
  | cons s steps ih =>
    intro g hc hall
    have hrest := fun s' hs' => hall s' (List.mem_cons_of_mem _ hs')
    rcases hall s (List.mem_cons_self _ _) with rfl | ⟨i, rfl, hb, hle⟩
    · exact ih (MainCpp.motionISR g) hc hrest
    · have hnb : ¬ (i.buttonLow = true ∧ i.buttonStillLow = true) := by
        rintro ⟨h1, h2⟩
        rcases hb with h | h <;> simp_all
      have hlw : (MainCpp.loop R i g).1.lastWakeupTime = g.lastWakeupTime := by
        rw [main_loop_lastWakeupTime, if_neg hnb, if_neg (by simp [hc])]
      have hns : Effect.deepSleepStart ∉ (MainCpp.loop R i g).2 := by
        rw [main_loop_sleep_iff, hlw]
        omega
      have hdc : (MainCpp.loop R i g).1.deviceConnected = false := by
        rw [main_loop_deviceConnected, hc]
      have := ih (MainCpp.loop R i g).1 hdc (by
        rw [hlw, main_loop_deepSleepDelay]
        exact hrest)
      rw [main_run_iteration, if_neg hns]
      refine ⟨?_, this.2.1, this.2.2.trans hlw⟩
      show false :: (MainCpp.run R steps (MainCpp.loop R i g).1).2 = _
      rw [this.1, List.countP_cons_of_pos _ _ (by rfl), List.replicate_succ]

theorem main_run_single (R : FloatArithmetic) (inp : MainCpp.LoopInputs)
    (g : MainCpp.Globals) :
    MainCpp.run R [.iteration inp] g =
      ((MainCpp.loop R inp g).1, [decide (Effect.deepSleepStart ∈ (MainCpp.loop R inp g).2)]) := by
  rw [main_run_iteration]
  by_cases hs : Effect.deepSleepStart ∈ (MainCpp.loop R inp g).2
  · rw [if_pos hs, decide_eq_true hs]
  · rw [if_neg hs, decide_eq_false hs]
    rfl

/-- C12, as stated, fails: with `deviceConnected` false, `lastWakeupTime` 0 and
`deepSleepDelay` 30000, the motion interrupt sets `motionDetected` and leaves
`lastWakeupTime` 0; an iteration at 20000 ms does not sleep and changes nothing, and the
first iteration after the deadline, at 30001 ms, enters deep sleep, which it does not when
the button is held in it. -/
theorem motion_does_not_postpone_sleep :
    (MainCpp.motionISR MainCpp.initialGlobals).deviceConnected = false ∧
    (MainCpp.motionISR MainCpp.initialGlobals).deepSleepDelay = 30000 ∧
    (MainCpp.motionISR MainCpp.initialGlobals).motionDetected = true ∧
    (MainCpp.motionISR MainCpp.initialGlobals).lastWakeupTime = 0 ∧
    Effect.deepSleepStart ∉
      (MainCpp.loop exactArithmetic (MainCpp.quietInputs 20000)
        (MainCpp.motionISR MainCpp.initialGlobals)).2 ∧
    (MainCpp.loop exactArithmetic (MainCpp.quietInputs 20000)
      (MainCpp.motionISR MainCpp.initialGlobals)).1.lastWakeupTime = 0 ∧
    Effect.deepSleepStart ∈
      (MainCpp.loop exactArithmetic (MainCpp.quietInputs 30001)
        (MainCpp.loop exactArithmetic (MainCpp.quietInputs 20000)
          (MainCpp.motionISR MainCpp.initialGlobals)).1).2 ∧
    Effect.deepSleepStart ∉
      (MainCpp.loop exactArithmetic (MainCpp.buttonInputs 30001)
        (MainCpp.loop exactArithmetic (MainCpp.quietInputs 20000)
          (MainCpp.motionISR MainCpp.initialGlobals)).1).2 := by
  decide

/-- C12, amended. In one call of `loop()`: the motion interrupt only sets `motionDetected`;
it leaves `lastWakeupTime` as it was, and `loop()` enters deep sleep after it exactly when
it would have without it. The activity timestamp `lastWakeupTime` is reset to the `millis()`
of the iteration by a button press (the pin read LOW twice) and in every iteration with
`deviceConnected` true, and is otherwise unchanged; an iteration with a button press does
not sleep when `millis() - lastWakeupTime` is then at most `deepSleepDelay`, and an
iteration with `deviceConnected` true never sleeps.

In every run (motion interrupts, link events and calls of `loop()` in any order, up to the
first deep sleep): taking the motion interrupts out of the run changes no deep-sleep
decision of any iteration and nothing in the globals but `motionDetected`; `deepSleepDelay`
never changes. After any run that has not slept, a motion interrupt changes only
`motionDetected`, a link event leaves `lastWakeupTime`, and a further iteration sets
`lastWakeupTime` as above and sleeps if and only if `deviceConnected` is false and
`millis() - lastWakeupTime` exceeds `deepSleepDelay`. If the device is then disconnected
and no button is pressed, then, whatever motion interrupts fire, the iterations up to the
deadline `lastWakeupTime + deepSleepDelay` do not sleep and the first iteration after it
does. -/
theorem activity_timestamp_resets (R : FloatArithmetic) (inp : MainCpp.LoopInputs)
    (g : MainCpp.Globals) (steps : List MainCpp.Step) :
    MainCpp.motionISR g = { g with motionDetected := true } ∧
    (MainCpp.motionISR g).lastWakeupTime = g.lastWakeupTime ∧
    (Effect.deepSleepStart ∈ (MainCpp.loop R inp (MainCpp.motionISR g)).2 ↔
      Effect.deepSleepStart ∈ (MainCpp.loop R inp g).2) ∧
    (MainCpp.loop R inp (MainCpp.motionISR g)).1.lastWakeupTime =
      (MainCpp.loop R inp g).1.lastWakeupTime ∧
    (inp.buttonLow = true → inp.buttonStillLow = true →
      (MainCpp.loop R inp g).1.lastWakeupTime = inp.millisAtButton ∧
      (usub32 inp.millisAtSleepCheck inp.millisAtButton ≤ g.deepSleepDelay →
        Effect.deepSleepStart ∉ (MainCpp.loop R inp g).2)) ∧
    (g.deviceConnected = true →
      Effect.deepSleepStart ∉ (MainCpp.loop R inp g).2 ∧
      (inp.buttonLow = false ∨ inp.buttonStillLow = false →
        (MainCpp.loop R inp g).1.lastWakeupTime = inp.millisAtConnected)) ∧
    (g.deviceConnected = false → inp.buttonLow = false ∨ inp.buttonStillLow = false →
      (MainCpp.loop R inp g).1.lastWakeupTime = g.lastWakeupTime) ∧
    (MainCpp.run R (steps.filter (fun s => !s.isMotion)) g).2 = (MainCpp.run R steps g).2 ∧
    (MainCpp.run R (steps.filter (fun s => !s.isMotion)) g).1.withoutMotion =
      (MainCpp.run R steps g).1.withoutMotion ∧
    (MainCpp.run R steps g).1.deepSleepDelay = g.deepSleepDelay ∧
    (true ∉ (MainCpp.run R steps g).2 →
      MainCpp.run R (steps ++ [.motion]) g =
        ({ (MainCpp.run R steps g).1 with motionDetected := true },
          (MainCpp.run R steps g).2) ∧
      (∀ e, (MainCpp.run R (steps ++ [.link e]) g).2 = (MainCpp.run R steps g).2 ∧
        (MainCpp.run R (steps ++ [.link e]) g).1.lastWakeupTime =
          (MainCpp.run R steps g).1.lastWakeupTime ∧
        (MainCpp.run R (steps ++ [.link e]) g).1.deviceConnected =
          decide (e = LinkEvent.connect)) ∧
      (MainCpp.run R (steps ++ [.iteration inp]) g).1.lastWakeupTime =
        (if inp.buttonLow = true ∧ inp.buttonStillLow = true then inp.millisAtButton
         else if (MainCpp.run R steps g).1.deviceConnected = true then inp.millisAtConnected
         else (MainCpp.run R steps g).1.lastWakeupTime) ∧
      (MainCpp.run R (steps ++ [.iteration inp]) g).1.deviceConnected =
        (MainCpp.run R steps g).1.deviceConnected ∧
      (MainCpp.run R (steps ++ [.iteration inp]) g).2 =
        (MainCpp.run R steps g).2 ++
          [decide ((MainCpp.run R steps g).1.deviceConnected = false ∧
            usub32 inp.millisAtSleepCheck
              (MainCpp.run R (steps ++ [.iteration inp]) g).1.lastWakeupTime >
                g.deepSleepDelay)] ∧
      (∀ idle : List MainCpp.Step, (MainCpp.run R steps g).1.deviceConnected = false →
        (∀ s ∈ idle, s = MainCpp.Step.motion ∨ ∃ i, s = MainCpp.Step.iteration i ∧
          (i.buttonLow = false ∨ i.buttonStillLow = false) ∧
          usub32 i.millisAtSleepCheck (MainCpp.run R steps g).1.lastWakeupTime ≤
            g.deepSleepDelay) →
        inp.buttonLow = false ∨ inp.buttonStillLow = false →
        (MainCpp.run R (steps ++ idle ++ [.iteration inp]) g).2 =
          (MainCpp.run R steps g).2 ++
            List.replicate (idle.countP (fun s => !s.isMotion)) false ++
            [decide (usub32 inp.millisAtSleepCheck (MainCpp.run R steps g).1.lastWakeupTime >
              g.deepSleepDelay)])) := by
  have hiff : ∀ g' : MainCpp.Globals, Effect.deepSleepStart ∈ (MainCpp.loop R inp g').2 ↔
      g'.deviceConnected = false ∧
      usub32 inp.millisAtSleepCheck (MainCpp.atSleepCheck inp g').lastWakeupTime >
        g'.deepSleepDelay := by
    intro g'
    rw [main_deepSleepStart_iff, main_sleepCheck_iff, main_atSleepCheck_deviceConnected,
      main_atSleepCheck_deepSleepDelay]
  have hlw : ∀ g' : MainCpp.Globals, (MainCpp.loop R inp g').1.lastWakeupTime =
      if inp.buttonLow = true ∧ inp.buttonStillLow = true then inp.millisAtButton
      else if g'.deviceConnected = true then inp.millisAtConnected
      else g'.lastWakeupTime := by
    intro g'
    rw [(main_loop_fields R inp g').2.2.2.1, main_atSleepCheck_lastWakeupTime]
  have hnot : inp.buttonLow = false ∨ inp.buttonStillLow = false →
      ¬ (inp.buttonLow = true ∧ inp.buttonStillLow = true) := by
    rintro (h | h) ⟨h1, h2⟩ <;> simp_all
  refine ⟨rfl, rfl, ?_, ?_, ?_, ?_, ?_, (main_run_congr_motion R steps g g rfl).1,
    (main_run_congr_motion R steps g g rfl).2, main_run_deepSleepDelay R steps g, ?_⟩
  · rw [hiff, hiff, main_atSleepCheck_lastWakeupTime, main_atSleepCheck_lastWakeupTime]
    rfl
  · rw [hlw, hlw]
    rfl
  · intro h1 h2
    refine ⟨by rw [hlw, if_pos ⟨h1, h2⟩], ?_⟩
    intro hle hmem
    have := ((hiff g).mp hmem).2
    rw [main_atSleepCheck_lastWakeupTime, if_pos ⟨h1, h2⟩] at this
    omega
  · intro hc
    refine ⟨?_, ?_⟩
    · intro hmem
      have := ((hiff g).mp hmem).1
      rw [hc] at this
      exact Bool.noConfusion this
    · intro hb
      rw [hlw, if_neg (hnot hb), if_pos hc]
  · intro hc hb
    rw [hlw, if_neg (hnot hb), if_neg (by simp [hc])]
  · intro hno
    have hd := main_run_deepSleepDelay R steps g
    refine ⟨?_, ?_, ?_, ?_, ?_, ?_⟩
    · rw [main_run_append R steps _ g hno]
      show ((MainCpp.motionISR (MainCpp.run R steps g).1), (MainCpp.run R steps g).2 ++ []) = _
      rw [List.append_nil]
      rfl
    · intro e
      rw [main_run_append R steps _ g hno]
      cases e
      · exact ⟨List.append_nil _, rfl, rfl⟩
      · exact ⟨List.append_nil _, rfl, rfl⟩
    · rw [main_run_append R steps _ g hno, main_run_single]
      exact hlw _
    · rw [main_run_append R steps _ g hno, main_run_single]
      exact main_loop_deviceConnected R inp _
    · rw [main_run_append R steps _ g hno, main_run_single]
      show (MainCpp.run R steps g).2 ++ [decide _] = (MainCpp.run R steps g).2 ++ [decide _]
      congr 2
      apply decide_eq_decide.mpr
      show _ ↔ _ ∧ usub32 inp.millisAtSleepCheck
        (MainCpp.loop R inp (MainCpp.run R steps g).1).1.lastWakeupTime > _
      rw [main_loop_sleep_iff, hd]
    · intro idle hdc hidle hb
      have hidle2 := main_run_idle R idle (MainCpp.run R steps g).1 hdc (by rw [hd]; exact hidle)
      have hno2 : true ∉ (MainCpp.run R idle (MainCpp.run R steps g).1).2 := by
        rw [hidle2.1]
        intro hm
        exact Bool.noConfusion (List.eq_of_mem_replicate hm)
      rw [List.append_assoc, main_run_append R steps _ g hno,
        main_run_append R idle _ _ hno2, main_run_single, hidle2.1]
      show (MainCpp.run R steps g).2 ++ (List.replicate _ false ++ [decide _]) =
        (MainCpp.run R steps g).2 ++ List.replicate _ false ++ [decide _]
      rw [List.append_assoc]
      congr 3
      apply decide_eq_decide.mpr
      rw [main_loop_sleep_iff, hlw, if_neg (hnot hb), hidle2.2.1, if_neg (by simp),
        hidle2.2.2, main_run_deepSleepDelay, hd]
      simp

/-- A run from the initial globals: a button press at 20000 ms resets `lastWakeupTime` to
20000; then, with a motion interrupt in between, the iteration at 40000 ms does not sleep
and the one at 50001 ms, the first after the deadline 50000 ms, does. The motion interrupt
taken out, the deep-sleep decisions are the same. -/
theorem activity_timestamp_resets_witness :
    true ∉ (MainCpp.run exactArithmetic [.iteration (MainCpp.buttonInputs 20000)]
      MainCpp.initialGlobals).2 ∧
    (MainCpp.run exactArithmetic [.iteration (MainCpp.buttonInputs 20000)]
      MainCpp.initialGlobals).1.lastWakeupTime = 20000 ∧
    (MainCpp.run exactArithmetic
      ([.iteration (MainCpp.buttonInputs 20000)] ++
        [.motion, .iteration (MainCpp.quietInputs 40000)] ++
        [.iteration (MainCpp.quietInputs 50001)]) MainCpp.initialGlobals).2 =
      [false, false, true] ∧
    (MainCpp.run exactArithmetic
      [.iteration (MainCpp.buttonInputs 20000), .iteration (MainCpp.quietInputs 40000),
        .iteration (MainCpp.quietInputs 50001)] MainCpp.initialGlobals).2 =
      [false, false, true] :=
  have h := (activity_timestamp_resets exactArithmetic (MainCpp.quietInputs 50001)
    MainCpp.initialGlobals [.iteration (MainCpp.buttonInputs 20000)]).2.2.2.2.2.2.2.2.2.2
      (by decide)
  ⟨by decide, by decide,
    (h.2.2.2.2.2 [.motion, .iteration (MainCpp.quietInputs 40000)] (by decide)
      (by
        intro s hs
        rcases List.mem_cons.mp hs with rfl | hs
        · exact Or.inl rfl
        · rcases List.mem_singleton.mp hs with rfl
          exact Or.inr ⟨_, rfl, Or.inl rfl, by decide⟩)
      (Or.inl rfl)).trans (by decide),
    by decide⟩


theorem main_loopReport_effects (inp : MainCpp.LoopInputs) (g : MainCpp.Globals) :
    (MainCpp.loopReport inp g).2 =
      if g.deviceConnected = true ∧ usub32 inp.millisAtUpdate g.lastUpdateTime > 1000 then
        [Effect.setText (MainCpp.jsonData g inp.millisAtUpdate), Effect.notify]
      else [] := by
  unfold MainCpp.loopReport
  split_ifs <;> simp_all

theorem main_loopReport_after_push (inp : MainCpp.LoopInputs) (g : MainCpp.Globals)
    (h : g.deviceConnected = true ∧ usub32 inp.millisAtUpdate g.lastUpdateTime > 1000) :
    (MainCpp.loopReport inp g).1.lastUpdateTime = inp.millisAtUpdate ∧
    (MainCpp.loopReport inp g).1.motionDetected = false := by
  unfold MainCpp.loopReport
  rw [if_pos h.1, if_pos h.2]
  exact ⟨rfl, rfl⟩

theorem main_loopReport_no_push (inp : MainCpp.LoopInputs) (g : MainCpp.Globals)
    (h : ¬ (g.deviceConnected = true ∧ usub32 inp.millisAtUpdate g.lastUpdateTime > 1000)) :
    (MainCpp.loopReport inp g).1.lastUpdateTime = g.lastUpdateTime ∧
    (MainCpp.loopReport inp g).1.motionDetected = g.motionDetected := by
  unfold MainCpp.loopReport
  split_ifs <;> first | exact ⟨rfl, rfl⟩ | exact absurd ⟨‹_›, ‹_›⟩ h

theorem main_loop_filter_isSetValue_or_notify (R : FloatArithmetic) (inp : MainCpp.LoopInputs)
    (g : MainCpp.Globals) :
    (MainCpp.loop R inp g).2.filter (fun e => e.isSetValue || e.isNotify) =
      (MainCpp.loopReport inp g).2 := by
  have hflash := flashLed_filter (fun e => e.isSetValue || e.isNotify)
    (fun _ => rfl) (fun _ => rfl) 5 100
  have hbat : (MainCpp.loopBattery R inp (MainCpp.atSleepCheck inp g)).2.filter
      (fun e => e.isSetValue || e.isNotify) = [] := by
    unfold MainCpp.loopBattery
    split_ifs
    · rw [main_checkBattery_effects]
      split_ifs
      · exact hflash
      · rfl
    · rfl
  have hbefore : (MainCpp.beforeSleepCheck inp g).filter (fun e => e.isSetValue || e.isNotify) =
      (MainCpp.loopReport inp g).2 := by
    unfold MainCpp.beforeSleepCheck MainCpp.loopButton MainCpp.toggleLED
    rw [main_loopReconnect_effects, main_loopReport_effects]
    split_ifs <;> rfl
  cases h : MainCpp.sleepCheck inp (MainCpp.atSleepCheck inp g)
  · rw [main_loop_awake R inp g h, List.filter_append, hbefore, hbat, List.append_nil]
  · rw [main_loop_sleeps R inp g h, List.filter_append, hbefore]
    simp [MainCpp.enterDeepSleep, Effect.isSetValue, Effect.isNotify]

theorem mem_of_filter_eq (p : Effect → Bool) (l l' : List Effect) (e : Effect)
    (h : l.filter p = l') (hp : p e = true) : e ∈ l ↔ e ∈ l' := by
  rw [← h, List.mem_filter]
  simp [hp]

/-- C13, as stated, fails: with a client connected and the last push at 0 ms, an iteration
at exactly 1000 ms, the report interval, pushes nothing; one at 1001 ms pushes. -/
theorem no_report_at_exactly_one_second :
    MainCpp.connectedGlobals.deviceConnected = true ∧
    usub32 (MainCpp.quietInputs 1000).millisAtUpdate MainCpp.connectedGlobals.lastUpdateTime =
      1000 ∧
    Effect.notify ∉
      (MainCpp.loop exactArithmetic (MainCpp.quietInputs 1000) MainCpp.connectedGlobals).2 ∧
    Effect.notify ∈
      (MainCpp.loop exactArithmetic (MainCpp.quietInputs 1001) MainCpp.connectedGlobals).2 := by
  decide

/-- C13, amended: in an iteration of `loop()` with `deviceConnected` true, a status
notification is pushed if and only if `millis() - lastUpdateTime`, in 32-bit unsigned
arithmetic, is strictly greater than 1000; an iteration at exactly 1000 ms after the last
push does not push. An iteration that pushes makes one `setValue` of the text built from
the globals before it and one `notify()`, and leaves `lastUpdateTime` at that `millis()`
and `motionDetected` false; one that does not push leaves both as they were. In an
iteration with `deviceConnected` false nothing is pushed. -/
theorem report_iff_interval_exceeded (R : FloatArithmetic) (inp : MainCpp.LoopInputs)
    (g : MainCpp.Globals) :
    (g.deviceConnected = true →
      (Effect.notify ∈ (MainCpp.loop R inp g).2 ↔
        usub32 inp.millisAtUpdate g.lastUpdateTime > 1000)) ∧
    (g.deviceConnected = true → usub32 inp.millisAtUpdate g.lastUpdateTime = 1000 →
      Effect.notify ∉ (MainCpp.loop R inp g).2) ∧
    (Effect.notify ∈ (MainCpp.loop R inp g).2 →
      (MainCpp.loop R inp g).2.filter (fun e => e.isSetValue || e.isNotify) =
        [Effect.setText (MainCpp.jsonData g inp.millisAtUpdate), Effect.notify] ∧
      (MainCpp.loop R inp g).1.lastUpdateTime = inp.millisAtUpdate ∧
      (MainCpp.loop R inp g).1.motionDetected = false) ∧
    (Effect.notify ∉ (MainCpp.loop R inp g).2 →
      (MainCpp.loop R inp g).2.filter (fun e => e.isSetValue || e.isNotify) = [] ∧
      (MainCpp.loop R inp g).1.lastUpdateTime = g.lastUpdateTime ∧
      (MainCpp.loop R inp g).1.motionDetected = g.motionDetected) ∧
    (g.deviceConnected = false → Effect.notify ∉ (MainCpp.loop R inp g).2) := by
  have hmem : Effect.notify ∈ (MainCpp.loop R inp g).2 ↔
      g.deviceConnected = true ∧ usub32 inp.millisAtUpdate g.lastUpdateTime > 1000 := by
    rw [mem_of_filter_eq _ _ _ Effect.notify (main_loop_filter_isSetValue_or_notify R inp g) rfl,
      main_loopReport_effects]
    split_ifs with h
    · simp [h]
    · simp [h]
  have hfields := main_loop_fields R inp g
  have hrep := main_atSleepCheck_report_fields inp g
  refine ⟨fun hc => ?_, fun hc he => ?_, fun hpush => ?_, fun hno => ?_, fun hc => ?_⟩
  · rw [hmem]; simp [hc]
  · rw [hmem]; omega
  · have h := hmem.mp hpush
    refine ⟨?_, ?_, ?_⟩
    · rw [main_loop_filter_isSetValue_or_notify, main_loopReport_effects, if_pos h]
    · rw [hfields.2.2.2.2.2, hrep.1, (main_loopReport_after_push inp g h).1]
    · rw [hfields.2.2.1, hrep.2, (main_loopReport_after_push inp g h).2]
  · have h := fun hh => hno (hmem.mpr hh)
    refine ⟨?_, ?_, ?_⟩
    · rw [main_loop_filter_isSetValue_or_notify, main_loopReport_effects, if_neg h]
    · rw [hfields.2.2.2.2.2, hrep.1, (main_loopReport_no_push inp g h).1]
    · rw [hfields.2.2.1, hrep.2, (main_loopReport_no_push inp g h).2]
  · rw [hmem]; simp [hc]


/-! ## Link events and polls -/

theorem find_deliver_flags (events : List LinkEvent) (g : Globals) :
    (FIND_Tracker.deliver events g).oldDeviceConnected = g.oldDeviceConnected ∧
    (FIND_Tracker.deliver events g).config = g.config ∧
    (events = [] → (FIND_Tracker.deliver events g).deviceConnected = g.deviceConnected) ∧
    (events.getLast? = some .connect → (FIND_Tracker.deliver events g).deviceConnected = true) ∧
    (events.getLast? = some .disconnect →
      (FIND_Tracker.deliver events g).deviceConnected = false) := by
  induction events generalizing g with
  | nil => simp [FIND_Tracker.deliver]
  | cons e es ih =>
    cases e with
    | connect =>
      have h := ih (FIND_Tracker.ServerCallbacks.onConnect g).1
      cases es with
      | nil => simp [FIND_Tracker.deliver, FIND_Tracker.ServerCallbacks.onConnect]
      | cons e2 es2 =>
        simp only [FIND_Tracker.deliver, List.getLast?_cons_cons] at h ⊢
        exact ⟨h.1, h.2.1, by simp, h.2.2.2.1, h.2.2.2.2⟩
    | disconnect =>
      have h := ih (FIND_Tracker.ServerCallbacks.onDisconnect g).1
      cases es with
      | nil => simp [FIND_Tracker.deliver, FIND_Tracker.ServerCallbacks.onDisconnect]
      | cons e2 es2 =>
        simp only [FIND_Tracker.deliver, List.getLast?_cons_cons] at h ⊢
        exact ⟨h.1, h.2.1, by simp, h.2.2.2.1, h.2.2.2.2⟩

theorem src_deliver_flags (events : List LinkEvent) (g : Globals) :
    (SrcVariant.deliver events g).oldDeviceConnected = g.oldDeviceConnected ∧
    (SrcVariant.deliver events g).config = g.config ∧
    (events = [] → (SrcVariant.deliver events g).deviceConnected = g.deviceConnected) ∧
    (events.getLast? = some .connect → (SrcVariant.deliver events g).deviceConnected = true) ∧
    (events.getLast? = some .disconnect →
      (SrcVariant.deliver events g).deviceConnected = false) := by
  induction events generalizing g with
  | nil => simp [SrcVariant.deliver]
  | cons e es ih =>
    cases e with
    | connect =>
      have h := ih (SrcVariant.ServerCallbacks.onConnect g).1
      cases es with
      | nil => simp [SrcVariant.deliver, SrcVariant.ServerCallbacks.onConnect]
      | cons e2 es2 =>
        simp only [SrcVariant.deliver, List.getLast?_cons_cons] at h ⊢
        exact ⟨h.1, h.2.1, by simp, h.2.2.2.1, h.2.2.2.2⟩
    | disconnect =>
      have h := ih (SrcVariant.ServerCallbacks.onDisconnect g).1
      cases es with
      | nil => simp [SrcVariant.deliver, SrcVariant.ServerCallbacks.onDisconnect]
      | cons e2 es2 =>
        simp only [SrcVariant.deliver, List.getLast?_cons_cons] at h ⊢
        exact ⟨h.1, h.2.1, by simp, h.2.2.2.1, h.2.2.2.2⟩

theorem main_deliver_flags (events : List LinkEvent) (g : MainCpp.Globals) :
    (MainCpp.deliver events g).oldDeviceConnected = g.oldDeviceConnected ∧
    (events = [] → (MainCpp.deliver events g).deviceConnected = g.deviceConnected) ∧
    (events.getLast? = some .connect → (MainCpp.deliver events g).deviceConnected = true) ∧
    (events.getLast? = some .disconnect →
      (MainCpp.deliver events g).deviceConnected = false) := by
  induction events generalizing g with
  | nil => simp [MainCpp.deliver]
  | cons e es ih =>
    cases e with
    | connect =>
      have h := ih (MainCpp.ServerCallbacks.onConnect g).1
      cases es with
      | nil => simp [MainCpp.deliver, MainCpp.ServerCallbacks.onConnect]
      | cons e2 es2 =>
        simp only [MainCpp.deliver, List.getLast?_cons_cons] at h ⊢
        exact ⟨h.1, by simp, h.2.2.1, h.2.2.2⟩
    | disconnect =>
      have h := ih (MainCpp.ServerCallbacks.onDisconnect g).1
      cases es with
      | nil => simp [MainCpp.deliver, MainCpp.ServerCallbacks.onDisconnect]
      | cons e2 es2 =>
        simp only [MainCpp.deliver, List.getLast?_cons_cons] at h ⊢
        exact ⟨h.1, by simp, h.2.2.1, h.2.2.2⟩

theorem find_updateBLEStatus_poll (batteryLevel : Int) (lat lng accX accY accZ : CFloat)
    (motion : Bool) (g : Globals) :
    (FIND_Tracker.updateBLEStatus batteryLevel lat lng accX accY accZ motion g).1 =
      { g with oldDeviceConnected := g.deviceConnected } ∧
    (FIND_Tracker.updateBLEStatus batteryLevel lat lng accX accY accZ motion g).2.filter
      Effect.isStartAdvertising =
      (if seesDisconnect g then [Effect.startAdvertising] else []) := by
  cases g with
  | mk c dc old => cases dc <;> cases old <;> exact ⟨rfl, rfl⟩

theorem src_updateBLEStatus_poll (batteryLevel : Int) (lat lng accX accY accZ : CFloat)
    (motion : Bool) (g : Globals) :
    (SrcVariant.updateBLEStatus batteryLevel lat lng accX accY accZ motion g).1 =
      { g with oldDeviceConnected := g.deviceConnected } ∧
    (SrcVariant.updateBLEStatus batteryLevel lat lng accX accY accZ motion g).2.filter
      Effect.isStartAdvertising =
      (if seesDisconnect g then [Effect.startAdvertising] else []) := by
  cases g with
  | mk c dc old => cases dc <;> cases old <;> exact ⟨rfl, rfl⟩

theorem main_loop_filter_isStartAdvertising (R : FloatArithmetic) (inp : MainCpp.LoopInputs)
    (g : MainCpp.Globals) :
    (MainCpp.loop R inp g).2.filter Effect.isStartAdvertising =
      (if MainCpp.seesDisconnect g then [Effect.startAdvertising] else []) := by
  have hflash := flashLed_filter Effect.isStartAdvertising (fun _ => rfl) (fun _ => rfl) 5 100
  have hbat : (MainCpp.loopBattery R inp (MainCpp.atSleepCheck inp g)).2.filter
      Effect.isStartAdvertising = [] := by
    unfold MainCpp.loopBattery
    split_ifs
    · rw [main_checkBattery_effects]
      split_ifs
      · exact hflash
      · rfl
    · rfl
  have hsees : MainCpp.seesDisconnect (MainCpp.loopReport inp g).1 = MainCpp.seesDisconnect g := by
    unfold MainCpp.loopReport MainCpp.seesDisconnect
    split_ifs <;> rfl
  have hbefore : (MainCpp.beforeSleepCheck inp g).filter Effect.isStartAdvertising =
      (if MainCpp.seesDisconnect g then [Effect.startAdvertising] else []) := by
    unfold MainCpp.beforeSleepCheck MainCpp.loopButton MainCpp.toggleLED
    rw [main_loopReconnect_effects, main_loopReport_effects, hsees]
    split_ifs <;> rfl
  cases h : MainCpp.sleepCheck inp (MainCpp.atSleepCheck inp g)
  · rw [main_loop_awake R inp g h, List.filter_append, hbefore, hbat, List.append_nil]
  · rw [main_loop_sleeps R inp g h, List.filter_append, hbefore]
    simp [MainCpp.enterDeepSleep, Effect.isStartAdvertising]

/-- C15, as stated, fails: starting connected with the poll flag in sync, after the events
disconnect, connect the next poll takes neither transition branch, in `updateBLEStatus` of
both variants and in `loop()` of `main.cpp`: it leaves the globals as they are and the poll
itself restarts no advertising. -/
theorem disconnect_connect_between_polls_is_unseen :
    sampleGlobals.deviceConnected = true ∧ sampleGlobals.oldDeviceConnected = true ∧
    seesDisconnect (FIND_Tracker.deliver [.disconnect, .connect] sampleGlobals) = false ∧
    seesConnect (FIND_Tracker.deliver [.disconnect, .connect] sampleGlobals) = false ∧
    (FIND_Tracker.updateBLEStatus 80 ⟨0⟩ ⟨0⟩ ⟨0⟩ ⟨0⟩ ⟨0⟩ false
      (FIND_Tracker.deliver [.disconnect, .connect] sampleGlobals)).1 = sampleGlobals ∧
    Effect.startAdvertising ∉ (FIND_Tracker.updateBLEStatus 80 ⟨0⟩ ⟨0⟩ ⟨0⟩ ⟨0⟩ ⟨0⟩ false
      (FIND_Tracker.deliver [.disconnect, .connect] sampleGlobals)).2 ∧
    seesDisconnect (SrcVariant.deliver [.disconnect, .connect] sampleGlobals) = false ∧
    seesConnect (SrcVariant.deliver [.disconnect, .connect] sampleGlobals) = false ∧
    (SrcVariant.updateBLEStatus 80 ⟨0⟩ ⟨0⟩ ⟨0⟩ ⟨0⟩ ⟨0⟩ false
      (SrcVariant.deliver [.disconnect, .connect] sampleGlobals)).1 = sampleGlobals ∧
    MainCpp.connectedGlobals.deviceConnected = true ∧
    MainCpp.connectedGlobals.oldDeviceConnected = true ∧
    MainCpp.seesDisconnect
      (MainCpp.deliver [.disconnect, .connect] MainCpp.connectedGlobals) = false ∧
    MainCpp.seesConnect
      (MainCpp.deliver [.disconnect, .connect] MainCpp.connectedGlobals) = false ∧
    Effect.startAdvertising ∉ (MainCpp.loop exactArithmetic (MainCpp.quietInputs 500)
      (MainCpp.deliver [.disconnect, .connect] MainCpp.connectedGlobals)).2 := by
  decide

theorem sees_after_poll (g : Globals) :
    ¬ (seesDisconnect g = true ∧ seesConnect g = true) ∧
    seesDisconnect { g with oldDeviceConnected := g.deviceConnected } = false ∧
    seesConnect { g with oldDeviceConnected := g.deviceConnected } = false := by
  cases g with
  | mk c dc old => cases dc <;> cases old <;> simp [seesDisconnect, seesConnect]

theorem main_sees_after_poll (g : MainCpp.Globals) :
    ¬ (MainCpp.seesDisconnect g = true ∧ MainCpp.seesConnect g = true) ∧
    MainCpp.seesDisconnect { g with oldDeviceConnected := g.deviceConnected } = false ∧
    MainCpp.seesConnect { g with oldDeviceConnected := g.deviceConnected } = false := by
  cases g with
  | mk dc old m lw dsd bv bp lu lb =>
    cases dc <;> cases old <;> simp [MainCpp.seesDisconnect, MainCpp.seesConnect]

theorem main_loop_poll_flags (R : FloatArithmetic) (inp : MainCpp.LoopInputs)
    (g : MainCpp.Globals) :
    MainCpp.seesDisconnect (MainCpp.loop R inp g).1 = false ∧
    MainCpp.seesConnect (MainCpp.loop R inp g).1 = false ∧
    (MainCpp.loop R inp g).1.oldDeviceConnected = g.deviceConnected ∧
    (MainCpp.loop R inp g).1.deviceConnected = g.deviceConnected := by
  have h := main_loop_fields R inp g
  have h1 : (MainCpp.loop R inp g).1.deviceConnected = g.deviceConnected := by
    rw [h.1, main_atSleepCheck_deviceConnected]
  have h2 : (MainCpp.loop R inp g).1.oldDeviceConnected = g.deviceConnected := by
    rw [h.2.1, main_atSleepCheck_oldDeviceConnected]
  refine ⟨?_, ?_, h2, h1⟩
  · simp [MainCpp.seesDisconnect, h1, h2]
  · simp [MainCpp.seesConnect, h1, h2]

/-- C15, amended: the poll compares the connection flag with its value at the previous
poll, so of the link events delivered between two polls only the net effect is reported.
In `updateBLEStatus` of both variants and in `loop()` of `main.cpp`: the events never
touch the poll flag and leave the connection flag as the last event sets it; the poll
takes the branch for a transition to Disconnected if and only if the flag is then false
and was true at the previous poll (and only then does the poll restart advertising), the
branch for a transition to Connected if and only if it is true and was false, and never
both; so, starting in sync, a sequence of events that ends as it started, such as
disconnect, connect from Connected, is reported as no transition. After the poll the poll
flag equals the connection flag, and a further poll with no event in between takes neither
branch: no transition is reported twice. -/
theorem poll_reports_net_transition (R : FloatArithmetic) (inp : MainCpp.LoopInputs)
    (batteryLevel : Int) (lat lng accX accY accZ : CFloat) (motion : Bool)
    (events : List LinkEvent) (g : Globals) (m : MainCpp.Globals) :
    ((FIND_Tracker.deliver events g).oldDeviceConnected = g.oldDeviceConnected ∧
      (events.getLast? = some .connect → (FIND_Tracker.deliver events g).deviceConnected = true) ∧
      (events.getLast? = some .disconnect →
        (FIND_Tracker.deliver events g).deviceConnected = false) ∧
      (seesDisconnect (FIND_Tracker.deliver events g) = true ↔
        (FIND_Tracker.deliver events g).deviceConnected = false ∧
          g.oldDeviceConnected = true) ∧
      (seesConnect (FIND_Tracker.deliver events g) = true ↔
        (FIND_Tracker.deliver events g).deviceConnected = true ∧
          g.oldDeviceConnected = false) ∧
      ¬ (seesDisconnect (FIND_Tracker.deliver events g) = true ∧
          seesConnect (FIND_Tracker.deliver events g) = true) ∧
      (Effect.startAdvertising ∈ (FIND_Tracker.updateBLEStatus batteryLevel lat lng accX accY
          accZ motion (FIND_Tracker.deliver events g)).2 ↔
        seesDisconnect (FIND_Tracker.deliver events g) = true) ∧
      (FIND_Tracker.updateBLEStatus batteryLevel lat lng accX accY accZ motion
          (FIND_Tracker.deliver events g)).1.oldDeviceConnected =
        (FIND_Tracker.deliver events g).deviceConnected ∧
      seesDisconnect (FIND_Tracker.updateBLEStatus batteryLevel lat lng accX accY accZ motion
          (FIND_Tracker.deliver events g)).1 = false ∧
      seesConnect (FIND_Tracker.updateBLEStatus batteryLevel lat lng accX accY accZ motion
          (FIND_Tracker.deliver events g)).1 = false ∧
      (g.deviceConnected = true → g.oldDeviceConnected = true →
        events.getLast? = some .connect →
        seesDisconnect (FIND_Tracker.deliver events g) = false ∧
        seesConnect (FIND_Tracker.deliver events g) = false)) ∧
    ((SrcVariant.deliver events g).oldDeviceConnected = g.oldDeviceConnected ∧
      (events.getLast? = some .connect → (SrcVariant.deliver events g).deviceConnected = true) ∧
      (events.getLast? = some .disconnect →
        (SrcVariant.deliver events g).deviceConnected = false) ∧
      (seesDisconnect (SrcVariant.deliver events g) = true ↔
        (SrcVariant.deliver events g).deviceConnected = false ∧ g.oldDeviceConnected = true) ∧
      (seesConnect (SrcVariant.deliver events g) = true ↔
        (SrcVariant.deliver events g).deviceConnected = true ∧ g.oldDeviceConnected = false) ∧
      ¬ (seesDisconnect (SrcVariant.deliver events g) = true ∧
          seesConnect (SrcVariant.deliver events g) = true) ∧
      (Effect.startAdvertising ∈ (SrcVariant.updateBLEStatus batteryLevel lat lng accX accY
          accZ motion (SrcVariant.deliver events g)).2 ↔
        seesDisconnect (SrcVariant.deliver events g) = true) ∧
      (SrcVariant.updateBLEStatus batteryLevel lat lng accX accY accZ motion
          (SrcVariant.deliver events g)).1.oldDeviceConnected =
        (SrcVariant.deliver events g).deviceConnected ∧
      seesDisconnect (SrcVariant.updateBLEStatus batteryLevel lat lng accX accY accZ motion
          (SrcVariant.deliver events g)).1 = false ∧
      seesConnect (SrcVariant.updateBLEStatus batteryLevel lat lng accX accY accZ motion
          (SrcVariant.deliver events g)).1 = false ∧
      (g.deviceConnected = true → g.oldDeviceConnected = true →
        events.getLast? = some .connect →
        seesDisconnect (SrcVariant.deliver events g) = false ∧
        seesConnect (SrcVariant.deliver events g) = false)) ∧
    ((MainCpp.deliver events m).oldDeviceConnected = m.oldDeviceConnected ∧
      (events.getLast? = some .connect → (MainCpp.deliver events m).deviceConnected = true) ∧
      (events.getLast? = some .disconnect →
        (MainCpp.deliver events m).deviceConnected = false) ∧
      (MainCpp.seesDisconnect (MainCpp.deliver events m) = true ↔
        (MainCpp.deliver events m).deviceConnected = false ∧ m.oldDeviceConnected = true) ∧
      (MainCpp.seesConnect (MainCpp.deliver events m) = true ↔
        (MainCpp.deliver events m).deviceConnected = true ∧ m.oldDeviceConnected = false) ∧
      ¬ (MainCpp.seesDisconnect (MainCpp.deliver events m) = true ∧
          MainCpp.seesConnect (MainCpp.deliver events m) = true) ∧
      (Effect.startAdvertising ∈ (MainCpp.loop R inp (MainCpp.deliver events m)).2 ↔
        MainCpp.seesDisconnect (MainCpp.deliver events m) = true) ∧
      (MainCpp.loop R inp (MainCpp.deliver events m)).1.oldDeviceConnected =
        (MainCpp.deliver events m).deviceConnected ∧
      MainCpp.seesDisconnect (MainCpp.loop R inp (MainCpp.deliver events m)).1 = false ∧
      MainCpp.seesConnect (MainCpp.loop R inp (MainCpp.deliver events m)).1 = false ∧
      (m.deviceConnected = true → m.oldDeviceConnected = true →
        events.getLast? = some .connect →
        MainCpp.seesDisconnect (MainCpp.deliver events m) = false ∧
        MainCpp.seesConnect (MainCpp.deliver events m) = false)) := by
  have hf := find_deliver_flags events g
  have hs := src_deliver_flags events g
  have hm := main_deliver_flags events m
  have pf := find_updateBLEStatus_poll batteryLevel lat lng accX accY accZ motion
    (FIND_Tracker.deliver events g)
  have ps := src_updateBLEStatus_poll batteryLevel lat lng accX accY accZ motion
    (SrcVariant.deliver events g)
  have pm := main_loop_poll_flags R inp (MainCpp.deliver events m)
  have am := main_loop_filter_isStartAdvertising R inp (MainCpp.deliver events m)
  refine ⟨⟨hf.1, hf.2.2.2.1, hf.2.2.2.2, ?_, ?_, (sees_after_poll _).1, ?_, ?_, ?_, ?_, ?_⟩,
    ⟨hs.1, hs.2.2.2.1, hs.2.2.2.2, ?_, ?_, (sees_after_poll _).1, ?_, ?_, ?_, ?_, ?_⟩,
    ⟨hm.1, hm.2.2.1, hm.2.2.2, ?_, ?_, (main_sees_after_poll _).1, ?_, pm.2.2.1, pm.1, pm.2.1,
      ?_⟩⟩
  · simp [seesDisconnect, hf.1]
  · simp [seesConnect, hf.1]
  · rw [mem_of_filter_eq _ _ _ Effect.startAdvertising pf.2 rfl]
    split_ifs with h <;> simp [h]
  · rw [pf.1]
  · rw [pf.1]; exact (sees_after_poll _).2.1
  · rw [pf.1]; exact (sees_after_poll _).2.2
  · intro _ ho hl
    simp [seesDisconnect, seesConnect, hf.1, ho, hf.2.2.2.1 hl]
  · simp [seesDisconnect, hs.1]
  · simp [seesConnect, hs.1]
  · rw [mem_of_filter_eq _ _ _ Effect.startAdvertising ps.2 rfl]
    split_ifs with h <;> simp [h]
  · rw [ps.1]
  · rw [ps.1]; exact (sees_after_poll _).2.1
  · rw [ps.1]; exact (sees_after_poll _).2.2
  · intro _ ho hl
    simp [seesDisconnect, seesConnect, hs.1, ho, hs.2.2.2.1 hl]
  · simp [MainCpp.seesDisconnect, hm.1]
  · simp [MainCpp.seesConnect, hm.1]
  · rw [mem_of_filter_eq _ _ _ Effect.startAdvertising am rfl]
    split_ifs with h <;> simp [h]
  · intro _ ho hl
    simp [MainCpp.seesDisconnect, MainCpp.seesConnect, hm.1, ho, hm.2.2.1 hl]


/-- C16: a call of `updateBLEStatus` with `deviceConnected` true makes exactly two calls,
`setValue` of the document with the seven members `lat`, `lng`, `acc_x`, `acc_y`, `acc_z`,
`motion`, `battery`, in this order, whose values are the arguments of the call and the
battery level, and then `notify()`; the calls are the same for any two `DeviceConfig`
values, so no field of the configuration, `api_key` included, is in the payload. A call
with `deviceConnected` false makes no `setValue` and no `notify()`. So in both variants. -/
theorem status_payload_is_the_sample (batteryLevel : Int) (lat lng accX accY accZ : CFloat)
    (motion : Bool) (g : Globals) (c : DeviceConfig) :
    (g.deviceConnected = true →
      (FIND_Tracker.updateBLEStatus batteryLevel lat lng accX accY accZ motion g).2 =
        [Effect.setValue
          [(ascii "lat", .number lat), (ascii "lng", .number lng),
           (ascii "acc_x", .number accX), (ascii "acc_y", .number accY),
           (ascii "acc_z", .number accZ), (ascii "motion", .flag motion),
           (ascii "battery", .whole batteryLevel)],
         Effect.notify] ∧
      (SrcVariant.updateBLEStatus batteryLevel lat lng accX accY accZ motion g).2 =
        [Effect.setValue
          [(ascii "lat", .number lat), (ascii "lng", .number lng),
           (ascii "acc_x", .number accX), (ascii "acc_y", .number accY),
           (ascii "acc_z", .number accZ), (ascii "motion", .flag motion),
           (ascii "battery", .whole batteryLevel)],
         Effect.notify]) ∧
    (FIND_Tracker.updateBLEStatus batteryLevel lat lng accX accY accZ motion
        { g with config := c }).2 =
      (FIND_Tracker.updateBLEStatus batteryLevel lat lng accX accY accZ motion g).2 ∧
    (SrcVariant.updateBLEStatus batteryLevel lat lng accX accY accZ motion
        { g with config := c }).2 =
      (SrcVariant.updateBLEStatus batteryLevel lat lng accX accY accZ motion g).2 ∧
    (g.deviceConnected = false →
      (FIND_Tracker.updateBLEStatus batteryLevel lat lng accX accY accZ motion g).2.filter
        (fun e => e.isSetValue || e.isNotify) = [] ∧
      (SrcVariant.updateBLEStatus batteryLevel lat lng accX accY accZ motion g).2.filter
        (fun e => e.isSetValue || e.isNotify) = []) := by
  cases g with
  | mk c0 dc old =>
    cases dc <;> cases old <;>
      exact ⟨fun h => by first | exact ⟨rfl, rfl⟩ | exact Bool.noConfusion h, rfl, rfl,
        fun h => by first | exact ⟨rfl, rfl⟩ | exact Bool.noConfusion h⟩

/-- On the sample globals, which have a client connected and hold the API key `k3y`, the
status update writes the seven members and notifies. -/
theorem status_payload_is_the_sample_witness :
    sampleGlobals.deviceConnected = true ∧ c_str sampleGlobals.config.api_key = ascii "k3y" ∧
    (FIND_Tracker.updateBLEStatus 80 ⟨1⟩ ⟨2⟩ ⟨3⟩ ⟨4⟩ ⟨5⟩ true sampleGlobals).2 =
      [Effect.setValue
        [(ascii "lat", .number ⟨1⟩), (ascii "lng", .number ⟨2⟩), (ascii "acc_x", .number ⟨3⟩),
         (ascii "acc_y", .number ⟨4⟩), (ascii "acc_z", .number ⟨5⟩), (ascii "motion", .flag true),
         (ascii "battery", .whole 80)],
       Effect.notify] :=
  ⟨rfl, by decide,
    ((status_payload_is_the_sample 80 ⟨1⟩ ⟨2⟩ ⟨3⟩ ⟨4⟩ ⟨5⟩ true sampleGlobals memset_zero).1 rfl).1⟩

/-- C17, as stated, fails for `main.cpp`: its disconnect handler sets `deviceConnected`
false and makes no call, so it does not start advertising. -/
theorem main_disconnect_handler_does_not_advertise :
    (MainCpp.ServerCallbacks.onDisconnect MainCpp.connectedGlobals).1.deviceConnected = false ∧
    (MainCpp.ServerCallbacks.onDisconnect MainCpp.connectedGlobals).2 = [] ∧
    Effect.startAdvertising ∉ (MainCpp.ServerCallbacks.onDisconnect MainCpp.connectedGlobals).2 := by
  decide

/-- C17, amended: in both variants of `bluetooth_manager.cpp` the disconnect handler sets
`deviceConnected` false and calls `startAdvertising()` once in the same invocation. In
`main.cpp` the disconnect handler only sets `deviceConnected` false; advertising is
restarted by the next iteration of `loop()`, once, before its deep-sleep test, when the poll
flag still says connected. In all three a connect event sets `deviceConnected` true and
starts no advertising (the variant of `src/` also switches the LED on), and neither event
changes anything else in the globals. -/
theorem disconnect_restarts_advertising (R : FloatArithmetic) (inp : MainCpp.LoopInputs)
    (g : Globals) (m : MainCpp.Globals) :
    ((FIND_Tracker.ServerCallbacks.onDisconnect g).1 = { g with deviceConnected := false } ∧
      (FIND_Tracker.ServerCallbacks.onDisconnect g).2 = [Effect.startAdvertising] ∧
      (FIND_Tracker.ServerCallbacks.onConnect g).1 = { g with deviceConnected := true } ∧
      (FIND_Tracker.ServerCallbacks.onConnect g).2 = []) ∧
    ((SrcVariant.ServerCallbacks.onDisconnect g).1 = { g with deviceConnected := false } ∧
      (SrcVariant.ServerCallbacks.onDisconnect g).2.filter Effect.isStartAdvertising =
        [Effect.startAdvertising] ∧
      (SrcVariant.ServerCallbacks.onConnect g).1 = { g with deviceConnected := true } ∧
      (SrcVariant.ServerCallbacks.onConnect g).2 = [Effect.digitalWrite LED_PIN true]) ∧
    ((MainCpp.ServerCallbacks.onDisconnect m).1 = { m with deviceConnected := false } ∧
      (MainCpp.ServerCallbacks.onDisconnect m).2 = [] ∧
      (MainCpp.ServerCallbacks.onConnect m).1 = { m with deviceConnected := true } ∧
      (MainCpp.ServerCallbacks.onConnect m).2 = [] ∧
      (m.oldDeviceConnected = true →
        (MainCpp.loop R inp (MainCpp.ServerCallbacks.onDisconnect m).1).2.filter
          Effect.isStartAdvertising = [Effect.startAdvertising] ∧
        Effect.startAdvertising ∈
          MainCpp.beforeSleepCheck inp (MainCpp.ServerCallbacks.onDisconnect m).1) ∧
      (m.oldDeviceConnected = false →
        Effect.startAdvertising ∉
          (MainCpp.loop R inp (MainCpp.ServerCallbacks.onDisconnect m).1).2)) := by
  refine ⟨⟨rfl, rfl, rfl, rfl⟩, ⟨rfl, rfl, rfl, rfl⟩, rfl, rfl, rfl, rfl, ?_, ?_⟩
  · intro hold
    have hsees : MainCpp.seesDisconnect (MainCpp.ServerCallbacks.onDisconnect m).1 = true := by
      simp [MainCpp.seesDisconnect, MainCpp.ServerCallbacks.onDisconnect, hold]
    refine ⟨by rw [main_loop_filter_isStartAdvertising, if_pos hsees], ?_⟩
    have hrep : MainCpp.loopReport inp (MainCpp.ServerCallbacks.onDisconnect m).1 =
        ((MainCpp.ServerCallbacks.onDisconnect m).1, []) := by
      simp [MainCpp.loopReport, MainCpp.ServerCallbacks.onDisconnect]
    unfold MainCpp.beforeSleepCheck
    rw [hrep, main_loopReconnect_effects, if_pos hsees]
    simp
  · intro hold
    have hsees : MainCpp.seesDisconnect (MainCpp.ServerCallbacks.onDisconnect m).1 = false := by
      simp [MainCpp.seesDisconnect, MainCpp.ServerCallbacks.onDisconnect, hold]
    rw [mem_of_filter_eq _ _ _ Effect.startAdvertising
      (main_loop_filter_isStartAdvertising R inp _) rfl, hsees]
    simp


/-! ## `checkBattery` -/

theorem toLong_of_nonneg (q : ℚ) (h : 0 ≤ q) : toLong q = ⌊q⌋ := by
  unfold toLong
  rw [Rat.floor_def, Int.tdiv_eq_ediv (Rat.num_nonneg.mpr h) (Int.ofNat_nonneg _)]

theorem toLong_of_nonpos (q : ℚ) (h : q ≤ 0) : toLong q ≤ 0 := by
  unfold toLong
  have hn : q.num ≤ 0 := Rat.num_nonpos.mpr h
  have h1 : (-q.num).tdiv (q.den : Int) = -(q.num.tdiv q.den) := Int.neg_tdiv _ _
  have h2 : 0 ≤ (-q.num).tdiv (q.den : Int) :=
    Int.tdiv_nonneg (by omega) (Int.ofNat_nonneg _)
  omega

theorem toLong_le (q : ℚ) (n : Int) (hn : 0 ≤ n) (h : q ≤ n) : toLong q ≤ n := by
  rcases le_total 0 q with h0 | h0
  · rw [toLong_of_nonneg q h0]
    exact_mod_cast (Int.floor_le q).trans h
  · exact (toLong_of_nonpos q h0).trans hn

theorem le_toLong (q : ℚ) (n : Int) (hn : 0 ≤ n) (h : (n : ℚ) ≤ q) : n ≤ toLong q := by
  have h0 : (0 : ℚ) ≤ q := le_trans (by exact_mod_cast hn) h
  rw [toLong_of_nonneg q h0]
  exact Int.le_floor.mpr h

theorem map_battery (x : Int) : map x 320 420 0 100 = x - 320 := by
  unfold map
  have : (x - 320) * (100 - 0) = (x - 320) * 100 := by ring
  rw [this, show (420 : Int) - 320 = 100 from rfl, Int.mul_tdiv_cancel _ (by decide)]
  ring

theorem constrain_bounds (amt : Int) : 0 ≤ constrain amt 0 100 ∧ constrain amt 0 100 ≤ 100 := by
  unfold constrain
  split_ifs <;> omega

theorem main_batteryPercentageOf_eq (R : FloatArithmetic) (v : ℚ) :
    MainCpp.batteryPercentageOf R v = constrain (toLong (R.toFloat (v * 100)) - 320) 0 100 := by
  unfold MainCpp.batteryPercentageOf
  rw [map_battery]

theorem toFloat_int (R : FloatArithmetic) (hR : R.IsRounding) (n : Int) (h0 : 0 ≤ n)
    (h : n ≤ 1000) : R.toFloat n = n := by
  apply hR.2
  rw [abs_of_nonneg h0]
  norm_num
  omega

/-- C14: for every raw ADC reading (those in 0..4095 included), with a `float` rounding
that is monotone and exact on the integers up to `2 ^ 24`, `checkBattery` stores the voltage
`rawValue * (3.3 / 4095.0) * 2` and a percentage that is an integer between 0 and 100: it is
0 when that voltage is at or below 3.20, the low bound of the mapping, 100 when it is at or
above 4.20, the high bound, 50 when it is the midpoint 3.70, and between the two bounds it
differs by at most 1 from the linear map of the voltage onto 0..100. The bounds are those
of the call `map(batteryVoltage * 100, 320, 420, 0, 100)`; at 3.30, the cut-off voltage of
the other `config.h`, the percentage is 10. -/
theorem battery_percentage_bounds (R : FloatArithmetic) (hR : R.IsRounding) (rawValue : Nat)
    (g : MainCpp.Globals) :
    (MainCpp.checkBattery R rawValue g).1.batteryVoltage = MainCpp.batteryVoltageOf R rawValue ∧
    (MainCpp.checkBattery R rawValue g).1.batteryPercentage =
      MainCpp.batteryPercentageOf R (MainCpp.batteryVoltageOf R rawValue) ∧
    0 ≤ (MainCpp.checkBattery R rawValue g).1.batteryPercentage ∧
    (MainCpp.checkBattery R rawValue g).1.batteryPercentage ≤ 100 ∧
    (MainCpp.batteryVoltageOf R rawValue ≤ 16 / 5 →
      (MainCpp.checkBattery R rawValue g).1.batteryPercentage = 0) ∧
    (21 / 5 ≤ MainCpp.batteryVoltageOf R rawValue →
      (MainCpp.checkBattery R rawValue g).1.batteryPercentage = 100) ∧
    (MainCpp.batteryVoltageOf R rawValue = 37 / 10 →
      (MainCpp.checkBattery R rawValue g).1.batteryPercentage = 50) ∧
    (MainCpp.batteryVoltageOf R rawValue = 33 / 10 →
      (MainCpp.checkBattery R rawValue g).1.batteryPercentage = 10) ∧
    (16 / 5 ≤ MainCpp.batteryVoltageOf R rawValue → MainCpp.batteryVoltageOf R rawValue ≤ 21 / 5 →
      |(((MainCpp.checkBattery R rawValue g).1.batteryPercentage : Int) : ℚ) -
        (MainCpp.batteryVoltageOf R rawValue - 16 / 5) * 100| ≤ 1) := by
  have hpct : (MainCpp.checkBattery R rawValue g).1.batteryPercentage =
      MainCpp.batteryPercentageOf R (MainCpp.batteryVoltageOf R rawValue) := rfl
  refine ⟨rfl, rfl, ?_⟩
  rw [hpct, main_batteryPercentageOf_eq]
  generalize MainCpp.batteryVoltageOf R rawValue = v
  have h320 : R.toFloat ((320 : Int) : ℚ) = ((320 : Int) : ℚ) := toFloat_int R hR 320 (by decide) (by decide)
  have h420 : R.toFloat ((420 : Int) : ℚ) = ((420 : Int) : ℚ) := toFloat_int R hR 420 (by decide) (by decide)
  refine ⟨(constrain_bounds _).1, (constrain_bounds _).2, ?_, ?_, ?_, ?_, ?_⟩
  · intro hv
    have hq : R.toFloat (v * 100) ≤ ((320 : Int) : ℚ) := by
      rw [← h320]
      apply hR.1
      push_cast
      linarith
    have hc := toLong_le _ 320 (by decide) hq
    unfold constrain
    split_ifs <;> omega
  · intro hv
    have hq : ((420 : Int) : ℚ) ≤ R.toFloat (v * 100) := by
      rw [← h420]
      apply hR.1
      push_cast
      linarith
    have hc := le_toLong _ 420 (by decide) hq
    unfold constrain
    split_ifs <;> omega
  · intro hv
    have hx : v * 100 = ((370 : Int) : ℚ) := by rw [hv]; norm_num
    rw [hx, toFloat_int R hR 370 (by decide) (by decide), toLong_of_nonneg _ (by norm_num),
      Int.floor_intCast]
    decide
  · intro hv
    have hx : v * 100 = ((330 : Int) : ℚ) := by rw [hv]; norm_num
    rw [hx, toFloat_int R hR 330 (by decide) (by decide), toLong_of_nonneg _ (by norm_num),
      Int.floor_intCast]
    decide
  · intro hlo hhi
    have hx0 : (320 : ℚ) ≤ v * 100 := by linarith
    have hx1 : v * 100 ≤ 420 := by linarith
    have hn0 : (320 : Int) ≤ ⌊v * 100⌋ := Int.le_floor.mpr (by exact_mod_cast hx0)
    have hn1 : ⌊v * 100⌋ ≤ 420 := by
      have : ((⌊v * 100⌋ : Int) : ℚ) ≤ ((420 : Int) : ℚ) :=
        (Int.floor_le _).trans (by exact_mod_cast hx1)
      exact_mod_cast this
    have hfl : R.toFloat ((⌊v * 100⌋ : Int) : ℚ) = ((⌊v * 100⌋ : Int) : ℚ) :=
      toFloat_int R hR _ (by omega) (by omega)
    have hfl1 : R.toFloat (((⌊v * 100⌋ + 1 : Int)) : ℚ) = ((⌊v * 100⌋ + 1 : Int) : ℚ) :=
      toFloat_int R hR _ (by omega) (by omega)
    have hqlo : ((⌊v * 100⌋ : Int) : ℚ) ≤ R.toFloat (v * 100) := by
      rw [← hfl]
      exact hR.1 (Int.floor_le _)
    have hqhi : R.toFloat (v * 100) ≤ ((⌊v * 100⌋ + 1 : Int) : ℚ) := by
      rw [← hfl1]
      apply hR.1
      push_cast
      exact (Int.lt_floor_add_one _).le
    have hclo := le_toLong _ _ (by omega) hqlo
    have hchi := toLong_le _ _ (by omega) hqhi
    have hq420 : R.toFloat (v * 100) ≤ ((420 : Int) : ℚ) := by
      rw [← h420]
      apply hR.1
      push_cast
      exact hx1
    have hc420 := toLong_le _ 420 (by decide) hq420
    have hcon : constrain (toLong (R.toFloat (v * 100)) - 320) 0 100 =
        toLong (R.toFloat (v * 100)) - 320 := by
      unfold constrain
      split_ifs <;> omega
    rw [hcon]
    have hfloor := Int.floor_le (v * 100)
    have hfloor1 := Int.lt_floor_add_one (v * 100)
    have hcq1 : ((⌊v * 100⌋ : Int) : ℚ) ≤ ((toLong (R.toFloat (v * 100)) : Int) : ℚ) := by
      exact_mod_cast hclo
    have hcq2 : ((toLong (R.toFloat (v * 100)) : Int) : ℚ) ≤ ((⌊v * 100⌋ : Int) : ℚ) + 1 := by
      exact_mod_cast hchi
    rw [abs_le]
    push_cast
    constructor <;> linarith

theorem exactArithmetic_isRounding : exactArithmetic.IsRounding :=
  ⟨fun _ _ h => h, fun _ _ => rfl⟩

theorem exact_batteryVoltageOf (rawValue : Nat) :
    MainCpp.batteryVoltageOf exactArithmetic rawValue = (rawValue : ℚ) * (33 / 10 / 4095) * 2 := by
  rfl

/-- With exact arithmetic: the reading 0 has voltage 0 and gives 0 %, the reading 4095 has
voltage 6.6 and gives 100 %, and the reading 2296, the nearest to the midpoint 3.70 V,
gives 50 % within 1. -/
theorem battery_percentage_bounds_witness :
    exactArithmetic.IsRounding ∧
    MainCpp.batteryVoltageOf exactArithmetic 0 ≤ 16 / 5 ∧
    (MainCpp.checkBattery exactArithmetic 0 MainCpp.initialGlobals).1.batteryPercentage = 0 ∧
    21 / 5 ≤ MainCpp.batteryVoltageOf exactArithmetic 4095 ∧
    (MainCpp.checkBattery exactArithmetic 4095 MainCpp.initialGlobals).1.batteryPercentage =
      100 ∧
    |MainCpp.batteryVoltageOf exactArithmetic 2296 - 37 / 10| ≤ 1 / 1000 ∧
    |(((MainCpp.checkBattery exactArithmetic 2296 MainCpp.initialGlobals).1.batteryPercentage :
        Int) : ℚ) - 50| ≤ 11 / 10 :=
  have h0 : MainCpp.batteryVoltageOf exactArithmetic 0 ≤ 16 / 5 := by
    rw [exact_batteryVoltageOf]; norm_num
  have h1 : 21 / 5 ≤ MainCpp.batteryVoltageOf exactArithmetic 4095 := by
    rw [exact_batteryVoltageOf]; norm_num
  have hm : MainCpp.batteryVoltageOf exactArithmetic 2296 = 25256 / 6825 := by
    rw [exact_batteryVoltageOf]; norm_num
  have hmid := (battery_percentage_bounds exactArithmetic exactArithmetic_isRounding 2296
    MainCpp.initialGlobals).2.2.2.2.2.2.2.2 (by rw [hm]; norm_num) (by rw [hm]; norm_num)
  ⟨exactArithmetic_isRounding, h0,
    (battery_percentage_bounds exactArithmetic exactArithmetic_isRounding 0
      MainCpp.initialGlobals).2.2.2.2.1 h0,
    h1,
    (battery_percentage_bounds exactArithmetic exactArithmetic_isRounding 4095
      MainCpp.initialGlobals).2.2.2.2.2.1 h1,
    by rw [hm, abs_le]; constructor <;> norm_num,
    by
      rw [hm] at hmid
      rw [abs_le] at hmid ⊢
      constructor <;> linarith [hmid.1, hmid.2]⟩
